import Mathlib

/-! DBD::drizzle: placeholder scanner and statement rewriter.

A shallow embedding of `count_params`, `parse_number` and `parse_params` of
`dbdimp.c`.  A C string or a Perl string buffer is a `List Char`; the end of the
list stands for the NUL byte that terminates the buffer.  Loops whose pointer
jumps ahead (the quoted-literal loops nested in the scanning loops) are
written with a step budget that the wrappers set to the statement length plus
one, and the theorems are about those wrappers.
-/

namespace DBDDrizzle

/-! ## Characters -/

/-- The NUL byte. -/
def NUL : Char := Char.ofNat 0

/-- The three characters that open a quoted literal: the `case` labels
backquote, double quote, single quote of `count_params` and `parse_params`. -/
def is_quote (c : Char) : Bool :=
  c == Char.ofNat 96 || c == '"' || c == Char.ofNat 39

/-- The backslash character. -/
def BACKSLASH : Char := Char.ofNat 92

/-- The single quote character. -/
def SQUOTE : Char := Char.ofNat 39

/-! ## count_params (dbdimp.c 53-93) -/

/-- The inner `while ((c = *ptr) && c != end_token)` loop of `count_params`
followed by `if (c) ++ptr;`.  It returns what is left of the text for the outer
loop.  The test `if (c == '\\') if (! *ptr) continue;` reads `*ptr`, which is
`c` itself (the pointer has not moved), so the `continue` is never taken and
both arms fall through to `++ptr`. -/
def count_params_skip (end_token : Char) : List Char → List Char
  | [] => []
  | c :: rest =>
    if c = NUL then c :: rest
    else if c = end_token then rest
    else if c = BACKSLASH then
      (if c = NUL then c :: rest else count_params_skip end_token rest)
    else count_params_skip end_token rest

/-- The outer `while ( (c = *ptr++) )` loop of `count_params` with its
`switch`; `fuel` bounds the number of iterations. -/
def count_params_loop : Nat → List Char → Nat → Nat
  | 0, _, num_params => num_params
  | _ + 1, [], num_params => num_params
  | fuel + 1, c :: rest, num_params =>
    if c = NUL then num_params
    else if is_quote c then
      count_params_loop fuel (count_params_skip c rest) num_params
    else if c = '?' then count_params_loop fuel rest (num_params + 1)
    else count_params_loop fuel rest num_params

/-- The function `count_params(char *statement)`. -/
def count_params (statement : List Char) : Nat :=
  count_params_loop (statement.length + 1) statement 0

/-! ## parse_number (dbdimp.c 3065-3122) -/

/-- The C library `isspace` in the C locale. -/
def isspace (c : Char) : Bool :=
  c == ' ' || (9 ≤ c.toNat && c.toNat ≤ 13)

/-- The C library `isdigit`. -/
def isdigit (c : Char) : Bool :=
  48 ≤ c.toNat && c.toNat ≤ 57

/-- The C library `strlen`: the offset of the first NUL byte. -/
def strlen : List Char → Nat
  | [] => 0
  | c :: rest => if c = NUL then 0 else strlen rest + 1

/-- The loop `while (*cp && isspace(*cp)) cp++;` of `parse_number`: the offset
`cp - string` it stops at. -/
def parse_number_space : List Char → Nat
  | [] => 0
  | c :: rest => if c ≠ NUL ∧ isspace c then parse_number_space rest + 1 else 0

/-- The loop `for ( ; *cp; cp++)` of `parse_number`, entered with `cp` at
offset `pos` and the text from there on; it returns the offset at which
`cp` stops.  The test `cp > string` is `0 < pos`. -/
def parse_number_for : List Char → Nat → Bool → Bool → Nat
  | [], pos, _, _ => pos
  | c :: rest, pos, seen_neg, seen_dec =>
    if c = NUL then pos
    else if c = '-' then
      if seen_neg then pos
      else if 0 < pos then pos
      else parse_number_for rest (pos + 1) true seen_dec
    else if c = '.' then
      if seen_dec then pos
      else parse_number_for rest (pos + 1) seen_neg true
    else if !isdigit c then pos
    else parse_number_for rest (pos + 1) seen_neg seen_dec

/-- The function `parse_number(string, len, end)`: the pair of the returned
int (0 or -1) and the offset `*end - string`. -/
def parse_number (string : List Char) (len : Nat) : Int × Nat :=
  let len := if len ≤ 0 then strlen string else len
  let ws := parse_number_space string
  let cp := parse_number_for (string.drop ws) ws false false
  (if cp < len then -1 else 0, cp)

/-! ## Parameter slots -/

/-- Modelled from the spec: the SQL type tags of DBI's `dbi_sql.h`, a header
that is not under src/; the values are the ODBC numbers. -/
def SQL_NUMERIC : Int := 2
/-- Modelled from the spec: SQL type tag of `dbi_sql.h`. -/
def SQL_DECIMAL : Int := 3
/-- Modelled from the spec: SQL type tag of `dbi_sql.h`. -/
def SQL_INTEGER : Int := 4
/-- Modelled from the spec: SQL type tag of `dbi_sql.h`. -/
def SQL_SMALLINT : Int := 5
/-- Modelled from the spec: SQL type tag of `dbi_sql.h`. -/
def SQL_FLOAT : Int := 6
/-- Modelled from the spec: SQL type tag of `dbi_sql.h`. -/
def SQL_REAL : Int := 7
/-- Modelled from the spec: SQL type tag of `dbi_sql.h`. -/
def SQL_DOUBLE : Int := 8
/-- Modelled from the spec: SQL type tag of `dbi_sql.h`. -/
def SQL_VARCHAR : Int := 12
/-- Modelled from the spec: SQL type tag of `dbi_sql.h`. -/
def SQL_BIGINT : Int := -5
/-- Modelled from the spec: SQL type tag of `dbi_sql.h`. -/
def SQL_TINYINT : Int := -6

/-- A Perl scalar as far as `parse_params` looks at it: `SvOK` (defined),
`SvNIOK` (carries a native number) and the text `SvPV` yields. -/
structure SV where
  ok : Bool
  niok : Bool
  pv : List Char
deriving DecidableEq, Repr

/-- The struct `imp_sth_ph_t` of dbdimp.h: `value` is a pointer (NULL when the
slot was never bound), `type` is 0 when no type is known. -/
structure imp_sth_ph_t where
  value : Option SV
  type : Int
deriving DecidableEq, Repr

/-! ## parse_params (dbdimp.c 180-375) -/

/-- The `switch (ph->type)` of `parse_params` that sets `is_num`. -/
def is_num_type (t : Int) : Bool :=
  t == SQL_NUMERIC || t == SQL_DECIMAL || t == SQL_INTEGER || t == SQL_SMALLINT ||
  t == SQL_FLOAT || t == SQL_REAL || t == SQL_DOUBLE || t == SQL_BIGINT ||
  t == SQL_TINYINT

/-- One round of the first `for` loop of `parse_params`: a defined value
whose slot has no type gets one, by `bind_type_guessing`. -/
def parse_params_guess (bind_type_guessing : Nat) (ph : imp_sth_ph_t) : imp_sth_ph_t :=
  match ph.value with
  | none => ph
  | some sv =>
    if !sv.ok then ph
    else if ph.type ≠ 0 then ph
    else if bind_type_guessing > 1 then
      if (parse_number sv.pv sv.pv.length).1 ≠ 0 then { ph with type := SQL_VARCHAR }
      else { ph with type := SQL_INTEGER }
    else if bind_type_guessing ≠ 0 then
      { ph with type := if sv.niok then SQL_INTEGER else SQL_VARCHAR }
    else { ph with type := SQL_VARCHAR }

/-- The first `for` loop of `parse_params` over the `num_params` slots: the
parameter array as the call leaves it. -/
def parse_params_types (params : List imp_sth_ph_t) (num_params : Nat)
    (bind_type_guessing : Nat) : List imp_sth_ph_t :=
  (params.take num_params).map (parse_params_guess bind_type_guessing) ++
    params.drop num_params

/-- The C library `strncmp(s, t, n) == 0`; a list that has ended reads as NUL. -/
def strncmp_zero : List Char → List Char → Nat → Bool
  | _, _, 0 => true
  | s, t, n + 1 =>
    if s.headD NUL ≠ t.headD NUL then false
    else if s.headD NUL = NUL then true
    else strncmp_zero s.tail t.tail n

/-- The LIMIT test at the head of each round of the main loop. -/
def limit_match (c : Char) (rest : List Char) : Bool :=
  (c == 'l' || c == 'L') &&
    (strncmp_zero rest "imit ?".toList 6 || strncmp_zero rest "IMIT ?".toList 6)

/-- The quoted-literal loop of `parse_params`, entered after the opening
`endToken` was copied: the bytes it copies (the closing token included when
there is one) and the text left for the main loop. -/
def parse_params_string (endToken : Char) : List Char → List Char × List Char
  | [] => ([], [])
  | c :: rest =>
    if c = endToken then ([c], rest)
    else if c = BACKSLASH then
      match rest with
      | [] => ([c], [])
      | d :: rest2 =>
        let r := parse_params_string endToken rest2
        (c :: d :: r.1, r.2)
    else
      let r := parse_params_string endToken rest
      (c :: r.1, r.2)

/-- What the `case '?'` arm writes for the slot `ph` it consumes.  `escape` is
`drizzle_escape_string` of libdrizzle. -/
def parse_params_value (escape : List Char → List Char) (ph : imp_sth_ph_t)
    (limit_flag : Bool) : List Char :=
  match ph.value with
  | none => "NULL".toList
  | some sv =>
    if !sv.ok then "NULL".toList
    else
      let is_num := is_num_type ph.type || limit_flag
      if !is_num then SQUOTE :: (escape sv.pv ++ [SQUOTE])
      else sv.pv.take (parse_number sv.pv sv.pv.length).2

/-- The main `while (statement_ptr < statement_ptr_end)` loop of
`parse_params`: the bytes written through `ptr`.  `fuel` bounds the number of
rounds. -/
def parse_params_loop (escape : List Char → List Char) (params : List imp_sth_ph_t)
    (num_params : Nat) : Nat → List Char → Nat → Bool → List Char
  | 0, _, _, _ => []
  | _ + 1, [], _, _ => []
  | fuel + 1, c :: rest, i, limit_flag =>
    let limit_flag := if !limit_flag then limit_match c rest else limit_flag
    if is_quote c then
      let r := parse_params_string c rest
      c :: (r.1 ++ parse_params_loop escape params num_params fuel r.2 i limit_flag)
    else if c = '?' then
      if i ≥ num_params then
        parse_params_loop escape params num_params fuel rest i limit_flag
      else
        parse_params_value escape (params.getD i ⟨none, 0⟩) limit_flag ++
          parse_params_loop escape params num_params fuel rest (i + 1) limit_flag
    else if c = ')' then
      c :: parse_params_loop escape params num_params fuel rest i false
    else
      c :: parse_params_loop escape params num_params fuel rest i limit_flag

/-- The function `parse_params`: `none` is the NULL return for
`num_params == 0`; otherwise the new statement and the length stored through
`slen_ptr`. -/
def parse_params (escape : List Char → List Char) (statement : List Char)
    (params : List imp_sth_ph_t) (num_params : Nat) (bind_type_guessing : Nat) :
    Option (List Char × Nat) :=
  if num_params = 0 then none
  else
    let statement := statement.dropWhile isspace
    let params := parse_params_types params num_params bind_type_guessing
    let salloc := parse_params_loop escape params num_params (statement.length + 1)
      statement 0 false
    some (salloc, salloc.length)

/-- What one round of the first `for` loop of `parse_params` adds to `alen`
for the slot `ph`: 3 when the value is absent or undefined, `2+vallen+1`
otherwise. -/
def parse_params_alen_slot (ph : imp_sth_ph_t) : Nat :=
  match ph.value with
  | none => 3
  | some sv => if !sv.ok then 3 else 2 + sv.pv.length + 1

/-- The first `for` loop of `parse_params` as far as `alen` goes: `rounds`
rounds are left, the next slot is number `i`. -/
def parse_params_alen_loop (params : List imp_sth_ph_t) : Nat → Nat → Nat → Nat
  | 0, _, alen => alen
  | rounds + 1, i, alen =>
    parse_params_alen_loop params rounds (i + 1)
      (alen + parse_params_alen_slot (params.getD i ⟨none, 0⟩))

/-- The value of `alen` when `parse_params` allocates `alen*2` bytes: `slen`
after the leading whitespace was skipped, plus what the `num_params` rounds of
the loop add. -/
def parse_params_alen (statement : List Char) (params : List imp_sth_ph_t)
    (num_params : Nat) : Nat :=
  parse_params_alen_loop params num_params 0 (statement.dropWhile isspace).length

/-- Modelled from the spec: `drizzle_escape_string` of libdrizzle, which is not
under src/.  The spec has it escape backslash, single quote, NUL and other
control bytes by the wire dialect's rules: NUL, newline, carriage return,
backslash, single quote, double quote and Ctrl-Z are written as a backslash
and one code character; every other byte is copied. -/
def drizzle_escape_string : List Char → List Char
  | [] => []
  | c :: rest =>
    if c = NUL then BACKSLASH :: '0' :: drizzle_escape_string rest
    else if c = '\n' then BACKSLASH :: 'n' :: drizzle_escape_string rest
    else if c = '\r' then BACKSLASH :: 'r' :: drizzle_escape_string rest
    else if c = BACKSLASH then BACKSLASH :: BACKSLASH :: drizzle_escape_string rest
    else if c = SQUOTE then BACKSLASH :: SQUOTE :: drizzle_escape_string rest
    else if c = '"' then BACKSLASH :: '"' :: drizzle_escape_string rest
    else if c = Char.ofNat 26 then BACKSLASH :: 'Z' :: drizzle_escape_string rest
    else c :: drizzle_escape_string rest

/-! ## Specification side

The definitions of this section follow the words of the specification, not
the code: a single left-to-right walk that knows whether it is outside every
quoted region, inside one, or just behind a backslash inside one. -/

namespace Spec

/-- The number of `?` outside every quoted region, a region running from a quote
character to the next occurrence of the same character or to the end of the
text; `open_quote` is the quote character of the region the walk is in. -/
def count_outside : Option Char → List Char → Nat
  | _, [] => 0
  | none, c :: rest =>
    if is_quote c then count_outside (some c) rest
    else if c = '?' then count_outside none rest + 1
    else count_outside none rest
  | some e, c :: rest =>
    if c = e then count_outside none rest else count_outside (some e) rest

/-- Where the walk over a statement stands. -/
inductive QState where
  | top
  | quoted (e : Char)
  | escaped (e : Char)
deriving DecidableEq, Repr

/-- What the walk makes of one character: text to copy, or a placeholder
together with the LIMIT state at its position. -/
inductive Item where
  | text (c : Char)
  | slot (limit : Bool)
deriving DecidableEq, Repr

/-- A recognised LIMIT keyword at the head of `c :: rest`: `l` or `L`, then
`imit ?` or `IMIT ?`. -/
def limit_here (c : Char) (rest : List Char) : Bool :=
  (c == 'l' || c == 'L') &&
    ("imit ?".toList.isPrefixOf rest || "IMIT ?".toList.isPrefixOf rest)

/-- The walk of the rewriter.  Quoted regions (delimiters, backslash escapes
and any `?` inside them) are text; a `?` outside them is a placeholder.  The
LIMIT state is switched on by a recognised keyword outside quoted regions and
off by a `)` outside quoted regions. -/
def items : QState → Bool → List Char → List Item
  | _, _, [] => []
  | QState.escaped e, limit, c :: rest => Item.text c :: items (QState.quoted e) limit rest
  | QState.quoted e, limit, c :: rest =>
    if c = e then Item.text c :: items QState.top limit rest
    else if c = BACKSLASH then Item.text c :: items (QState.escaped e) limit rest
    else Item.text c :: items (QState.quoted e) limit rest
  | QState.top, limit, c :: rest =>
    if is_quote c then Item.text c :: items (QState.quoted c) limit rest
    else if c = '?' then Item.slot limit :: items QState.top limit rest
    else if c = ')' then Item.text c :: items QState.top false rest
    else Item.text c :: items QState.top (limit || limit_here c rest) rest

/-- One step of the walk: where it stands after the character `c`. -/
def next_state : QState → Char → QState
  | QState.top, c => if is_quote c then QState.quoted c else QState.top
  | QState.quoted e, c =>
    if c = e then QState.top
    else if c = BACKSLASH then QState.escaped e
    else QState.quoted e
  | QState.escaped e, _ => QState.quoted e

/-- Where the walk stands after a text. -/
def state_after : QState → List Char → QState
  | q, [] => q
  | q, c :: rest => state_after (next_state q c) rest

/-- The number of `?` of a text that lie outside quoted regions. -/
def slots : QState → List Char → Nat
  | _, [] => 0
  | q, c :: rest =>
    (if q = QState.top ∧ c = '?' then 1 else 0) + slots (next_state q c) rest

/-- Whether a text has a `)` outside quoted regions. -/
def top_close : QState → List Char → Bool
  | _, [] => false
  | q, c :: rest =>
    (decide (q = QState.top) && c == ')') || top_close (next_state q c) rest

/-- The walk from the start of a statement. -/
def scan (s : List Char) : List Item := items QState.top false s

/-- The text between consecutive placeholders: one more segment than there
are placeholders. -/
def segments : List Item → List (List Char)
  | [] => [[]]
  | Item.text c :: rest =>
    match segments rest with
    | [] => [[c]]
    | seg :: segs => (c :: seg) :: segs
  | Item.slot _ :: rest => [] :: segments rest

/-- The LIMIT state at each placeholder, in order. -/
def flags : List Item → List Bool
  | [] => []
  | Item.text _ :: rest => flags rest
  | Item.slot l :: rest => l :: flags rest

/-- The number of placeholders of a statement. -/
def placeholders (s : List Char) : Nat := (flags (scan s)).length

/-- Segments and replacement texts put together alternately:
`seg_0 ++ r_1 ++ seg_1 ++ ... ++ r_n ++ seg_n`; segments that have no
replacement text left follow each other directly. -/
def weave : List (List Char) → List (List Char) → List Char
  | [], _ => []
  | seg :: segs, [] => seg ++ weave segs []
  | seg :: segs, r :: rs => seg ++ (r ++ weave segs rs)

/-- The replacement text of each placeholder in order, the first being
placeholder number `i`: slot `k` as `parse_params_value` renders it while
`k < num_params`, nothing once the slots have run out. -/
def renderings (escape : List Char → List Char) (params : List imp_sth_ph_t)
    (num_params : Nat) : Nat → List Bool → List (List Char)
  | _, [] => []
  | i, l :: ls =>
    (if i < num_params then parse_params_value escape (params.getD i ⟨none, 0⟩) l else []) ::
      renderings escape params num_params (i + 1) ls

/-- The replacement texts `parse_params` is to write for the placeholders of
`statement`, in order: the slots are read after the type-inference loop, the
LIMIT states are those of the walk over the statement without its leading
whitespace. -/
def replacements (escape : List Char → List Char) (statement : List Char)
    (params : List imp_sth_ph_t) (num_params g : Nat) : List (List Char) :=
  renderings escape (parse_params_types params num_params g) num_params 0
    (flags (scan (statement.dropWhile isspace)))

/-- The rewritten statement: the segments of `statement` (leading whitespace
skipped) with the replacement texts between them. -/
def rewritten (escape : List Char → List Char) (statement : List Char)
    (params : List imp_sth_ph_t) (num_params g : Nat) : List Char :=
  weave (segments (scan (statement.dropWhile isspace)))
    (replacements escape statement params num_params g)

/-- The inverse of the escaping rules: a backslash and a code character
stand for one byte. -/
def unescape : List Char → List Char
  | [] => []
  | c :: rest =>
    if c = BACKSLASH then
      match rest with
      | [] => [c]
      | d :: rest2 =>
        (if d = '0' then NUL else if d = 'n' then '\n' else if d = 'r' then '\r'
          else if d = 'Z' then Char.ofNat 26 else d) :: unescape rest2
    else c :: unescape rest

/-- Removing the quote added in front and the quote added behind. -/
def strip_quotes (t : List Char) : List Char := (t.drop 1).dropLast

/-- A text that can stand between two single quotes: read left to right, a
backslash takes the next character with it, no single quote stands alone,
and the text does not end in a backslash that would take the closing quote. -/
def quote_safe : List Char → Bool
  | [] => true
  | c :: rest =>
    if c = BACKSLASH then
      match rest with
      | [] => false
      | _ :: rest2 => quote_safe rest2
    else if c = SQUOTE then false
    else quote_safe rest

/-- The characters a numeric prefix is made of. -/
def numeric_char (c : Char) : Bool :=
  isspace c || c == '-' || c == '.' || isdigit c

/-- The numeric-prefix form: only whitespace, `-`, `.` and digits, at most
one `-` and at most one `.`. -/
def numeric_form (r : List Char) : Prop :=
  r.all numeric_char = true ∧ r.count '-' ≤ 1 ∧ r.count '.' ≤ 1

/-- The maximal leading numeric substring in the words of the spec: an
optional single leading `-`, then digits with at most one `.`. -/
def leading_digits : Bool → List Char → List Char
  | _, [] => []
  | seen_dec, c :: rest =>
    if isdigit c then c :: leading_digits seen_dec rest
    else if c = '.' ∧ seen_dec = false then c :: leading_digits true rest
    else []

/-- The maximal leading numeric substring of a value's text. -/
def leading_numeric : List Char → List Char
  | [] => []
  | c :: rest => if c = '-' then c :: leading_digits false rest else leading_digits false (c :: rest)

end Spec

/-! ## The connection collaborator as a scripted stub

libdrizzle is not under src/.  The driver sees it through the calls below;
the stub answers them from a script, so that a theorem for every stub is a
theorem for every behaviour of the collaborator that the script can
express. -/

/-- Modelled from the spec: the constant `CR_SERVER_GONE_ERROR` of
libdrizzle's `errmsg.h`, the "server gone" error code. -/
def CR_SERVER_GONE_ERROR : Nat := 2006

/-- Modelled from the spec: the column metadata (`DRIZZLE_FIELD`) that
`dbd_st_fetch` reads: the character set number and the flag bits. -/
structure DRIZZLE_FIELD where
  charsetnr : Nat
  flags : Nat
deriving DecidableEq, Repr

/-- Modelled from the spec: a result set (`DRIZZLE_RES`) of the connection
collaborator.  `num_fields` and `num_rows` are what `drizzle_num_fields` and
`drizzle_num_rows` report, `fields` is what `drizzle_fetch_fields` returns,
`rows` are the rows `drizzle_fetch_row` has still to hand out (a column is NULL
or bytes), `streamed` records whether `drizzle_use_result` or
`drizzle_store_result` made it, `freed` whether `drizzle_free_result` was
called on it. -/
structure DRIZZLE_RES where
  num_fields : Nat
  num_rows : Nat
  fields : List DRIZZLE_FIELD
  rows : List (List (Option (List Char)))
  streamed : Bool
  freed : Bool
deriving DecidableEq, Repr

/-- Modelled from the spec: what the server sends for one statement: a
row-returning result, an OK with an affected-row count, a result that is
announced with `field_count` columns but cannot be read, or an error. -/
inductive Reply where
  | rows (res : DRIZZLE_RES)
  | ok (affected : Nat)
  | unreadable (field_count errno : Nat) (error sqlstate : String)
  | fail (errno : Nat) (error sqlstate : String)
deriving DecidableEq, Repr

/-- Modelled from the spec: what one `drizzle_options` or `drizzle_ssl_set`
call stores in the client structure: the option with its argument. -/
inductive drizzle_option where
  | DRIZZLE_OPT_COMPRESS
  | DRIZZLE_OPT_CONNECT_TIMEOUT (timeout : Int)
  | DRIZZLE_READ_DEFAULT_FILE (df : List Char)
  | DRIZZLE_READ_DEFAULT_GROUP (gr : List Char)
  | DRIZZLE_OPT_LOCAL_INFILE (flag : Nat)
  | DRIZZLE_OPT_SSL_VERIFY_SERVER_CERT (flag : Bool)
  | ssl_set (client_key client_cert ca_file ca_path cipher : Option (List Char))
deriving DecidableEq, Repr

/-- Modelled from the spec: the client structure `DRIZZLE`.  `unread` is
the reply of the current statement that no `store`/`use` call has taken yet,
`pending` the replies of the statements behind it, `reconnect` the member of
that name, `options` what `drizzle_options` and `drizzle_ssl_set` stored,
oldest first. -/
structure DRIZZLE where
  connected : Bool
  last_errno : Nat
  last_error : String
  sqlstate : String
  field_count : Nat
  affected_rows : Nat
  insert_id : Nat
  warning_count : Nat
  unread : Option Reply
  pending : List Reply
  reconnect : Bool
  options : List drizzle_option
deriving DecidableEq, Repr

/-- Modelled from the spec: the far side of the connection.  `answers` holds,
for each query still to come, the replies of its statements; `logins` the
outcome of each connect still to come (`none` for success, the error
otherwise); `tables` what `drizzle_list_fields` finds; `queries` is the log of
the statements passed to `drizzle_real_query`, oldest first. -/
structure Server where
  answers : List (List Reply)
  logins : List (Option (Nat × String × String))
  tables : List (List Char × DRIZZLE_RES)
  queries : List (List Char)
deriving DecidableEq, Repr

/-- A `DRIZZLE` structure after `memset(.., 0, ..)`. -/
def DRIZZLE_zero : DRIZZLE := ⟨false, 0, "", "", 0, 0, 0, 0, none, [], false, []⟩

/-- Modelled from the spec: a reply becomes the current one. -/
def install_reply (con : DRIZZLE) : Reply → DRIZZLE
  | Reply.rows res =>
    { con with last_errno := 0, field_count := res.num_fields, unread := some (Reply.rows res) }
  | Reply.ok n =>
    { con with last_errno := 0, field_count := 0, affected_rows := n, unread := none }
  | Reply.unreadable fc e m st =>
    { con with last_errno := 0, field_count := fc,
               unread := some (Reply.unreadable fc e m st) }
  | Reply.fail e m st =>
    { con with last_errno := e, last_error := m, sqlstate := st, unread := none }

/-- Modelled from the spec: `drizzle_real_query` (submitQuery).  The
statement is logged; the return value is 0 for success. -/
def drizzle_real_query (srv : Server) (con : DRIZZLE) (q : List Char) :
    Nat × Server × DRIZZLE :=
  let srv := { srv with queries := srv.queries ++ [q] }
  if !con.connected then
    (1, srv, { con with last_errno := CR_SERVER_GONE_ERROR,
                        last_error := "server has gone away", sqlstate := "HY000" })
  else
    match srv.answers with
    | [] =>
      (1, srv, { con with last_errno := CR_SERVER_GONE_ERROR,
                          last_error := "server has gone away", sqlstate := "HY000" })
    | a :: rest =>
      let srv := { srv with answers := rest }
      match a with
      | [] => (0, srv, install_reply { con with pending := [] } (Reply.ok 0))
      | Reply.fail e m st :: _ =>
        (1, srv, install_reply { con with pending := [] } (Reply.fail e m st))
      | r :: rs => (0, srv, install_reply { con with pending := rs } r)

/-- Modelled from the spec: `drizzle_store_result` / `drizzle_use_result`
(bufferedResult / streamingResult); `streamed` says which one. -/
def drizzle_take_result (streamed : Bool) (con : DRIZZLE) : Option DRIZZLE_RES × DRIZZLE :=
  match con.unread with
  | some (Reply.rows res) =>
    (some { res with streamed := streamed, freed := false }, { con with unread := none })
  | some (Reply.unreadable _ e m st) =>
    (none, { con with unread := none, last_errno := e, last_error := m, sqlstate := st })
  | _ => (none, con)

/-- Modelled from the spec: `drizzle_use_result`. -/
def drizzle_use_result (con : DRIZZLE) : Option DRIZZLE_RES × DRIZZLE :=
  drizzle_take_result true con

/-- Modelled from the spec: `drizzle_store_result`. -/
def drizzle_store_result (con : DRIZZLE) : Option DRIZZLE_RES × DRIZZLE :=
  drizzle_take_result false con

/-- Modelled from the spec: `drizzle_more_results` (hasMoreResults). -/
def drizzle_more_results (con : DRIZZLE) : Bool := !con.pending.isEmpty

/-- Modelled from the spec: `drizzle_next_result` (advanceToNextResult):
0 when the next result is the current one now, -1 when there is none,
a positive value for an error. -/
def drizzle_next_result (con : DRIZZLE) : Int × DRIZZLE :=
  match con.pending with
  | [] => (-1, con)
  | Reply.fail e m st :: rest =>
    (1, install_reply { con with pending := rest } (Reply.fail e m st))
  | r :: rest => (0, install_reply { con with pending := rest } r)

/-- Modelled from the spec: `drizzle_free_result`. -/
def drizzle_free_result (res : DRIZZLE_RES) : DRIZZLE_RES := { res with freed := true }

/-- Modelled from the spec: `drizzle_fetch_row` (fetchRawRow): the next row,
or NULL when none is left. -/
def drizzle_fetch_row (res : DRIZZLE_RES) :
    Option (List (Option (List Char))) × DRIZZLE_RES :=
  match res.rows with
  | [] => (none, res)
  | row :: rest => (some row, { res with rows := rest })

/-- Modelled from the spec: `drizzle_list_fields`. -/
def drizzle_list_fields (srv : Server) (con : DRIZZLE) (table : List Char) :
    Option DRIZZLE_RES × DRIZZLE :=
  match srv.tables.lookup table with
  | some res => (some res, { con with last_errno := 0 })
  | none =>
    (none, { con with last_errno := 1146, last_error := "no such table", sqlstate := "42S02" })

/-- Modelled from the spec: `drizzle_create`, which initialises the client
structure. -/
def drizzle_create (_con : DRIZZLE) : DRIZZLE := DRIZZLE_zero

/-- Modelled from the spec: `drizzle_options` and `drizzle_ssl_set`: the
option is stored in the client structure. -/
def drizzle_options (con : DRIZZLE) (o : drizzle_option) : DRIZZLE :=
  { con with options := con.options ++ [o] }

/-- Modelled from the spec: the arguments of `drizzle_connect` behind the
client structure. -/
structure connect_args where
  host : Option (List Char)
  user : Option (List Char)
  password : Option (List Char)
  dbname : Option (List Char)
  portNr : Int
  drizzle_socket : Option (List Char)
  client_flag : Nat
deriving DecidableEq, Repr

/-- Modelled from the spec: `drizzle_connect` (connect): whether the connect
succeeded (the return value is not NULL), the far side and the client
structure.  The outcome is the next one of the script, whatever the arguments
are. -/
def drizzle_connect (srv : Server) (con : DRIZZLE) (_args : connect_args) :
    Bool × Server × DRIZZLE :=
  match srv.logins with
  | [] => (true, srv, { con with connected := true, last_errno := 0 })
  | none :: rest =>
    (true, { srv with logins := rest }, { con with connected := true, last_errno := 0 })
  | some (e, m, st) :: rest =>
    (false, { srv with logins := rest },
      { con with connected := false, last_errno := e, last_error := m, sqlstate := st })

/-- Modelled from the spec: the client flag `CLIENT_FOUND_ROWS`. -/
def CLIENT_FOUND_ROWS : Nat := 2
/-- Modelled from the spec: the client flag `CLIENT_SSL`. -/
def CLIENT_SSL : Nat := 2048
/-- Modelled from the spec: the client flag `CLIENT_MULTI_STATEMENTS`. -/
def CLIENT_MULTI_STATEMENTS : Nat := 65536
/-- Modelled from the spec: the client flag `CLIENT_MULTI_RESULTS`. -/
def CLIENT_MULTI_RESULTS : Nat := 131072

/-- Modelled from the spec: the C library `atoi` on a text whose number fits
an `int`: leading whitespace, an optional sign, digits. -/
def atoi (s : List Char) : Int :=
  let s := s.dropWhile isspace
  let digits := fun (r : List Char) =>
    (r.takeWhile isdigit).foldl (fun (n : Int) c => n * 10 + ((c.toNat - 48 : Nat) : Int)) 0
  match s with
  | '-' :: r => - digits r
  | '+' :: r => digits r
  | _ => digits s

/-! ## Handles -/

/-- The values of `enum errMsgs` of dbdimp.h that the modelled functions use. -/
def JW_ERR_QUERY : Int := 5
/-- The value of `JW_ERR_NOT_ACTIVE` in `enum errMsgs`. -/
def JW_ERR_NOT_ACTIVE : Int := 4
/-- The value of `JW_ERR_NOT_IMPLEMENTED` in `enum errMsgs`. -/
def JW_ERR_NOT_IMPLEMENTED : Int := 15
/-- The value of `JW_ERR_ILLEGAL_PARAM_NUM` in `enum errMsgs`. -/
def JW_ERR_ILLEGAL_PARAM_NUM : Int := 16
/-- The value of `JW_ERR_SEQUENCE` in `enum errMsgs`. -/
def JW_ERR_SEQUENCE : Int := 19

/-- The value `AV_ATTRIB_LAST` of `enum av_attribs`: the number of cached
array attributes. -/
def AV_ATTRIB_LAST : Nat := 16

/-- What one call of `do_error` stores in a handle: `err`, `errstr` and, when
the `sqlstate` argument is not NULL, its first five bytes as `state`. -/
structure ErrRecord where
  rc : Int
  what : String
  sqlstate : Option String
deriving DecidableEq, Repr

/-- A scalar of a fetched row: its bytes and whether `sv_utf8_decode` was
called on it. -/
structure Fetched where
  bytes : List Char
  utf8_decode : Bool
deriving DecidableEq, Repr

/-- A Perl array of scalars: an entry is undefined or a scalar. -/
abbrev AV := List (Option Fetched)

/-- Modelled from the spec: the flag bit `BINARY_FLAG` of the wire protocol. -/
def BINARY_FLAG : Nat := 128

/-- A scalar of the hash behind `DBIc_IMP_DATA` as far as the driver looks
at it: what `SvTRUE`, `SvIV` and `SvPV` yield for it. -/
structure HashSV where
  SvTRUE : Bool
  SvIV : Int
  SvPV : List Char
deriving DecidableEq, Repr

/-- A Perl hash with scalar values. -/
abbrev HV := List (List Char × HashSV)

/-- The call `hv_fetch(hv, key, klen, FALSE)` with a string literal `key`:
the entry under the first `klen` bytes of `key`. -/
def hv_fetch (hv : HV) (key : List Char) (klen : Nat) : Option HashSV :=
  hv.lookup (key.take klen)

/-- The function `safe_hv_fetch`: the text of the entry, NULL when there is
no entry or its text is empty. -/
def safe_hv_fetch (hv : HV) (name : List Char) (name_length : Nat) : Option (List Char) :=
  match hv_fetch hv name name_length with
  | some sv => if sv.SvPV.length = 0 then none else some sv.SvPV
  | none => none

/-- The conversion of an `IV` to an `int` (32 bits), as in
`int param_num= SvIV(param)`. -/
def int_of_IV (v : Int) : Int :=
  if v % 2 ^ 32 < 2 ^ 31 then v % 2 ^ 32 else v % 2 ^ 32 - 2 ^ 32

/-- The struct `imp_dbh_st` of dbdimp.h with the flags of its DBI common
part that the modelled functions read.  `imp_data` says that
`DBIc_IMP_DATA` is a reference, `imp_data_hv` is the hash it refers to (`none`
when it refers to something else).  `errors` is the sequence of `do_error`
calls on the database handle, oldest first. -/
structure imp_dbh_t where
  pdrizzle : DRIZZLE
  auto_reconnect : Bool
  auto_reconnects_ok : Nat
  auto_reconnects_failed : Nat
  bind_type_guessing : Nat
  use_drizzle_use_result : Bool
  enable_utf8 : Bool
  AutoCommit : Bool
  IMPSET : Bool
  ACTIVE : Bool
  imp_data : Bool
  active_kids : Nat
  errors : List ErrRecord
  has_transactions : Bool
  imp_data_hv : Option HV
deriving DecidableEq, Repr

/-- The struct `imp_sth_st` of dbdimp.h (emulated prepare only) with the
fields of its DBI common part that the modelled functions use: `NUM_PARAMS`,
`NUM_FIELDS`, `ACTIVE`, `ChopBlanks`, the `Statement` entry and the cached
keys of the handle hash.  `errors` is the sequence of `do_error` calls on the
statement handle, oldest first. -/
structure imp_sth_t where
  result : Option DRIZZLE_RES
  currow : Int
  fetch_done : Int
  row_num : Nat
  done_desc : Int
  insertid : Nat
  warning_count : Nat
  params : List imp_sth_ph_t
  av_attr : List (Option AV)
  use_drizzle_use_result : Bool
  NUM_PARAMS : Nat
  NUM_FIELDS : Nat
  ACTIVE : Bool
  ChopBlanks : Bool
  Statement : List Char
  hash_keys : List String
  errors : List ErrRecord
deriving DecidableEq, Repr

/-- The state the driver functions work on: the far side of the connection,
the database handle and one statement handle of it. -/
structure World where
  srv : Server
  dbh : imp_dbh_t
  sth : imp_sth_t
deriving DecidableEq, Repr

/-- The kind of handle `h` a function is called with (`DBIc_TYPE`). -/
inductive HandleType where
  | DBIt_DB
  | DBIt_ST
deriving DecidableEq, Repr

/-- The function `do_error(h, rc, what, sqlstate)`. -/
def do_error (h : HandleType) (rc : Int) (what : String) (sqlstate : Option String)
    (w : World) : World :=
  let r : ErrRecord := ⟨rc, what, sqlstate.map (fun st => st.take 5)⟩
  match h with
  | HandleType.DBIt_DB => { w with dbh := { w.dbh with errors := w.dbh.errors ++ [r] } }
  | HandleType.DBIt_ST => { w with sth := { w.sth with errors := w.sth.errors ++ [r] } }

/-- The call `do_error(h, drizzle_errno(con), drizzle_error(con),
drizzle_sqlstate(con))` with `con` the connection of the database handle. -/
def do_error_con (h : HandleType) (w : World) : World :=
  do_error h w.dbh.pdrizzle.last_errno w.dbh.pdrizzle.last_error
    (some w.dbh.pdrizzle.sqlstate) w

/-- The function `alloc_param(num_params)`: zero-filled slots. -/
def alloc_param (num_params : Nat) : List imp_sth_ph_t :=
  List.replicate num_params ⟨none, 0⟩

/-- The function `bind_param(ph, value, sql_type)`: the return value and the
slot.  `sql_type` is an `IV`, the member `type` an `int`. -/
def bind_param (ph : imp_sth_ph_t) (value : SV) (sql_type : Int) : Bool × imp_sth_ph_t :=
  let ph := { ph with value := some value }
  let ph := if sql_type ≠ 0 then { ph with type := int_of_IV sql_type } else ph
  (true, ph)

/-- The text that the `sprintf` of `dbd_bind_ph` formats into `err_msg`.
`neatsvpv` is the DBI function of this name, which yields a C string. -/
def bind_report_text (neatsvpv : SV → String) (param_num : Int) (value : SV) : String :=
  "Binding non-numeric field " ++ toString param_num ++ ", value " ++ neatsvpv value ++
    " as a numeric!"

/-- The block of `dbd_bind_ph` that reports a defined value which does not
look like a number and is bound with a numeric type; the bind goes on.  The
text is written with `sprintf` into `char err_msg[64]`: `none` stands for the
call that writes more than 64 bytes (the text and its NUL), whose behaviour is
undefined.  `looks_like_number` and `neatsvpv` are the Perl and DBI functions
of these names. -/
def bind_report_non_numeric (looks_like_number : SV → Bool) (neatsvpv : SV → String)
    (w : World) (param_num : Int) (value : SV) (sql_type : Int) : Option World :=
  if value.ok ∧ (sql_type = SQL_NUMERIC ∨ sql_type = SQL_DECIMAL ∨
      sql_type = SQL_INTEGER ∨ sql_type = SQL_SMALLINT ∨ sql_type = SQL_FLOAT ∨
      sql_type = SQL_REAL ∨ sql_type = SQL_DOUBLE) then
    if !looks_like_number value then
      if (bind_report_text neatsvpv param_num value).utf8ByteSize + 1 > 64 then none
      else
        some (do_error HandleType.DBIt_ST JW_ERR_ILLEGAL_PARAM_NUM
          (bind_report_text neatsvpv param_num value) none w)
    else some w
  else some w

/-- The function `dbd_bind_ph`; `param` is `SvIV(param)`, which is
converted to the `int param_num`.  The result is `none` when the report block
overruns `err_msg`. -/
def dbd_bind_ph (looks_like_number : SV → Bool) (neatsvpv : SV → String)
    (w : World) (param : Int) (value : SV) (sql_type : Int) (is_inout : Bool) :
    Option (Bool × World) :=
  let param_num := int_of_IV param
  let idx := param_num - 1
  if param_num ≤ 0 ∨ param_num > (w.sth.NUM_PARAMS : Int) then
    some (false, do_error HandleType.DBIt_ST JW_ERR_ILLEGAL_PARAM_NUM
      "Illegal parameter number" none w)
  else
    match bind_report_non_numeric looks_like_number neatsvpv w param_num value sql_type with
    | none => none
    | some w =>
      if is_inout then
        some (false, do_error HandleType.DBIt_ST JW_ERR_NOT_IMPLEMENTED
          "Output parameters not implemented" none w)
      else
        let r := bind_param (w.sth.params.getD idx.toNat ⟨none, 0⟩) value sql_type
        some (r.1, { w with sth := { w.sth with params := w.sth.params.set idx.toNat r.2 } })

/-- The build switch `DRIZZLE_NO_CLIENT_FOUND_ROWS` of `drizzle_dr_connect`:
not defined in the build that is modelled. -/
def DRIZZLE_NO_CLIENT_FOUND_ROWS : Bool := false
/-- Whether `CLIENT_MULTI_STATEMENTS` is defined by the library headers: it
is in the build that is modelled. -/
def CLIENT_MULTI_STATEMENTS_defined : Bool := true
/-- The build switch `DBD_DRIZZLE_WITH_SSL` (together with `CLIENT_SSL`): the
build without SSL is modelled. -/
def DBD_DRIZZLE_WITH_SSL : Bool := false

/-- The block `#if defined(DBD_DRIZZLE_WITH_SSL) ... #endif` of
`drizzle_dr_connect`: the client structure and `client_flag` behind it. -/
def dr_connect_ssl (hv : HV) (con : DRIZZLE) (client_flag : Nat) : DRIZZLE × Nat :=
  if DBD_DRIZZLE_WITH_SSL then
    match hv_fetch hv "drizzle_ssl".toList 9 with
    | some sv =>
      if sv.SvTRUE then
        let ssl_verify_true :=
          match hv_fetch hv "drizzle_ssl_verify_server_cert".toList 28 with
          | some v => v.SvTRUE
          | none => false
        let client_key := (hv_fetch hv "drizzle_ssl_client_key".toList 20).map HashSV.SvPV
        let client_cert := (hv_fetch hv "drizzle_ssl_client_cert".toList 21).map HashSV.SvPV
        let ca_file := (hv_fetch hv "drizzle_ssl_ca_file".toList 17).map HashSV.SvPV
        let ca_path := (hv_fetch hv "drizzle_ssl_ca_path".toList 17).map HashSV.SvPV
        let cipher := (hv_fetch hv "drizzle_ssl_cipher".toList 16).map HashSV.SvPV
        let con := drizzle_options con
          (drizzle_option.ssl_set client_key client_cert ca_file ca_path cipher)
        let con := drizzle_options con
          (drizzle_option.DRIZZLE_OPT_SSL_VERIFY_SERVER_CERT ssl_verify_true)
        (con, Nat.lor client_flag CLIENT_SSL)
      else (con, client_flag)
    | none => (con, client_flag)
  else (con, client_flag)

/-- The block `if (sv && SvROK(sv)) { ... }` of `drizzle_dr_connect`, which
reads the connect options from the hash `hv`: the client structure,
`client_flag` and `imp_dbh->use_drizzle_use_result` behind it.  `client_flag`
is an `unsigned int`.  Each entry is fetched under the first `klen` bytes of
its name, as the calls are written.  The `drizzle_enable_utf8` entry is
fetched by an `if` with an empty body, which is left out. -/
def dr_connect_options (hv : HV) (con : DRIZZLE) (client_flag : Nat)
    (use_drizzle_use_result : Bool) : DRIZZLE × Nat × Bool :=
  let con :=
    match hv_fetch hv "drizzle_compression".toList 17 with
    | some sv =>
      if sv.SvTRUE then drizzle_options con drizzle_option.DRIZZLE_OPT_COMPRESS else con
    | none => con
  let con :=
    match hv_fetch hv "drizzle_connect_timeout".toList 21 with
    | some sv =>
      if sv.SvTRUE then
        drizzle_options con (drizzle_option.DRIZZLE_OPT_CONNECT_TIMEOUT (int_of_IV sv.SvIV))
      else con
    | none => con
  let con :=
    match hv_fetch hv "drizzle_read_default_file".toList 23 with
    | some sv =>
      if sv.SvTRUE then drizzle_options con (drizzle_option.DRIZZLE_READ_DEFAULT_FILE sv.SvPV)
      else con
    | none => con
  let con :=
    match hv_fetch hv "drizzle_read_default_group".toList 24 with
    | some sv =>
      if sv.SvTRUE then drizzle_options con (drizzle_option.DRIZZLE_READ_DEFAULT_GROUP sv.SvPV)
      else con
    | none => con
  let client_flag :=
    match hv_fetch hv "drizzle_client_found_rows".toList 23 with
    | some sv =>
      if sv.SvTRUE then Nat.lor client_flag CLIENT_FOUND_ROWS
      else Nat.land client_flag (2 ^ 32 - 1 - CLIENT_FOUND_ROWS)
    | none => client_flag
  let use_drizzle_use_result :=
    match hv_fetch hv "drizzle_use_result".toList 16 with
    | some sv => sv.SvTRUE
    | none => use_drizzle_use_result
  let client_flag :=
    if CLIENT_MULTI_STATEMENTS_defined then
      match hv_fetch hv "drizzle_multi_statements".toList 22 with
      | some sv =>
        if sv.SvTRUE then Nat.lor client_flag CLIENT_MULTI_STATEMENTS
        else Nat.land client_flag (2 ^ 32 - 1 - CLIENT_MULTI_STATEMENTS)
      | none => client_flag
    else client_flag
  let s := dr_connect_ssl hv con client_flag
  let con :=
    match hv_fetch hv "drizzle_local_infile".toList 18 with
    | some sv =>
      drizzle_options s.1
        (drizzle_option.DRIZZLE_OPT_LOCAL_INFILE (if sv.SvTRUE then 1 else 0))
    | none => s.1
  (con, s.2, use_drizzle_use_result)

/-- The function `drizzle_dr_connect` called with the client structure and
the `imp_dbh` of the database handle of `w`, as `my_login`, its one caller,
does: whether the result is not NULL, and the state.  The hash that
`DBIc_IMP_DATA` refers to is read without a test of its type. -/
def drizzle_dr_connect (w : World)
    (drizzle_socket host port user password dbname : Option (List Char)) : Bool × World :=
  let portNr : Int :=
    match port with
    | some p => if p.headD NUL ≠ NUL then atoi p else 0
    | none => 0
  let client_flag : Nat := if DRIZZLE_NO_CLIENT_FOUND_ROWS then 0 else CLIENT_FOUND_ROWS
  let con := drizzle_create w.dbh.pdrizzle
  let dbh := { w.dbh with AutoCommit := true }
  let o :=
    if dbh.imp_data then
      dr_connect_options (dbh.imp_data_hv.getD []) con client_flag dbh.use_drizzle_use_result
    else (con, client_flag, dbh.use_drizzle_use_result)
  let client_flag := Nat.lor o.2.1 CLIENT_MULTI_RESULTS
  let r := drizzle_connect w.srv o.1
    ⟨host, user, password, dbname, portNr, drizzle_socket, client_flag⟩
  let con := if r.1 then { r.2.2 with reconnect := false } else r.2.2
  (r.1, { w with
    srv := r.2.1,
    dbh := { dbh with pdrizzle := con, use_drizzle_use_result := o.2.2 } })

/-- The function `my_login`: a handle that is IMPSET and ACTIVE is taken for
an adopted child and no connect is made.  Otherwise the connect parameters
are read from the hash behind `DBIc_IMP_DATA` and `drizzle_dr_connect` is
called.  The client structure is held in the handle, so the allocation
under `if (!imp_dbh->pdrizzle)` has no counterpart. -/
def my_login (w : World) : Bool × World :=
  if w.dbh.IMPSET ∧ w.dbh.ACTIVE then
    (true, { w with dbh := { w.dbh with active_kids := w.dbh.active_kids + 1 } })
  else if !w.dbh.imp_data then (false, w)
  else
    match w.dbh.imp_data_hv with
    | none => (false, w)
    | some hv =>
      let host := safe_hv_fetch hv "host".toList 4
      let port := safe_hv_fetch hv "port".toList 4
      let user := safe_hv_fetch hv "user".toList 4
      let password := safe_hv_fetch hv "password".toList 8
      let dbname := safe_hv_fetch hv "database".toList 8
      let drizzle_socket := safe_hv_fetch hv "drizzle_socket".toList 12
      drizzle_dr_connect w drizzle_socket host port user password dbname

/-- The function `drizzle_db_reconnect(h)`: errors go to the database
handle, which is `h` or its parent.  The two counters are `unsigned int`:
`++` is taken modulo 2^32. -/
def drizzle_db_reconnect (w : World) : Bool × World :=
  if w.dbh.pdrizzle.last_errno ≠ CR_SERVER_GONE_ERROR then (false, w)
  else if !w.dbh.AutoCommit ∨ !w.dbh.auto_reconnect then (false, w)
  else
    let con := w.dbh.pdrizzle
    let w := { w with dbh := { w.dbh with pdrizzle := DRIZZLE_zero } }
    let r := my_login w
    if !r.1 then
      let w2 := do_error_con HandleType.DBIt_DB r.2
      let dbh := { w2.dbh with pdrizzle := con }
      (false, { w2 with
        dbh := { dbh with
          auto_reconnects_failed := (dbh.auto_reconnects_failed + 1) % 2 ^ 32 } })
    else
      let w2 := r.2
      (true, { w2 with
        dbh := { w2.dbh with auto_reconnects_ok := (w2.dbh.auto_reconnects_ok + 1) % 2 ^ 32 } })

/-- The block `if (next_result_rc == 0) { ... }` of the loop of
`drizzle_st_free_result_sets`: whether it left the function with
`return 0`, and the state. -/
def free_result_sets_use (next_result_rc : Int) (w : World) : Bool × World :=
  if next_result_rc = 0 then
    let u := drizzle_use_result w.dbh.pdrizzle
    let w1 : World := { w with dbh := { w.dbh with pdrizzle := u.2 },
                               sth := { w.sth with result := u.1 } }
    if u.1.isNone ∧ w1.dbh.pdrizzle.field_count ≠ 0 then
      (true, do_error_con HandleType.DBIt_ST w1)
    else (false, w1)
  else (false, w)

/-- The block `if (imp_sth->result) { drizzle_free_result(..);
imp_sth->result=NULL; }` of the same loop. -/
def free_result_sets_release (w : World) : World :=
  if w.sth.result.isSome then { w with sth := { w.sth with result := none } } else w

/-- The `do { ... } while ((next_result_rc= drizzle_next_result(..))==0)` loop
of `drizzle_st_free_result_sets` with the code behind it, entered with the
given `next_result_rc`: the return value and the state.  `fuel` bounds the
number of rounds. -/
def free_result_sets_loop : Nat → Int → World → Int × World
  | 0, _, w => (1, w)
  | fuel + 1, next_result_rc, w =>
    let r1 := free_result_sets_use next_result_rc w
    if r1.1 then (0, r1.2)
    else
      let w2 := free_result_sets_release r1.2
      let n := drizzle_next_result w2.dbh.pdrizzle
      let w3 : World := { w2 with dbh := { w2.dbh with pdrizzle := n.2 } }
      if n.1 = 0 then free_result_sets_loop fuel 0 w3
      else if n.1 > 0 then (1, do_error_con HandleType.DBIt_ST w3)
      else (1, w3)

/-- The function `drizzle_st_free_result_sets`. -/
def drizzle_st_free_result_sets (w : World) : Int × World :=
  free_result_sets_loop (w.dbh.pdrizzle.pending.length + 1) (-1) w

/-- The function `dbd_st_prepare`; `attrib_use_result` is the
`drizzle_use_result` entry of `attribs`, when there is one. -/
def dbd_st_prepare (w : World) (statement : List Char) (attrib_use_result : Option Bool) :
    Int × World :=
  let sth := { w.sth with fetch_done := 0, done_desc := 0, result := none, currow := 0 }
  let sth := { sth with use_drizzle_use_result :=
    match attrib_use_result with
    | some b => b
    | none => w.dbh.use_drizzle_use_result }
  let sth := { sth with av_attr := List.replicate AV_ATTRIB_LAST none }
  let w1 := (drizzle_st_free_result_sets { w with sth := sth }).2
  let n := count_params statement
  (1, { w1 with sth := { w1.sth with NUM_PARAMS := n, params := alloc_param n } })

/-- The `hv_delete` calls of `dbd_st_more_results`: each deletes the key made
of the first `len` bytes of the name it is given. -/
def more_results_deleted_keys : List String :=
  [ "NAME".take 4, "NULLABLE".take 8, "NUM_OF_FIELDS".take 13, "PRECISION".take 9,
    "SCALE".take 5, "TYPE".take 4, "drizzle_insertid".take 14,
    "drizzle_is_auto_increment".take 23, "drizzle_is_blob".take 13,
    "drizzle_is_key".take 12, "drizzle_is_num".take 12, "drizzle_is_pri_key".take 16,
    "drizzle_length".take 12, "drizzle_max_length".take 16, "drizzle_table".take 11,
    "drizzle_type".take 10, "drizzle_type_name".take 15,
    "drizzle_warning_count".take 20 ]

/-- The function `dbd_st_more_results`. -/
def dbd_st_more_results (w : World) : Int × World :=
  let use_drizzle_use_result := w.sth.use_drizzle_use_result
  if !drizzle_more_results w.dbh.pdrizzle then (0, w)
  else
    let sth := { w.sth with av_attr := List.replicate AV_ATTRIB_LAST none }
    let sth := { sth with result := sth.result.map drizzle_free_result }
    let sth := { sth with ACTIVE := false }
    let n := drizzle_next_result w.dbh.pdrizzle
    let w1 : World := { w with dbh := { w.dbh with pdrizzle := n.2 }, sth := sth }
    if n.1 > 0 then (0, do_error_con HandleType.DBIt_ST w1)
    else
      let u := if use_drizzle_use_result then drizzle_use_result w1.dbh.pdrizzle
        else drizzle_store_result w1.dbh.pdrizzle
      let w2 : World := { w1 with dbh := { w1.dbh with pdrizzle := u.2 },
                                  sth := { w1.sth with result := u.1 } }
      let w3 := if w2.dbh.pdrizzle.last_errno ≠ 0 then do_error_con HandleType.DBIt_ST w2
        else w2
      match w3.sth.result with
      | none => (0, w3)
      | some res =>
        let sth3 := { w3.sth with
          currow := 0,
          hash_keys := w3.sth.hash_keys.filter (fun k => !more_results_deleted_keys.contains k),
          NUM_FIELDS := res.num_fields,
          ACTIVE := true,
          done_desc := 0 }
        let con3 := { w3.dbh.pdrizzle with last_errno := 0 }
        (1, { w3 with dbh := { w3.dbh with pdrizzle := con3 }, sth := sth3 })

/-- The value `(uint64_t) -2` that `drizzle_st_internal_execute` returns for
a failure. -/
def EXECUTE_FAILED : Nat := 2 ^ 64 - 2

/-- The table name of the `LISTFIELDS` pseudo-command: `rest` is the
statement behind its first ten bytes and the whitespace that follows. -/
def listfields_table (rest : List Char) : List Char :=
  rest.takeWhile (fun c => !isspace c && c != NUL)

/-- The text `sbuf` (with its length `slen`) that `drizzle_st_internal_execute`
works on: what `parse_params` returns, or the statement itself when that is
NULL. -/
def execute_text (escape : List Char → List Char) (statement : List Char)
    (num_params : Nat) (params : List imp_sth_ph_t) (bind_type_guessing : Nat) : List Char :=
  match parse_params escape statement params num_params bind_type_guessing with
  | some r => r.1.take r.2
  | none => statement

/-- The test for the `LISTFIELDS` pseudo-command in
`drizzle_st_internal_execute`. -/
def is_listfields (sbuf : List Char) : Bool :=
  decide (sbuf.length ≥ 11) &&
    (strncmp_zero sbuf "listfields ".toList 11 || strncmp_zero sbuf "LISTFIELDS ".toList 11)

/-- The call `drizzle_real_query(con, sbuf, slen)` on the connection of the
database handle: its return value and the state. -/
def real_query (w : World) (sbuf : List Char) : Nat × World :=
  let q := drizzle_real_query w.srv w.dbh.pdrizzle sbuf
  (q.1, { w with srv := q.2.1, dbh := { w.dbh with pdrizzle := q.2.2 } })

/-- The condition `drizzle_real_query(..) && (!drizzle_db_reconnect(h) ||
drizzle_real_query(..))` of `drizzle_st_internal_execute`: its value (true
when the submission failed) and the state after evaluating it. -/
def execute_query (w : World) (sbuf : List Char) : Bool × World :=
  let q1 := real_query w sbuf
  if q1.1 ≠ 0 then
    let rc := drizzle_db_reconnect q1.2
    if !rc.1 then (true, rc.2)
    else
      let q2 := real_query rc.2 sbuf
      (q2.1 != 0, q2.2)
  else (false, q1.2)

/-- The end of `drizzle_st_internal_execute`, behind the submission: the
result set is taken from the connection, a pending error is reported, and the
row count is worked out: the returned count, `*result` and the state. -/
def execute_result (h : HandleType) (w : World) (use_drizzle_use_result : Bool) :
    Nat × Option DRIZZLE_RES × World :=
  let u := if use_drizzle_use_result then drizzle_use_result w.dbh.pdrizzle
    else drizzle_store_result w.dbh.pdrizzle
  let w3 : World := { w with dbh := { w.dbh with pdrizzle := u.2 } }
  let w4 := if w3.dbh.pdrizzle.last_errno ≠ 0 then do_error_con h w3 else w3
  let rows := match u.1 with
    | none => w4.dbh.pdrizzle.affected_rows
    | some res => res.num_rows
  (rows, u.1, w4)

/-- The function `drizzle_st_internal_execute` for a handle of kind `h`,
with `result` the value of `*result` at the call: the returned row count,
`*result` and the parameter array afterwards, and the state.  `to_bool` is the
conversion of an `unsigned short` to the type `bool`, which the Perl headers
define (they are not under src/); `escape` is `drizzle_escape_string`. -/
def drizzle_st_internal_execute (to_bool : Nat → Nat) (escape : List Char → List Char)
    (h : HandleType) (w : World) (statement : List Char) (num_params : Nat)
    (params : List imp_sth_ph_t) (result : Option DRIZZLE_RES)
    (use_drizzle_use_result : Bool) :
    Nat × Option DRIZZLE_RES × List imp_sth_ph_t × World :=
  let bind_type_guessing := to_bool w.dbh.bind_type_guessing
  let params2 := if num_params = 0 then params
    else parse_params_types params num_params bind_type_guessing
  let sbuf := execute_text escape statement num_params params bind_type_guessing
  if is_listfields sbuf then
    let rest := (sbuf.drop 10).dropWhile isspace
    if rest.length = 0 then
      (EXECUTE_FAILED, result, params2,
        do_error h JW_ERR_QUERY "Missing table name" none w)
    else
      let l := drizzle_list_fields w.srv w.dbh.pdrizzle (listfields_table rest)
      let w1 : World := { w with dbh := { w.dbh with pdrizzle := l.2 } }
      match l.1 with
      | none => (EXECUTE_FAILED, none, params2, do_error_con h w1)
      | some res => (0, some res, params2, w1)
  else
    let sent := execute_query w sbuf
    if sent.1 then (EXECUTE_FAILED, result, params2, do_error_con h sent.2)
    else
      let e := execute_result h sent.2 use_drizzle_use_result
      (e.1, e.2.1, params2, e.2.2)

/-- The narrowing `(int) row_num` of an unsigned 64-bit value to a 32-bit
`int`. -/
def to_int (n : Nat) : Int :=
  if n % 2 ^ 32 < 2 ^ 31 then ((n % 2 ^ 32 : Nat) : Int) else ((n % 2 ^ 32 : Nat) : Int) - 2 ^ 32

/-- The function `dbd_st_finish`. -/
def dbd_st_finish (w : World) : Int × World :=
  let w1 := if w.sth.result.isSome then (drizzle_st_free_result_sets w).2 else w
  (1, { w1 with sth := { w1.sth with ACTIVE := false } })

/-- The function `dbd_st_execute`: the returned `int` and the state. -/
def dbd_st_execute (to_bool : Nat → Nat) (escape : List Char → List Char) (w : World) :
    Int × World :=
  let w0 : World := { w with sth := { w.sth with av_attr := List.replicate AV_ATTRIB_LAST none } }
  let statement := w0.sth.Statement
  let w1 := (drizzle_st_free_result_sets w0).2
  let r := drizzle_st_internal_execute to_bool escape HandleType.DBIt_ST w1 statement
    w1.sth.NUM_PARAMS w1.sth.params w1.sth.result w1.sth.use_drizzle_use_result
  let w2 : World := r.2.2.2
  let sth : imp_sth_t := { w2.sth with row_num := r.1, result := r.2.1, params := r.2.2.1 }
  let sth : imp_sth_t :=
    if (sth.row_num + 1) % 2 ^ 64 ≠ 2 ^ 64 - 1 then
      match sth.result with
      | none => { sth with insertid := w2.dbh.pdrizzle.insert_id }
      | some res => { sth with NUM_FIELDS := res.num_fields, ACTIVE := true,
                               done_desc := 0, fetch_done := 0 }
    else sth
  let sth : imp_sth_t := { sth with warning_count := w2.dbh.pdrizzle.warning_count }
  (to_int sth.row_num, { w2 with sth := sth })

/-- The loop `while (len && col[len-1] == ' ') --len;` of `dbd_st_fetch`. -/
def chop_blanks_len (col : List Char) : Nat → Nat
  | 0 => 0
  | len + 1 => if col.getD len NUL = ' ' then chop_blanks_len col len else len + 1

/-- One round of the column loop of `dbd_st_fetch`: the scalar for a column
of the raw row.  The field metadata is read for the UTF-8 decision only. -/
def fetch_column (ChopBlanks enable_utf8 : Bool) (field : DRIZZLE_FIELD)
    (col : Option (List Char)) : Option Fetched :=
  match col with
  | some bytes =>
    let len := bytes.length
    let len := if ChopBlanks then chop_blanks_len bytes len else len
    some ⟨bytes.take len,
      enable_utf8 && field.charsetnr != 63 && (enable_utf8 && Nat.land field.flags BINARY_FLAG == 0)⟩
  | none => none

/-- The function `dbd_st_fetch`: the returned row (`Nullav` is `none`) and the
state. -/
def dbd_st_fetch (w : World) : Option AV × World :=
  let ChopBlanks := w.sth.ChopBlanks
  match w.sth.result with
  | none =>
    (none, do_error HandleType.DBIt_ST JW_ERR_SEQUENCE "fetch() without execute()" none w)
  | some res =>
    let w1 : World := { w with dbh := { w.dbh with pdrizzle := { w.dbh.pdrizzle with last_errno := 0 } } }
    let w2 : World := { w1 with sth := { w1.sth with currow := w1.sth.currow + 1 } }
    let f := drizzle_fetch_row res
    let w3 : World := { w2 with sth := { w2.sth with result := some f.2 } }
    match f.1 with
    | none =>
      let w4 := if w3.dbh.pdrizzle.last_errno ≠ 0 then do_error_con HandleType.DBIt_ST w3
        else w3
      let w5 := if !drizzle_more_results w4.dbh.pdrizzle then (dbd_st_finish w4).2 else w4
      (none, w5)
    | some cols =>
      let num_fields := f.2.num_fields
      let fields := f.2.fields
      (some ((List.range num_fields).map (fun i =>
          fetch_column ChopBlanks w3.dbh.enable_utf8 (fields.getD i ⟨0, 0⟩) (cols.getD i none))),
        w3)

/-- The function `dbd_st_FETCH_internal(sth, what, res, cacheit)`: the array
it returns a reference to (`none` for `&sv_undef`) and the state.
`attrib_sv` is the `switch (what)` of its loop, which makes the scalar of one
field from members of the library struct. -/
def dbd_st_FETCH_internal (attrib_sv : Int → DRIZZLE_FIELD → Option Fetched) (w : World)
    (what : Int) (res : Option DRIZZLE_RES) (cacheit : Bool) : Option AV × World :=
  if what < 0 ∨ what ≥ (AV_ATTRIB_LAST : Int) then
    (none, do_error HandleType.DBIt_ST JW_ERR_NOT_IMPLEMENTED "Not implemented" none w)
  else if cacheit ∧ (w.sth.av_attr.getD what.toNat none).isSome then
    (w.sth.av_attr.getD what.toNat none, w)
  else
    match res with
    | none =>
      (none, do_error HandleType.DBIt_ST JW_ERR_NOT_ACTIVE "statement contains no result" none w)
    | some r =>
      let av : AV := r.fields.map (attrib_sv what)
      if !cacheit then (some av, w)
      else (some av, { w with sth := { w.sth with
        av_attr := w.sth.av_attr.set what.toNat (some av) } })

/-- The value `AV_ATTRIB_NULLABLE` of `enum av_attribs`. -/
def AV_ATTRIB_NULLABLE : Int := 6

/-- The case `AV_ATTRIB_NULLABLE` of the switch of `dbd_st_FETCH_internal`:
`boolSV(!IS_NOT_NULL(curField->flags))`, with the flag bit 1 of the wire
protocol; the other cases give `&sv_undef`. -/
def attrib_sv_nullable (what : Int) (field : DRIZZLE_FIELD) : Option Fetched :=
  if what = AV_ATTRIB_NULLABLE then
    some ⟨if Nat.land field.flags 1 = 0 then ['1'] else [], false⟩
  else none

/-! ## Handle attributes (dbdimp.c 1354-1590, 2586-2699) -/

/-- The Perl macro `strEQ(s, t)`, `strcmp(s, t) == 0`; a list that has ended
reads as NUL. -/
def strEQ : List Char → List Char → Bool
  | [], [] => true
  | [], d :: _ => d == NUL
  | c :: _, [] => c == NUL
  | c :: s, d :: t => if c ≠ d then false else if c = NUL then true else strEQ s t

/-- The value of `TX_ERR_AUTOCOMMIT` in `enum errMsgs`. -/
def TX_ERR_AUTOCOMMIT : Int := 21

/-- The values of `enum av_attribs` of dbdimp.h. -/
def AV_ATTRIB_NAME : Int := 0
/-- The value of `AV_ATTRIB_TABLE`. -/
def AV_ATTRIB_TABLE : Int := 1
/-- The value of `AV_ATTRIB_TYPE`. -/
def AV_ATTRIB_TYPE : Int := 2
/-- The value of `AV_ATTRIB_SQL_TYPE`. -/
def AV_ATTRIB_SQL_TYPE : Int := 3
/-- The value of `AV_ATTRIB_IS_PRI_KEY`. -/
def AV_ATTRIB_IS_PRI_KEY : Int := 4
/-- The value of `AV_ATTRIB_LENGTH`. -/
def AV_ATTRIB_LENGTH : Int := 7
/-- The value of `AV_ATTRIB_IS_NUM`. -/
def AV_ATTRIB_IS_NUM : Int := 8
/-- The value of `AV_ATTRIB_TYPE_NAME`. -/
def AV_ATTRIB_TYPE_NAME : Int := 9
/-- The value of `AV_ATTRIB_PRECISION`. -/
def AV_ATTRIB_PRECISION : Int := 10
/-- The value of `AV_ATTRIB_SCALE`. -/
def AV_ATTRIB_SCALE : Int := 11
/-- The value of `AV_ATTRIB_MAX_LENGTH`. -/
def AV_ATTRIB_MAX_LENGTH : Int := 12
/-- The value of `AV_ATTRIB_IS_KEY`. -/
def AV_ATTRIB_IS_KEY : Int := 13
/-- The value of `AV_ATTRIB_IS_BLOB`. -/
def AV_ATTRIB_IS_BLOB : Int := 14
/-- The value of `AV_ATTRIB_IS_AUTO_INCREMENT`. -/
def AV_ATTRIB_IS_AUTO_INCREMENT : Int := 15

/-- The scalar an attribute fetch returns (a NULL return is `none` of the
option around it): `&sv_yes`, `&sv_undef`, a boolean, an integer, a string,
the `dbd_stats` hash, a reference to an array, the `ParamValues` hash with
its keys, or a scalar made from the result of the named library call on the
connection, which the stub does not hold. -/
inductive AttribSV where
  | yes
  | undef
  | bool (b : Bool)
  | iv (n : Int)
  | pv (s : List Char)
  | stats (auto_reconnects_ok auto_reconnects_failed : Nat)
  | av (a : AV)
  | hv (entries : List (List Char × Option SV))
  | lib (call : String)
deriving DecidableEq, Repr

/-- The function `my_ulonglong2str`: the decimal digits of `val`. -/
def my_ulonglong2str (val : Nat) : List Char :=
  if val = 0 then ['0'] else Nat.toDigits 10 val

/-- Modelled from the spec: `drizzle_autocommit` (autoCommitSet): the return
value, 0 for success, and the connection. -/
def drizzle_autocommit (con : DRIZZLE) (_mode : Bool) : Nat × DRIZZLE :=
  if con.connected then (0, { con with last_errno := 0 })
  else (1, { con with last_errno := CR_SERVER_GONE_ERROR,
                      last_error := "server has gone away", sqlstate := "HY000" })

/-- The function `dbd_db_STORE_attrib`: the returned int (`none` when the
function is left through `croak`) and the state.  `bool_value` is
`SvTRUE(valuesv)`, `iv` is `SvIV(valuesv)`; `DBIcf_AutoCommit` is the flag bit
of DBIXS.h that `DBIc_has` masks out. -/
def dbd_db_STORE_attrib (DBIcf_AutoCommit : Nat) (w : World) (key : List Char)
    (bool_value : Bool) (iv : Int) : Option Bool × World :=
  let kl := key.length
  if kl = 10 ∧ strEQ key "AutoCommit".toList then
    if w.dbh.has_transactions then
      let oldval : Nat := if w.dbh.AutoCommit then DBIcf_AutoCommit else 0
      if (if bool_value then 1 else 0) = oldval then (some true, w)
      else
        let a := drizzle_autocommit w.dbh.pdrizzle bool_value
        let w1 : World := { w with dbh := { w.dbh with pdrizzle := a.2 } }
        if a.1 ≠ 0 then
          (some false, do_error HandleType.DBIt_DB TX_ERR_AUTOCOMMIT
            (if bool_value then "Turning on AutoCommit failed"
              else "Turning off AutoCommit failed") none w1)
        else (some true, { w1 with dbh := { w1.dbh with AutoCommit := bool_value } })
    else if !bool_value then
      (none, do_error HandleType.DBIt_DB JW_ERR_NOT_IMPLEMENTED
        "Transactions not supported by database" none w)
    else (some true, w)
  else if kl = 16 ∧ strEQ key "drizzle_use_result".toList then
    (some true, { w with dbh := { w.dbh with use_drizzle_use_result := bool_value } })
  else if kl = 20 ∧ strEQ key "drizzle_auto_reconnect".toList then
    (some true, { w with dbh := { w.dbh with auto_reconnect := bool_value } })
  else if kl = 31 ∧ strEQ key "drizzle_unsafe_bind_type_guessing".toList then
    (some true, { w with dbh := { w.dbh with bind_type_guessing := (iv % 65536).toNat } })
  else if kl = 17 ∧ strEQ key "drizzle_enable_utf8".toList then
    (some true, { w with dbh := { w.dbh with enable_utf8 := bool_value } })
  else (some false, w)

/-- The second `switch` of `dbd_db_FETCH_attrib`, on the first byte of `key`,
with `kl` as the code has it at that point.  `DRIZZLE_STAT` says whether that
macro is defined. -/
def db_FETCH_switch (DRIZZLE_STAT : Bool) (w : World) (key : List Char) (kl : Nat) :
    Option AttribSV :=
  let c := key.headD NUL
  let thread_id : Option AttribSV → Option AttribSV := fun result =>
    if kl = 9 ∧ strEQ key "thread_id".toList then some (AttribSV.lib "drizzle_thread_id")
    else result
  if c = 'a' then
    if kl = 14 ∧ strEQ key "auto_reconnect".toList then
      some (AttribSV.iv (if w.dbh.auto_reconnect then 1 else 0))
    else none
  else if c = 'u' then
    if kl = 25 ∧ strEQ key "unsafe_bind_type_guessing".toList then
      some (AttribSV.iv w.dbh.bind_type_guessing)
    else none
  else if c = 'e' then
    if strEQ key "errno".toList then some (AttribSV.iv w.dbh.pdrizzle.last_errno)
    else if strEQ key "error".toList ∨ strEQ key "errmsg".toList then
      some (AttribSV.pv w.dbh.pdrizzle.last_error.toList)
    else if kl = 11 ∧ strEQ key "enable_utf8".toList then
      some (AttribSV.iv (if w.dbh.enable_utf8 then 1 else 0))
    else none
  else if c = 'd' ∨ c = 'h' then
    let result : Option AttribSV :=
      if c = 'd' ∧ strEQ key "dbd_stats".toList then
        some (AttribSV.stats w.dbh.auto_reconnects_ok w.dbh.auto_reconnects_failed)
      else none
    if strEQ key "hostinfo".toList then some (AttribSV.lib "drizzle_get_host_info")
    else result
  else if c = 'i' then
    if strEQ key "info".toList then some (AttribSV.lib "drizzle_info")
    else if kl = 8 ∧ strEQ key "insertid".toList then
      some (AttribSV.pv (my_ulonglong2str w.dbh.pdrizzle.insert_id))
    else none
  else if c = 'p' then
    if kl = 9 ∧ strEQ key "protoinfo".toList then
      some (AttribSV.lib "drizzle_get_proto_info")
    else none
  else if c = 's' then
    let result : Option AttribSV :=
      if kl = 10 ∧ strEQ key "serverinfo".toList then
        some (AttribSV.lib "drizzle_get_server_info")
      else if strEQ key "sock".toList then some (AttribSV.lib "pdrizzle")
      else if strEQ key "sockfd".toList then some (AttribSV.lib "net.fd")
      else if DRIZZLE_STAT ∧ (strEQ key "stat".toList ∨ strEQ key "stats".toList) then
        some (AttribSV.lib "drizzle_stat")
      else none
    if DRIZZLE_STAT then result else thread_id result
  else if c = 't' then thread_id none
  else none

/-- The function `dbd_db_FETCH_attrib`: the returned scalar, `none` for
`Nullsv`. -/
def dbd_db_FETCH_attrib (DRIZZLE_STAT : Bool) (w : World) (key : List Char) :
    Option AttribSV :=
  if key.headD NUL = 'A' ∧ strEQ key "AutoCommit".toList then
    if w.dbh.has_transactions then some (AttribSV.bool w.dbh.AutoCommit)
    else some AttribSV.yes
  else if strncmp_zero key "drizzle_".toList 8 then
    db_FETCH_switch DRIZZLE_STAT w (key.drop 6) (key.length - 6)
  else db_FETCH_switch DRIZZLE_STAT w key key.length

/-- The macro `ST_FETCH_AV(what)` of `dbd_st_FETCH_attrib`:
`dbd_st_FETCH_internal(sth, what, imp_sth->result, TRUE)`, which returns a
reference to the array or `&sv_undef`, never NULL. -/
def ST_FETCH_AV (attrib_sv : Int → DRIZZLE_FIELD → Option Fetched) (w : World) (what : Int) :
    Option AttribSV × World :=
  let r := dbd_st_FETCH_internal attrib_sv w what w.sth.result true
  (some (match r.1 with
    | some a => AttribSV.av a
    | none => AttribSV.undef), r.2)

/-- The hash that the `ParamValues` arm of `dbd_st_FETCH_attrib` builds: for
each `n` below `NUM_PARAMS` the key `sprintf("%d", n)` with a copy of the
value of slot `n`. -/
def ParamValues (w : World) : List (List Char × Option SV) :=
  (List.range w.sth.NUM_PARAMS).map (fun n =>
    (Nat.toDigits 10 n, (w.sth.params.getD n ⟨none, 0⟩).value))

/-- The `case 'm'` arm of `dbd_st_FETCH_attrib` with its `switch (kl)`. -/
def st_FETCH_m (attrib_sv : Int → DRIZZLE_FIELD → Option Fetched) (w : World)
    (key : List Char) (kl : Nat) : Option AttribSV × World :=
  if kl = 10 then
    if strEQ key "drizzle_type".toList then ST_FETCH_AV attrib_sv w AV_ATTRIB_TYPE
    else (none, w)
  else if kl = 11 then
    if strEQ key "drizzle_table".toList then ST_FETCH_AV attrib_sv w AV_ATTRIB_TABLE
    else (none, w)
  else if kl = 12 then
    if strEQ key "drizzle_is_key".toList then ST_FETCH_AV attrib_sv w AV_ATTRIB_IS_KEY
    else if strEQ key "drizzle_is_num".toList then ST_FETCH_AV attrib_sv w AV_ATTRIB_IS_NUM
    else if strEQ key "drizzle_length".toList then ST_FETCH_AV attrib_sv w AV_ATTRIB_LENGTH
    else if strEQ key "drizzle_result".toList then (some (AttribSV.lib "imp_sth->result"), w)
    else (none, w)
  else if kl = 13 then
    if strEQ key "drizzle_is_blob".toList then ST_FETCH_AV attrib_sv w AV_ATTRIB_IS_BLOB
    else (none, w)
  else if kl = 14 then
    if strEQ key "drizzle_insertid".toList then
      (some (AttribSV.pv (my_ulonglong2str w.sth.insertid)), w)
    else (none, w)
  else if kl = 15 then
    if strEQ key "drizzle_type_name".toList then ST_FETCH_AV attrib_sv w AV_ATTRIB_TYPE_NAME
    else (none, w)
  else if kl = 16 then
    if strEQ key "drizzle_is_pri_key".toList then ST_FETCH_AV attrib_sv w AV_ATTRIB_IS_PRI_KEY
    else if strEQ key "drizzle_max_length".toList then
      ST_FETCH_AV attrib_sv w AV_ATTRIB_MAX_LENGTH
    else if strEQ key "drizzle_use_result".toList then
      (some (AttribSV.bool w.sth.use_drizzle_use_result), w)
    else (none, w)
  else if kl = 19 then
    if strEQ key "drizzle_warning_count".toList then
      (some (AttribSV.iv w.sth.warning_count), w)
    else (none, w)
  else if kl = 23 then
    if strEQ key "drizzle_is_auto_increment".toList then
      ST_FETCH_AV attrib_sv w AV_ATTRIB_IS_AUTO_INCREMENT
    else (none, w)
  else (none, w)

/-- The function `dbd_st_FETCH_attrib`: the returned scalar (`none` for
`Nullsv`) and the state.  `attrib_sv` is the `switch (what)` of
`dbd_st_FETCH_internal`. -/
def dbd_st_FETCH_attrib (attrib_sv : Int → DRIZZLE_FIELD → Option Fetched) (w : World)
    (key : List Char) : Option AttribSV × World :=
  let kl := key.length
  if kl < 2 then (none, w)
  else
    let c := key.headD NUL
    if c = 'N' then
      if strEQ key "NAME".toList then ST_FETCH_AV attrib_sv w AV_ATTRIB_NAME
      else if strEQ key "NULLABLE".toList then ST_FETCH_AV attrib_sv w AV_ATTRIB_NULLABLE
      else (none, w)
    else if c = 'P' then
      let r := if strEQ key "PRECISION".toList then ST_FETCH_AV attrib_sv w AV_ATTRIB_PRECISION
        else (none, w)
      if strEQ key "ParamValues".toList then (some (AttribSV.hv (ParamValues r.2)), r.2)
      else r
    else if c = 'S' then
      if strEQ key "SCALE".toList then ST_FETCH_AV attrib_sv w AV_ATTRIB_SCALE
      else (none, w)
    else if c = 'T' then
      if strEQ key "TYPE".toList then ST_FETCH_AV attrib_sv w AV_ATTRIB_SQL_TYPE
      else (none, w)
    else if c = 'm' then st_FETCH_m attrib_sv w key kl
    else (none, w)

/-- The names the spec lists for statement handles. -/
def st_attrib_names : List (List Char) :=
  ["NAME".toList, "TYPE".toList, "NULLABLE".toList, "PRECISION".toList, "SCALE".toList,
    "ParamValues".toList, "drizzle_is_key".toList, "drizzle_is_blob".toList,
    "drizzle_is_auto_increment".toList, "drizzle_warning_count".toList,
    "drizzle_insertid".toList]

/-! ## The type catalogue (dbdimp.c 21-44, 394-729) -/

/-- Modelled from the spec: SQL type tag of `dbi_sql.h`. -/
def SQL_CHAR : Int := 1
/-- Modelled from the spec: SQL type tag of `dbi_sql.h`. -/
def SQL_TIME : Int := 10
/-- Modelled from the spec: SQL type tag of `dbi_sql.h`. -/
def SQL_TIMESTAMP : Int := 11
/-- Modelled from the spec: SQL type tag of `dbi_sql.h`. -/
def SQL_LONGVARCHAR : Int := -1
/-- Modelled from the spec: SQL type tag of `dbi_sql.h`. -/
def SQL_VARBINARY : Int := -3
/-- Modelled from the spec: SQL type tag of `dbi_sql.h`. -/
def SQL_LONGVARBINARY : Int := -4
/-- Modelled from the spec: SQL type tag of `dbi_sql.h`. -/
def SQL_BIT : Int := -7

/-- The values of the wire types of libdrizzle's `enum enum_field_types` that
dbdimp.c names; the header that declares them is not under src/. -/
structure enum_field_types where
  DRIZZLE_TYPE_VARCHAR : Int
  DRIZZLE_TYPE_NEWDECIMAL : Int
  DRIZZLE_TYPE_TINY : Int
  DRIZZLE_TYPE_LONG : Int
  DRIZZLE_TYPE_DOUBLE : Int
  DRIZZLE_TYPE_TIMESTAMP : Int
  DRIZZLE_TYPE_LONGLONG : Int
  DRIZZLE_TYPE_TIME : Int
  DRIZZLE_TYPE_DATETIME : Int
  DRIZZLE_TYPE_ENUM : Int
  DRIZZLE_TYPE_BLOB : Int
deriving DecidableEq, Repr

/-- The wire types that `native2sql` has a `case` for, in the order of its
cases. -/
def native2sql_cases (wt : enum_field_types) : List Int :=
  [wt.DRIZZLE_TYPE_VARCHAR, wt.DRIZZLE_TYPE_NEWDECIMAL, wt.DRIZZLE_TYPE_TINY,
    wt.DRIZZLE_TYPE_LONG, wt.DRIZZLE_TYPE_DOUBLE, wt.DRIZZLE_TYPE_TIMESTAMP,
    wt.DRIZZLE_TYPE_LONGLONG, wt.DRIZZLE_TYPE_TIME, wt.DRIZZLE_TYPE_DATETIME,
    wt.DRIZZLE_TYPE_ENUM, wt.DRIZZLE_TYPE_BLOB]

/-- The struct `sql_type_info_t`; a `const char *` member that is NULL is
`none`. -/
structure sql_type_info_t where
  type_name : String
  data_type : Int
  column_size : Int
  literal_prefix : Option String
  literal_suffix : Option String
  create_params : Option String
  nullable : Int
  case_sensitive : Int
  searchable : Int
  unsigned_attribute : Int
  fixed_prec_scale : Int
  auto_unique_value : Int
  local_type_name : String
  minimum_scale : Int
  maximum_scale : Int
  num_prec_radix : Int
  sql_datatype : Int
  sql_datetime_sub : Int
  interval_precision : Int
  native_type : Int
  is_num : Int
deriving DecidableEq, Repr

/-- The array `SQL_GET_TYPE_INFO_values`, in the order of its initialisers;
the record for `date`, which the source has inside a comment, is no element
of it. -/
def SQL_GET_TYPE_INFO_values (wt : enum_field_types) : List sql_type_info_t :=
  [
    ⟨"varchar", SQL_VARCHAR, 255, some "\x27", some "\x27", some "max length", 1, 0, 3, 0, 0, 0, "variable length string", 0, 0, 0, SQL_VARCHAR, 0, 0, wt.DRIZZLE_TYPE_VARCHAR, 0⟩,
    ⟨"decimal", SQL_DECIMAL, 15, none, none, some "precision,scale", 1, 0, 3, 0, 0, 0, "double", 0, 6, 2, SQL_DECIMAL, 0, 0, wt.DRIZZLE_TYPE_NEWDECIMAL, 1⟩,
    ⟨"tinyint", SQL_TINYINT, 3, none, none, none, 1, 0, 3, 0, 0, 0, "Tiny integer", 0, 0, 10, SQL_TINYINT, 0, 0, wt.DRIZZLE_TYPE_TINY, 1⟩,
    ⟨"smallint", SQL_SMALLINT, 5, none, none, none, 1, 0, 3, 0, 0, 0, "Short integer", 0, 0, 10, SQL_SMALLINT, 0, 0, wt.DRIZZLE_TYPE_LONG, 1⟩,
    ⟨"integer", SQL_INTEGER, 5, none, none, none, 1, 0, 3, 0, 0, 0, "integer", 0, 0, 10, SQL_INTEGER, 0, 0, wt.DRIZZLE_TYPE_LONG, 1⟩,
    ⟨"float", SQL_REAL, 7, none, none, none, 1, 0, 0, 0, 0, 0, "float", 0, 2, 10, SQL_FLOAT, 0, 0, wt.DRIZZLE_TYPE_DOUBLE, 1⟩,
    ⟨"double", SQL_FLOAT, 15, none, none, none, 1, 0, 3, 0, 0, 0, "double", 0, 4, 2, SQL_FLOAT, 0, 0, wt.DRIZZLE_TYPE_DOUBLE, 1⟩,
    ⟨"double", SQL_DOUBLE, 15, none, none, none, 1, 0, 3, 0, 0, 0, "double", 0, 4, 10, SQL_DOUBLE, 0, 0, wt.DRIZZLE_TYPE_DOUBLE, 1⟩,
    ⟨"timestamp", SQL_TIMESTAMP, 14, some "\x27", some "\x27", none, 0, 0, 3, 0, 0, 0, "timestamp", 0, 0, 0, SQL_TIMESTAMP, 0, 0, wt.DRIZZLE_TYPE_TIMESTAMP, 0⟩,
    ⟨"bigint", SQL_BIGINT, 19, none, none, none, 1, 0, 3, 0, 0, 0, "Longlong integer", 0, 0, 10, SQL_BIGINT, 0, 0, wt.DRIZZLE_TYPE_LONGLONG, 1⟩,
    ⟨"mediumint", SQL_INTEGER, 8, none, none, none, 1, 0, 3, 0, 0, 0, "Medium integer", 0, 0, 10, SQL_INTEGER, 0, 0, wt.DRIZZLE_TYPE_LONG, 1⟩,
    ⟨"time", SQL_TIME, 6, some "\x27", some "\x27", none, 1, 0, 3, 0, 0, 0, "time", 0, 0, 0, SQL_TIME, 0, 0, wt.DRIZZLE_TYPE_TIME, 0⟩,
    ⟨"datetime", SQL_TIMESTAMP, 21, some "\x27", some "\x27", none, 1, 0, 3, 0, 0, 0, "datetime", 0, 0, 0, SQL_TIMESTAMP, 0, 0, wt.DRIZZLE_TYPE_DATETIME, 0⟩,
    ⟨"enum", SQL_VARCHAR, 255, some "\x27", some "\x27", none, 1, 0, 1, 0, 0, 0, "enum(value1,value2,value3...)", 0, 0, 0, 0, 0, 0, wt.DRIZZLE_TYPE_ENUM, 0⟩,
    ⟨"blob", SQL_LONGVARBINARY, 65535, some "\x27", some "\x27", none, 1, 0, 3, 0, 0, 0, "binary large object (0-65535)", 0, 0, 0, SQL_LONGVARBINARY, 0, 0, wt.DRIZZLE_TYPE_BLOB, 0⟩,
    ⟨"tinyblob", SQL_VARBINARY, 255, some "\x27", some "\x27", none, 1, 0, 3, 0, 0, 0, "binary large object (0-255) ", 0, 0, 0, SQL_VARBINARY, 0, 0, wt.DRIZZLE_TYPE_BLOB, 0⟩,
    ⟨"mediumblob", SQL_LONGVARBINARY, 16777215, some "\x27", some "\x27", none, 1, 0, 3, 0, 0, 0, "binary large object", 0, 0, 0, SQL_LONGVARBINARY, 0, 0, wt.DRIZZLE_TYPE_BLOB, 0⟩,
    ⟨"longblob", SQL_LONGVARBINARY, 2147483647, some "\x27", some "\x27", none, 1, 0, 3, 0, 0, 0, "binary large object, use mediumblob instead", 0, 0, 0, SQL_LONGVARBINARY, 0, 0, wt.DRIZZLE_TYPE_BLOB, 0⟩,
    ⟨"char", SQL_CHAR, 255, some "\x27", some "\x27", some "max length", 1, 0, 3, 0, 0, 0, "string", 0, 0, 0, SQL_CHAR, 0, 0, wt.DRIZZLE_TYPE_VARCHAR, 0⟩,
    ⟨"decimal", SQL_NUMERIC, 15, none, none, some "precision,scale", 1, 0, 3, 0, 0, 0, "double", 0, 6, 2, SQL_NUMERIC, 0, 0, wt.DRIZZLE_TYPE_NEWDECIMAL, 1⟩,
    ⟨"tinyint unsigned", SQL_TINYINT, 3, none, none, none, 1, 0, 3, 1, 0, 0, "Tiny integer unsigned", 0, 0, 10, SQL_TINYINT, 0, 0, wt.DRIZZLE_TYPE_TINY, 1⟩,
    ⟨"smallint unsigned", SQL_SMALLINT, 5, none, none, none, 1, 0, 3, 1, 0, 0, "Short integer unsigned", 0, 0, 10, SQL_SMALLINT, 0, 0, wt.DRIZZLE_TYPE_LONG, 1⟩,
    ⟨"mediumint unsigned", SQL_INTEGER, 8, none, none, none, 1, 0, 3, 1, 0, 0, "Medium integer unsigned", 0, 0, 10, SQL_INTEGER, 0, 0, wt.DRIZZLE_TYPE_LONG, 1⟩,
    ⟨"int unsigned", SQL_INTEGER, 10, none, none, none, 1, 0, 3, 1, 0, 0, "integer unsigned", 0, 0, 10, SQL_INTEGER, 0, 0, wt.DRIZZLE_TYPE_LONG, 1⟩,
    ⟨"int", SQL_INTEGER, 10, none, none, none, 1, 0, 3, 0, 0, 0, "integer", 0, 0, 10, SQL_INTEGER, 0, 0, wt.DRIZZLE_TYPE_LONG, 1⟩,
    ⟨"integer unsigned", SQL_INTEGER, 10, none, none, none, 1, 0, 3, 1, 0, 0, "integer", 0, 0, 10, SQL_INTEGER, 0, 0, wt.DRIZZLE_TYPE_LONG, 1⟩,
    ⟨"bigint unsigned", SQL_BIGINT, 20, none, none, none, 1, 0, 3, 1, 0, 0, "Longlong integer unsigned", 0, 0, 10, SQL_BIGINT, 0, 0, wt.DRIZZLE_TYPE_LONGLONG, 1⟩,
    ⟨"text", SQL_LONGVARCHAR, 65535, some "\x27", some "\x27", none, 1, 0, 3, 0, 0, 0, "large text object (0-65535)", 0, 0, 0, SQL_LONGVARCHAR, 0, 0, wt.DRIZZLE_TYPE_BLOB, 0⟩,
    ⟨"mediumtext", SQL_LONGVARCHAR, 16777215, some "\x27", some "\x27", none, 1, 0, 3, 0, 0, 0, "large text object", 0, 0, 0, SQL_LONGVARCHAR, 0, 0, wt.DRIZZLE_TYPE_BLOB, 0⟩,
    ⟨"mediumint unsigned auto_increment", SQL_INTEGER, 8, none, none, none, 0, 0, 3, 1, 0, 1, "Medium integer unsigned auto_increment", 0, 0, 10, SQL_INTEGER, 0, 0, wt.DRIZZLE_TYPE_LONG, 1⟩,
    ⟨"tinyint unsigned auto_increment", SQL_TINYINT, 3, none, none, none, 0, 0, 3, 1, 0, 1, "tinyint unsigned auto_increment", 0, 0, 10, SQL_TINYINT, 0, 0, wt.DRIZZLE_TYPE_TINY, 1⟩,
    ⟨"smallint auto_increment", SQL_SMALLINT, 5, none, none, none, 0, 0, 3, 0, 0, 1, "smallint auto_increment", 0, 0, 10, SQL_SMALLINT, 0, 0, wt.DRIZZLE_TYPE_LONG, 1⟩,
    ⟨"int unsigned auto_increment", SQL_INTEGER, 10, none, none, none, 0, 0, 3, 1, 0, 1, "integer unsigned auto_increment", 0, 0, 10, SQL_INTEGER, 0, 0, wt.DRIZZLE_TYPE_LONG, 1⟩,
    ⟨"mediumint", SQL_INTEGER, 7, none, none, none, 1, 0, 3, 0, 0, 0, "Medium integer", 0, 0, 10, SQL_INTEGER, 0, 0, wt.DRIZZLE_TYPE_LONG, 1⟩,
    ⟨"bit", SQL_BIT, 1, none, none, none, 1, 0, 3, 0, 0, 0, "char(1)", 0, 0, 0, SQL_BIT, 0, 0, wt.DRIZZLE_TYPE_LONG, 0⟩,
    ⟨"numeric", SQL_NUMERIC, 19, none, none, some "precision,scale", 1, 0, 3, 0, 0, 0, "numeric", 0, 19, 10, SQL_NUMERIC, 0, 0, wt.DRIZZLE_TYPE_NEWDECIMAL, 1⟩,
    ⟨"integer unsigned auto_increment", SQL_INTEGER, 10, none, none, none, 0, 0, 3, 1, 0, 1, "integer unsigned auto_increment", 0, 0, 10, SQL_INTEGER, 0, 0, wt.DRIZZLE_TYPE_LONG, 1⟩,
    ⟨"mediumint unsigned", SQL_INTEGER, 8, none, none, none, 1, 0, 3, 1, 0, 0, "Medium integer unsigned", 0, 0, 10, SQL_INTEGER, 0, 0, wt.DRIZZLE_TYPE_LONG, 1⟩,
    ⟨"smallint unsigned auto_increment", SQL_SMALLINT, 5, none, none, none, 0, 0, 3, 1, 0, 1, "smallint unsigned auto_increment", 0, 0, 10, SQL_SMALLINT, 0, 0, wt.DRIZZLE_TYPE_LONG, 1⟩,
    ⟨"int auto_increment", SQL_INTEGER, 10, none, none, none, 0, 0, 3, 0, 0, 1, "integer auto_increment", 0, 0, 10, SQL_INTEGER, 0, 0, wt.DRIZZLE_TYPE_LONG, 1⟩,
    ⟨"long varbinary", SQL_LONGVARBINARY, 16777215, some "0x", none, none, 1, 0, 3, 0, 0, 0, "mediumblob", 0, 0, 0, SQL_LONGVARBINARY, 0, 0, wt.DRIZZLE_TYPE_BLOB, 0⟩,
    ⟨"double auto_increment", SQL_FLOAT, 15, none, none, none, 0, 0, 3, 0, 0, 1, "double auto_increment", 0, 4, 2, SQL_FLOAT, 0, 0, wt.DRIZZLE_TYPE_DOUBLE, 1⟩,
    ⟨"double auto_increment", SQL_DOUBLE, 15, none, none, none, 0, 0, 3, 0, 0, 1, "double auto_increment", 0, 4, 10, SQL_DOUBLE, 0, 0, wt.DRIZZLE_TYPE_DOUBLE, 1⟩,
    ⟨"integer auto_increment", SQL_INTEGER, 10, none, none, none, 0, 0, 3, 0, 0, 1, "integer auto_increment", 0, 0, 10, SQL_INTEGER, 0, 0, wt.DRIZZLE_TYPE_LONG, 1⟩,
    ⟨"bigint auto_increment", SQL_BIGINT, 19, none, none, none, 0, 0, 3, 0, 0, 1, "bigint auto_increment", 0, 0, 10, SQL_BIGINT, 0, 0, wt.DRIZZLE_TYPE_LONGLONG, 1⟩,
    ⟨"bit auto_increment", SQL_BIT, 1, none, none, none, 0, 0, 3, 0, 0, 1, "char(1) auto_increment", 0, 0, 0, SQL_BIT, 0, 0, wt.DRIZZLE_TYPE_TINY, 1⟩,
    ⟨"mediumint auto_increment", SQL_INTEGER, 7, none, none, none, 0, 0, 3, 0, 0, 1, "Medium integer auto_increment", 0, 0, 10, SQL_INTEGER, 0, 0, wt.DRIZZLE_TYPE_LONG, 1⟩,
    ⟨"float auto_increment", SQL_REAL, 7, none, none, none, 0, 0, 0, 0, 0, 1, "float auto_increment", 0, 2, 10, SQL_FLOAT, 0, 0, wt.DRIZZLE_TYPE_DOUBLE, 1⟩,
    ⟨"long varchar", SQL_LONGVARCHAR, 16777215, some "\x27", some "\x27", none, 1, 0, 3, 0, 0, 0, "mediumtext", 0, 0, 0, SQL_LONGVARCHAR, 0, 0, wt.DRIZZLE_TYPE_BLOB, 1⟩,
    ⟨"tinyint auto_increment", SQL_TINYINT, 3, none, none, none, 0, 0, 3, 0, 0, 1, "tinyint auto_increment", 0, 0, 10, SQL_TINYINT, 0, 0, wt.DRIZZLE_TYPE_TINY, 1⟩,
    ⟨"bigint unsigned auto_increment", SQL_BIGINT, 20, none, none, none, 0, 0, 3, 1, 0, 1, "bigint unsigned auto_increment", 0, 0, 10, SQL_BIGINT, 0, 0, wt.DRIZZLE_TYPE_LONGLONG, 1⟩
  ]

/-- The element `SQL_GET_TYPE_INFO_values[i]`. -/
def SQL_GET_TYPE_INFO_at (wt : enum_field_types) (i : Nat) : sql_type_info_t :=
  (SQL_GET_TYPE_INFO_values wt).getD i
    ⟨"", 0, 0, none, none, none, 0, 0, 0, 0, 0, 0, "", 0, 0, 0, 0, 0, 0, 0, 0⟩

/-- The function `native2sql`. -/
def native2sql (wt : enum_field_types) (t : Int) : sql_type_info_t :=
  if t = wt.DRIZZLE_TYPE_VARCHAR then SQL_GET_TYPE_INFO_at wt 0
  else if t = wt.DRIZZLE_TYPE_NEWDECIMAL then SQL_GET_TYPE_INFO_at wt 1
  else if t = wt.DRIZZLE_TYPE_TINY then SQL_GET_TYPE_INFO_at wt 2
  else if t = wt.DRIZZLE_TYPE_LONG then SQL_GET_TYPE_INFO_at wt 4
  else if t = wt.DRIZZLE_TYPE_DOUBLE then SQL_GET_TYPE_INFO_at wt 7
  else if t = wt.DRIZZLE_TYPE_TIMESTAMP then SQL_GET_TYPE_INFO_at wt 8
  else if t = wt.DRIZZLE_TYPE_LONGLONG then SQL_GET_TYPE_INFO_at wt 9
  else if t = wt.DRIZZLE_TYPE_TIME then SQL_GET_TYPE_INFO_at wt 11
  else if t = wt.DRIZZLE_TYPE_DATETIME then SQL_GET_TYPE_INFO_at wt 12
  else if t = wt.DRIZZLE_TYPE_ENUM then SQL_GET_TYPE_INFO_at wt 14
  else if t = wt.DRIZZLE_TYPE_BLOB then SQL_GET_TYPE_INFO_at wt 15
  else SQL_GET_TYPE_INFO_at wt 0

/-- Wire type values for examples: eleven different numbers. -/
def enum_field_types_example : enum_field_types := ⟨0, 1, 2, 3, 4, 5, 6, 7, 8, 9, 10⟩

/-- A database handle as DBI allocates it: every field zero. -/
def imp_dbh_zero : imp_dbh_t :=
  ⟨DRIZZLE_zero, false, 0, 0, 0, false, false, false, false, false, false, 0, [], false, none⟩

/-- A statement handle as DBI allocates it: every field zero. -/
def imp_sth_zero : imp_sth_t :=
  ⟨none, 0, 0, 0, 0, 0, 0, [], [], false, 0, 0, false, false, [], [], []⟩

/-- A far side with nothing scripted and zeroed handles. -/
def World_zero : World := ⟨⟨[], [], [], []⟩, imp_dbh_zero, imp_sth_zero⟩

/-- The state `World_zero` with a connected session and a statement handle
prepared for `statement`. -/
def World_prepared (statement : List Char) : World :=
  let w : World := { World_zero with
    dbh := { imp_dbh_zero with pdrizzle := { DRIZZLE_zero with connected := true },
                               IMPSET := true, ACTIVE := true, AutoCommit := true },
    sth := { imp_sth_zero with Statement := statement } }
  (dbd_st_prepare w statement none).2

/-- A statement handle on a one-column result set with the given field
metadata and one row holding `col`, with the `ChopBlanks` flag as given. -/
def World_one_column (field : DRIZZLE_FIELD) (col : Option (List Char)) (ChopBlanks : Bool) :
    World :=
  { World_zero with sth := { imp_sth_zero with
      result := some ⟨1, 1, [field], [[col]], false, false⟩,
      NUM_FIELDS := 1, ACTIVE := true, ChopBlanks := ChopBlanks } }

/-- A statement handle that holds the result set `res` of a statement
whose further replies `pending` are still to be read from the connection. -/
def World_multi (res : DRIZZLE_RES) (pending : List Reply) : World :=
  { World_zero with
    dbh := { imp_dbh_zero with
      pdrizzle := { DRIZZLE_zero with connected := true, field_count := res.num_fields,
                                      pending := pending },
      IMPSET := true, ACTIVE := true, AutoCommit := true },
    sth := { imp_sth_zero with result := some res, NUM_FIELDS := res.num_fields,
                               ACTIVE := true } }

/-- A result set of one column and the given rows, as `drizzle_store_result`
returns it. -/
def DRIZZLE_RES_one (rows : List (List (Option (List Char)))) : DRIZZLE_RES :=
  ⟨1, rows.length, [⟨8, 0⟩], rows, false, false⟩

/-- A connected session with AutoCommit on, a statement handle for
`statement` with the slots `params`, and a far side that answers the queries
to come with `answers`. -/
def World_connected (statement : List Char) (params : List imp_sth_ph_t)
    (bind_type_guessing : Nat) (answers : List (List Reply)) : World :=
  { World_zero with
    srv := ⟨answers, [], [], []⟩,
    dbh := { imp_dbh_zero with pdrizzle := { DRIZZLE_zero with connected := true },
                               AutoCommit := true, imp_data := true, imp_data_hv := some [], IMPSET := true,
                               ACTIVE := true, bind_type_guessing := bind_type_guessing },
    sth := { imp_sth_zero with Statement := statement, params := params,
                               NUM_PARAMS := params.length } }

namespace Spec

/-- Whether a LIMIT keyword is recognised at a position of `b` that lies
outside quoted regions, `b` being followed by `tail` and the walk standing at
`q` before it. -/
def limit_in : QState → List Char → List Char → Bool
  | _, [], _ => false
  | q, c :: rest, tail =>
    (decide (q = QState.top) && limit_here c (rest ++ tail)) ||
      limit_in (next_state q c) rest tail

end Spec

namespace Spec

/-- What `parse_number` scans over: the leading whitespace of the text, then
a `-` only when there was no whitespace, then digits with at most one `.`. -/
def scanned (s : List Char) : List Char :=
  s.takeWhile isspace ++
    (if s.takeWhile isspace = [] then leading_numeric s
      else leading_digits false (s.dropWhile isspace))

/-- Digits and at most one `.`, with one digit at least. -/
def decimal_body (s : List Char) : Bool :=
  s.all (fun c => isdigit c || c == '.') && decide (s.count '.' ≤ 1) && s.any isdigit

/-- An integer or decimal literal in the words of the spec: an optional
single leading `-`, one or more digits, and at most one `.`. -/
def decimal_literal : List Char → Bool
  | [] => false
  | c :: rest => if c = '-' then decimal_body rest else decimal_body (c :: rest)

/-- All spellings of a word in upper and lower case letters. -/
def case_variants : List Char → List (List Char)
  | [] => [[]]
  | c :: rest =>
    (case_variants rest).map (fun v => c.toLower :: v) ++
      (case_variants rest).map (fun v => c.toUpper :: v)

/-- The four spellings of the LIMIT keyword that `parse_params` tests for. -/
def limit_spellings : List (List Char) :=
  ["limit".toList, "Limit".toList, "lIMIT".toList, "LIMIT".toList]

/-- Trailing space bytes removed: the text up to its last byte that is not a
space. -/
def chop_blanks (bytes : List Char) : List Char :=
  (bytes.reverse.dropWhile (fun c => c == ' ')).reverse

end Spec

/-! ## The scanner -/

theorem count_params_skip_length (e : Char) (s : List Char) :
    (count_params_skip e s).length ≤ s.length := by
  induction s with
  | nil => simp [count_params_skip]
  | cons c rest ih =>
    simp only [count_params_skip]
    split_ifs <;> simp <;> omega

theorem count_params_skip_mem (e : Char) (s : List Char) (x : Char)
    (hx : x ∈ count_params_skip e s) : x ∈ s := by
  induction s with
  | nil => simp [count_params_skip] at hx
  | cons c rest ih =>
    simp only [count_params_skip] at hx
    split_ifs at hx <;>
      first
        | exact hx
        | exact List.mem_cons_of_mem _ hx
        | exact List.mem_cons_of_mem _ (ih hx)

theorem count_outside_skip (e : Char) (s : List Char) (h0 : NUL ∉ s) :
    Spec.count_outside (some e) s = Spec.count_outside none (count_params_skip e s) := by
  induction s with
  | nil => simp [count_params_skip, Spec.count_outside]
  | cons c rest ih =>
    have hc : c ≠ NUL := fun h => h0 (by simp [h])
    have hr : NUL ∉ rest := fun h => h0 (List.mem_cons_of_mem _ h)
    simp only [count_params_skip, Spec.count_outside, if_neg hc]
    split_ifs <;> simp [ih hr]

theorem count_params_loop_eq (fuel : Nat) :
    ∀ (s : List Char) (n : Nat), s.length < fuel → NUL ∉ s →
      count_params_loop fuel s n = n + Spec.count_outside none s := by
  induction fuel with
  | zero => intro s n h; omega
  | succ fuel ih =>
    intro s n hlen h0
    cases s with
    | nil => simp [count_params_loop, Spec.count_outside]
    | cons c rest =>
      have hc : c ≠ NUL := fun h => h0 (by simp [h])
      have hr : NUL ∉ rest := fun h => h0 (List.mem_cons_of_mem _ h)
      simp only [List.length_cons] at hlen
      simp only [count_params_loop, Spec.count_outside, if_neg hc]
      split_ifs with hq hp
      · have hl := count_params_skip_length c rest
        rw [ih _ _ (by omega) (fun h => hr (count_params_skip_mem c rest NUL h)),
          count_outside_skip c rest hr]
      · rw [ih _ _ (by omega) hr]; omega
      · rw [ih _ _ (by omega) hr]

/-- C2: on a statement text without a backslash (and, being a C string,
without a NUL byte) `count_params` returns the number of `?` outside every
quoted region, a region running from a quote character to the next occurrence
of the same character or to the end of the text; and the example statement
has one placeholder. -/
theorem count_params_counts_outside_quotes :
    (∀ T : List Char, BACKSLASH ∉ T → NUL ∉ T →
      count_params T = Spec.count_outside none T) ∧
    count_params "SELECT * FROM t WHERE a=? AND b='it''s ?'".toList = 1 := by
  refine ⟨fun T _ h0 => ?_, by decide⟩
  unfold count_params
  rw [count_params_loop_eq _ T 0 (by omega) h0]
  omega

theorem count_params_counts_outside_quotes_witness :
    BACKSLASH ∉ "a=? AND b='?' OR c=?".toList ∧ NUL ∉ "a=? AND b='?' OR c=?".toList ∧
    count_params "a=? AND b='?' OR c=?".toList =
      Spec.count_outside none "a=? AND b='?' OR c=?".toList ∧
    Spec.count_outside none "a=? AND b='?' OR c=?".toList = 2 :=
  ⟨by decide, by decide,
    count_params_counts_outside_quotes.1 _ (by decide) (by decide), by decide⟩

/-- C3: the six-character text quote, a, backslash, quote, ?, quote.  In
`count_params` the backslash does not escape the quote behind it, the
literal ends there and the `?` is counted: the result is 1.  The walk of
`parse_params` over the same text keeps the `?` inside the literal. -/
theorem count_params_backslash_quote :
    count_params [SQUOTE, 'a', BACKSLASH, SQUOTE, '?', SQUOTE] = 1 ∧
    Spec.placeholders [SQUOTE, 'a', BACKSLASH, SQUOTE, '?', SQUOTE] = 0 := by
  decide

/-! ## The rewriter against the walk -/

theorem strncmp_zero_eq_isPrefixOf (t : List Char) (ht : NUL ∉ t) :
    ∀ s : List Char, strncmp_zero s t t.length = t.isPrefixOf s := by
  induction t with
  | nil => intro s; simp [strncmp_zero]
  | cons b t ih =>
    intro s
    have hb : b ≠ NUL := fun h => ht (by simp [h])
    have hr : NUL ∉ t := fun h => ht (List.mem_cons_of_mem _ h)
    cases s with
    | nil => simp [strncmp_zero, Ne.symm hb]
    | cons a s =>
      simp only [List.length_cons, strncmp_zero, List.headD_cons, List.tail_cons,
        List.isPrefixOf]
      by_cases hab : a = b
      · subst hab
        simp [hb, ih hr s]
      · have hba : ¬ b = a := fun h => hab h.symm
        simp [hab, hba]

theorem limit_match_eq (c : Char) (rest : List Char) :
    limit_match c rest = Spec.limit_here c rest := by
  unfold limit_match Spec.limit_here
  have h1 := strncmp_zero_eq_isPrefixOf "imit ?".toList (by decide) rest
  have h2 := strncmp_zero_eq_isPrefixOf "IMIT ?".toList (by decide) rest
  have e1 : "imit ?".toList.length = 6 := by decide
  have e2 : "IMIT ?".toList.length = 6 := by decide
  rw [e1] at h1
  rw [e2] at h2
  rw [h1, h2]

theorem limit_match_quote (c : Char) (rest : List Char) (hq : is_quote c = true) :
    limit_match c rest = false := by
  have hl : (c == 'l') = false := by
    simp only [is_quote, Bool.or_eq_true, beq_iff_eq] at hq
    rcases hq with (h | h) | h <;> subst h <;> decide
  have hL : (c == 'L') = false := by
    simp only [is_quote, Bool.or_eq_true, beq_iff_eq] at hq
    rcases hq with (h | h) | h <;> subst h <;> decide
  simp [limit_match, hl, hL]

theorem limit_match_qmark (rest : List Char) : limit_match '?' rest = false := by
  have hl : ('?' == 'l') = false := by decide
  have hL : ('?' == 'L') = false := by decide
  simp [limit_match, hl, hL]

theorem parse_params_string_nil (e : Char) : parse_params_string e [] = ([], []) := by
  rw [parse_params_string]

theorem parse_params_string_single (e c : Char) :
    parse_params_string e [c] = ([c], []) := by
  rw [parse_params_string]
  split_ifs <;> simp [parse_params_string]

theorem parse_params_string_cons_cons (e c d : Char) (rest2 : List Char) :
    parse_params_string e (c :: d :: rest2) =
      if c = e then ([c], d :: rest2)
      else if c = BACKSLASH then
        (c :: d :: (parse_params_string e rest2).1, (parse_params_string e rest2).2)
      else (c :: (parse_params_string e (d :: rest2)).1,
        (parse_params_string e (d :: rest2)).2) := by
  rw [parse_params_string]

theorem parse_params_string_length (e : Char) :
    ∀ (n : Nat) (s : List Char), s.length ≤ n →
      (parse_params_string e s).2.length ≤ s.length := by
  intro n
  induction n using Nat.strong_induction_on with
  | _ n ih =>
    intro s h
    match s, h with
    | [], _ => simp [parse_params_string_nil]
    | [c], _ => simp [parse_params_string_single]
    | c :: d :: rest2, h =>
      simp only [List.length_cons] at h
      rw [parse_params_string_cons_cons]
      split_ifs with h1 h2
      · simp
      · have := ih rest2.length (by omega) rest2 (le_refl _)
        simp only [List.length_cons]
        omega
      · have := ih (rest2.length + 1) (by omega) (d :: rest2) (by simp)
        simp only [List.length_cons] at this ⊢
        omega

theorem items_string (e : Char) (l : Bool) :
    ∀ (n : Nat) (s : List Char), s.length ≤ n →
      Spec.items (Spec.QState.quoted e) l s =
        (parse_params_string e s).1.map Spec.Item.text ++
          Spec.items Spec.QState.top l (parse_params_string e s).2 := by
  intro n
  induction n using Nat.strong_induction_on with
  | _ n ih =>
    intro s h
    match s, h with
    | [], _ => simp [parse_params_string_nil, Spec.items]
    | [c], _ =>
      rw [parse_params_string_single]
      simp only [Spec.items]
      split_ifs <;> simp [Spec.items]
    | c :: d :: rest2, h =>
      simp only [List.length_cons] at h
      rw [parse_params_string_cons_cons]
      split_ifs with h1 h2
      · simp [Spec.items, h1]
      · subst h2
        have := ih rest2.length (by omega) rest2 (le_refl _)
        rw [Spec.items, if_neg h1, if_pos rfl, Spec.items, this]
        simp
      · have := ih (rest2.length + 1) (by omega) (d :: rest2) (by simp)
        rw [Spec.items, if_neg h1, if_neg h2, this]
        simp

theorem segments_ne_nil (its : List Spec.Item) : Spec.segments its ≠ [] := by
  induction its with
  | nil => simp [Spec.segments]
  | cons it rest ih =>
    cases it with
    | text c =>
      simp only [Spec.segments]
      split <;> simp
    | slot l => simp [Spec.segments]

theorem segments_length (its : List Spec.Item) :
    (Spec.segments its).length = (Spec.flags its).length + 1 := by
  induction its with
  | nil => simp [Spec.segments, Spec.flags]
  | cons it rest ih =>
    cases it with
    | text c =>
      simp only [Spec.segments, Spec.flags]
      split
      · rename_i h; exact absurd h (segments_ne_nil rest)
      · rename_i seg segs h
        rw [h] at ih
        simpa using ih
    | slot l => simp [Spec.segments, Spec.flags, ih]

theorem weave_text (c : Char) (its : List Spec.Item) (rs : List (List Char)) :
    Spec.weave (Spec.segments (Spec.Item.text c :: its)) rs =
      c :: Spec.weave (Spec.segments its) rs := by
  simp only [Spec.segments]
  split
  · rename_i h; exact absurd h (segments_ne_nil its)
  · rename_i seg segs h
    rw [h]
    cases rs <;> simp [Spec.weave]

theorem weave_texts (xs : List Char) (its : List Spec.Item) (rs : List (List Char)) :
    Spec.weave (Spec.segments (xs.map Spec.Item.text ++ its)) rs =
      xs ++ Spec.weave (Spec.segments its) rs := by
  induction xs with
  | nil => simp
  | cons x xs ih =>
    simp only [List.map_cons, List.cons_append]
    rw [weave_text, ih]

theorem flags_texts (xs : List Char) (its : List Spec.Item) :
    Spec.flags (xs.map Spec.Item.text ++ its) = Spec.flags its := by
  induction xs with
  | nil => simp
  | cons x xs ih => simpa [Spec.flags] using ih

theorem parse_params_loop_excess (escape : List Char → List Char)
    (params : List imp_sth_ph_t) (num_params : Nat) (fuel : Nat) :
    ∀ (s : List Char) (i j : Nat) (flag : Bool), num_params ≤ i → num_params ≤ j →
      parse_params_loop escape params num_params fuel s i flag =
        parse_params_loop escape params num_params fuel s j flag := by
  induction fuel with
  | zero => intro s i j flag _ _; simp [parse_params_loop]
  | succ fuel ih =>
    intro s i j flag hi hj
    cases s with
    | nil => simp [parse_params_loop]
    | cons c rest =>
      simp only [parse_params_loop, ge_iff_le, if_pos hi, if_pos hj]
      split_ifs <;> rw [ih _ i j _ hi hj]

/-- The main loop writes the segments of the walk with the replacement
texts between them. -/
theorem parse_params_loop_eq (escape : List Char → List Char)
    (params : List imp_sth_ph_t) (num_params : Nat) (fuel : Nat) :
    ∀ (s : List Char) (i : Nat) (flag : Bool), s.length < fuel →
      parse_params_loop escape params num_params fuel s i flag =
        Spec.weave (Spec.segments (Spec.items Spec.QState.top flag s))
          (Spec.renderings escape params num_params i
            (Spec.flags (Spec.items Spec.QState.top flag s))) := by
  induction fuel with
  | zero => intro s i flag h; omega
  | succ fuel ih =>
    intro s i flag hlen
    cases s with
    | nil => simp [parse_params_loop, Spec.items, Spec.segments, Spec.flags,
        Spec.renderings, Spec.weave]
    | cons c rest =>
      simp only [List.length_cons] at hlen
      simp only [parse_params_loop, Spec.items]
      by_cases hq : is_quote c = true
      · have hlm : (if (!flag) = true then limit_match c rest else flag) = flag := by
          cases flag <;> simp [limit_match_quote c rest hq]
        have hl := parse_params_string_length c rest.length rest (le_refl _)
        simp only [hq, if_true, hlm]
        rw [items_string c flag rest.length rest (le_refl _), weave_text, weave_texts,
          ih _ _ _ (by omega)]
        simp [Spec.flags, flags_texts]
      · simp only [hq, if_false, Bool.false_eq_true]
        by_cases hp : c = '?'
        · subst hp
          have hlm : (if (!flag) = true then limit_match '?' rest else flag) = flag := by
            cases flag <;> simp [limit_match_qmark]
          simp only [if_true, hlm, ge_iff_le]
          by_cases hi : i < num_params
          · rw [if_neg (by omega), ih _ _ _ (by omega)]
            simp [Spec.segments, Spec.flags, Spec.renderings, Spec.weave, hi]
          · rw [if_pos (by omega),
              parse_params_loop_excess escape params num_params fuel rest i (i + 1) flag
                (by omega) (by omega),
              ih _ _ _ (by omega)]
            simp [Spec.segments, Spec.flags, Spec.renderings, Spec.weave, hi]
        · simp only [hp, if_false]
          by_cases hr : c = ')'
          · simp only [hr, if_true]
            rw [ih _ _ _ (by omega), weave_text]
            simp [Spec.flags]
          · simp only [hr, if_false]
            have hlm : (if (!flag) = true then limit_match c rest else flag) =
                (flag || Spec.limit_here c rest) := by
              cases flag <;> simp [limit_match_eq]
            rw [hlm, ih _ _ _ (by omega), weave_text]
            simp [Spec.flags]

/-- The rewriter in one equation: for `num_params ≥ 1` the call returns the
segments of the statement (leading whitespace skipped) with the replacement
texts of the placeholders between them, and the length of that text. -/
theorem parse_params_eq (escape : List Char → List Char) (statement : List Char)
    (params : List imp_sth_ph_t) (num_params g : Nat) (hn : 1 ≤ num_params) :
    parse_params escape statement params num_params g =
      some (Spec.rewritten escape statement params num_params g,
        (Spec.rewritten escape statement params num_params g).length) := by
  unfold parse_params Spec.rewritten Spec.replacements
  rw [if_neg (by omega)]
  simp only [Spec.scan]
  rw [parse_params_loop_eq escape _ num_params _ _ 0 false (by omega)]

theorem renderings_length (escape : List Char → List Char) (params : List imp_sth_ph_t)
    (n : Nat) (fl : List Bool) :
    ∀ i, (Spec.renderings escape params n i fl).length = fl.length := by
  induction fl with
  | nil => intro i; simp [Spec.renderings]
  | cons l ls ih => intro i; simp [Spec.renderings, ih]

theorem renderings_getElem? (escape : List Char → List Char)
    (params : List imp_sth_ph_t) (n : Nat) (fl : List Bool) :
    ∀ i k, (Spec.renderings escape params n i fl)[k]? =
      fl[k]?.map (fun l =>
        if i + k < n then parse_params_value escape (params.getD (i + k) ⟨none, 0⟩) l
        else []) := by
  induction fl with
  | nil => intro i k; simp [Spec.renderings]
  | cons l ls ih =>
    intro i k
    cases k with
    | zero => simp [Spec.renderings]
    | succ k =>
      simp only [Spec.renderings, List.getElem?_cons_succ, ih]
      have : i + 1 + k = i + (k + 1) := by omega
      rw [this]

theorem parse_params_types_of_length (params : List imp_sth_ph_t) (n g : Nat)
    (h : params.length = n) :
    parse_params_types params n g = params.map (parse_params_guess g) := by
  subst h
  simp [parse_params_types]

theorem parse_params_guess_value (g : Nat) (ph : imp_sth_ph_t) :
    (parse_params_guess g ph).value = ph.value := by
  unfold parse_params_guess
  split
  · rfl
  · split_ifs <;> rfl

theorem parse_params_types_getD (params : List imp_sth_ph_t) (n g k : Nat)
    (h : params.length = n) :
    (parse_params_types params n g).getD k ⟨none, 0⟩ =
      parse_params_guess g (params.getD k ⟨none, 0⟩) := by
  rw [parse_params_types_of_length params n g h]
  simp only [List.getD_eq_getElem?_getD, List.getElem?_map]
  cases params[k]? with
  | none => simp [parse_params_guess]
  | some ph => simp

/-- The replacement text of placeholder `k`. -/
theorem replacements_getElem? (escape : List Char → List Char) (statement : List Char)
    (params : List imp_sth_ph_t) (n g k : Nat) (h : params.length = n) :
    (Spec.replacements escape statement params n g)[k]? =
      (Spec.flags (Spec.scan (statement.dropWhile isspace)))[k]?.map (fun l =>
        if k < n then
          parse_params_value escape (parse_params_guess g (params.getD k ⟨none, 0⟩)) l
        else []) := by
  unfold Spec.replacements
  rw [renderings_getElem?]
  simp only [Nat.zero_add, parse_params_types_getD params n g k h]

theorem replacements_length (escape : List Char → List Char) (statement : List Char)
    (params : List imp_sth_ph_t) (n g : Nat) :
    (Spec.replacements escape statement params n g).length =
      Spec.placeholders (statement.dropWhile isspace) := by
  simp [Spec.replacements, Spec.placeholders, renderings_length]

theorem weave_source (s : List Char) :
    ∀ (q : Spec.QState) (l : Bool),
      Spec.weave (Spec.segments (Spec.items q l s))
        (List.replicate (Spec.flags (Spec.items q l s)).length ['?']) = s := by
  induction s with
  | nil => intro q l; cases q <;> simp [Spec.items, Spec.segments, Spec.flags, Spec.weave]
  | cons c rest ih =>
    intro q l
    cases q with
    | escaped e => simp only [Spec.items, weave_text, Spec.flags, ih]
    | quoted e =>
      simp only [Spec.items]
      split_ifs <;> simp only [weave_text, Spec.flags, ih]
    | top =>
      simp only [Spec.items]
      split_ifs with h1 h2 h3
      · simp only [weave_text, Spec.flags, ih]
      · subst h2
        simp only [Spec.segments, Spec.flags, List.length_cons, List.replicate_succ,
          Spec.weave, ih, List.nil_append, List.singleton_append]
      · simp only [weave_text, Spec.flags, ih]
      · simp only [weave_text, Spec.flags, ih]

theorem parse_params_value_null (escape : List Char → List Char) (ph : imp_sth_ph_t)
    (l : Bool) (h : ∀ sv, ph.value = some sv → sv.ok = false) :
    parse_params_value escape ph l = "NULL".toList := by
  unfold parse_params_value
  cases hv : ph.value with
  | none => rfl
  | some sv => simp [h sv hv]

/-! ## The walk over a text put together from parts -/

theorem is_quote_ne_qmark : is_quote '?' = false := by decide

theorem is_quote_ne_close : is_quote ')' = false := by decide

/-- One step of the walk: the item for the first character and the walk over
the rest. -/
theorem items_cons (q : Spec.QState) (l : Bool) (c : Char) (rest : List Char) :
    ∃ l2, Spec.items q l (c :: rest) =
      (if q = Spec.QState.top ∧ c = '?' then Spec.Item.slot l else Spec.Item.text c) ::
        Spec.items (Spec.next_state q c) l2 rest ∧
      (l = true → ¬ (q = Spec.QState.top ∧ c = ')') → l2 = true) := by
  cases q with
  | escaped e => exact ⟨l, by simp [Spec.items, Spec.next_state], fun h _ => h⟩
  | quoted e =>
    refine ⟨l, ?_, fun h _ => h⟩
    have hq : ¬ (Spec.QState.quoted e = Spec.QState.top ∧ c = '?') := by simp
    rw [if_neg hq]
    simp only [Spec.items, Spec.next_state]
    split_ifs <;> rfl
  | top =>
    simp only [Spec.items, Spec.next_state]
    by_cases h1 : is_quote c = true
    · refine ⟨l, ?_, fun h _ => h⟩
      have hc : c ≠ '?' := fun h => by rw [h, is_quote_ne_qmark] at h1; cases h1
      simp [h1, hc]
    · by_cases h2 : c = '?'
      · exact ⟨l, by simp [h1, h2, is_quote_ne_qmark], fun h _ => h⟩
      · by_cases h3 : c = ')'
        · exact ⟨false, by simp [h1, h2, h3, is_quote_ne_close],
            fun _ h => (h ⟨trivial, h3⟩).elim⟩
        · exact ⟨l || Spec.limit_here c rest, by simp [h1, h2, h3], fun h _ => by simp [h]⟩

theorem flags_length_eq_slots (s : List Char) :
    ∀ (q : Spec.QState) (l : Bool), (Spec.flags (Spec.items q l s)).length = Spec.slots q s := by
  induction s with
  | nil => intro q l; cases q <;> simp [Spec.items, Spec.flags, Spec.slots]
  | cons c rest ih =>
    intro q l
    obtain ⟨l2, h, _⟩ := items_cons q l c rest
    rw [h, Spec.slots]
    split_ifs with hq
    · simp [Spec.flags, ih]; omega
    · simp [Spec.flags, ih]

theorem placeholders_eq_slots (s : List Char) :
    Spec.placeholders s = Spec.slots Spec.QState.top s :=
  flags_length_eq_slots s Spec.QState.top false

/-- The walk over `a ++ b`: some items for `a`, with as many placeholders as
`a` has, then the walk over `b` from where `a` ends. -/
theorem items_append (a b : List Char) :
    ∀ (q : Spec.QState) (l : Bool), ∃ (X : List Spec.Item) (l2 : Bool),
      Spec.items q l (a ++ b) = X ++ Spec.items (Spec.state_after q a) l2 b ∧
      (Spec.flags X).length = Spec.slots q a := by
  induction a with
  | nil => intro q l; exact ⟨[], l, by simp [Spec.state_after], by simp [Spec.flags, Spec.slots]⟩
  | cons c rest ih =>
    intro q l
    obtain ⟨l2, h, _⟩ := items_cons q l c (rest ++ b)
    obtain ⟨X, l3, hX, hn⟩ := ih (Spec.next_state q c) l2
    refine ⟨(if q = Spec.QState.top ∧ c = '?' then Spec.Item.slot l
      else Spec.Item.text c) :: X, l3, ?_, ?_⟩
    · rw [List.cons_append, h, hX, Spec.state_after, List.cons_append]
    · rw [Spec.slots]
      split_ifs with hq
      · simp [Spec.flags, hn]; omega
      · simp [Spec.flags, hn]

/-- In LIMIT state the walk over `m ++ b`, `m` without a `)` outside quoted
regions: all placeholders of `m` are in LIMIT state, and so is the walk when
it reaches `b`. -/
theorem items_append_limit (m b : List Char) :
    ∀ (q : Spec.QState), Spec.top_close q m = false →
      ∃ X : List Spec.Item,
        Spec.items q true (m ++ b) = X ++ Spec.items (Spec.state_after q m) true b ∧
        Spec.flags X = List.replicate (Spec.slots q m) true := by
  induction m with
  | nil => intro q _; exact ⟨[], by simp [Spec.state_after], by simp [Spec.flags, Spec.slots]⟩
  | cons c rest ih =>
    intro q hm
    simp only [Spec.top_close, Bool.or_eq_false_iff, Bool.and_eq_false_iff] at hm
    obtain ⟨l2, h, hl⟩ := items_cons q true c (rest ++ b)
    have hl2 : l2 = true := by
      apply hl rfl
      rintro ⟨hq, hc⟩
      rcases hm.1 with h1 | h1
      · simp [hq] at h1
      · simp [hc] at h1
    subst hl2
    obtain ⟨X, hX, hn⟩ := ih (Spec.next_state q c) hm.2
    refine ⟨(if q = Spec.QState.top ∧ c = '?' then Spec.Item.slot true
      else Spec.Item.text c) :: X, ?_, ?_⟩
    · rw [List.cons_append, h, hX, Spec.state_after, List.cons_append]
    · rw [Spec.slots]
      split_ifs with hq
      · rw [Nat.add_comm, List.replicate_succ]
        simp [Spec.flags, hn]
      · simp [Spec.flags, hn]

/-- A recognised LIMIT keyword outside quoted regions: its `?` is a
placeholder in LIMIT state and the walk goes on in LIMIT state. -/
theorem items_limit_keyword (l : Bool) (c : Char) (kw tail : List Char)
    (hc : c = 'l' ∨ c = 'L') (hkw : kw = "imit".toList ∨ kw = "IMIT".toList) :
    ∃ X : List Spec.Item,
      Spec.items Spec.QState.top l (c :: (kw ++ ' ' :: '?' :: tail)) =
        X ++ Spec.Item.slot true :: Spec.items Spec.QState.top true tail ∧
      Spec.flags X = [] := by
  have q1 : is_quote 'l' = false := by decide
  have q2 : is_quote 'L' = false := by decide
  have q3 : is_quote 'i' = false := by decide
  have q4 : is_quote 'm' = false := by decide
  have q5 : is_quote 't' = false := by decide
  have q6 : is_quote 'I' = false := by decide
  have q7 : is_quote 'M' = false := by decide
  have q8 : is_quote 'T' = false := by decide
  have q9 : is_quote ' ' = false := by decide
  rcases hc with hc | hc <;> rcases hkw with hkw | hkw <;> subst hc <;> subst hkw
  · exact ⟨[.text 'l', .text 'i', .text 'm', .text 'i', .text 't', .text ' '],
      by simp [Spec.items, Spec.limit_here, q1, q3, q4, q5, q9, is_quote_ne_qmark, List.isPrefixOf],
      by simp [Spec.flags]⟩
  · exact ⟨[.text 'l', .text 'I', .text 'M', .text 'I', .text 'T', .text ' '],
      by simp [Spec.items, Spec.limit_here, q1, q6, q7, q8, q9, is_quote_ne_qmark, List.isPrefixOf],
      by simp [Spec.flags]⟩
  · exact ⟨[.text 'L', .text 'i', .text 'm', .text 'i', .text 't', .text ' '],
      by simp [Spec.items, Spec.limit_here, q2, q3, q4, q5, q9, is_quote_ne_qmark, List.isPrefixOf],
      by simp [Spec.flags]⟩
  · exact ⟨[.text 'L', .text 'I', .text 'M', .text 'I', .text 'T', .text ' '],
      by simp [Spec.items, Spec.limit_here, q2, q6, q7, q8, q9, is_quote_ne_qmark, List.isPrefixOf],
      by simp [Spec.flags]⟩

theorem flags_append (X Y : List Spec.Item) :
    Spec.flags (X ++ Y) = Spec.flags X ++ Spec.flags Y := by
  induction X with
  | nil => simp [Spec.flags]
  | cons it X ih => cases it <;> simp [Spec.flags, ih]

/-- From a recognised LIMIT keyword on, up to the next `)` outside quoted
regions, every placeholder is in LIMIT state: the `?` of the keyword has the
number `slots pre`, the placeholders of `mid` follow it. -/
theorem flags_after_limit (pre mid post kw : List Char) (c : Char) (j : Nat)
    (hpre : Spec.state_after Spec.QState.top pre = Spec.QState.top)
    (hc : c = 'l' ∨ c = 'L') (hkw : kw = "imit".toList ∨ kw = "IMIT".toList)
    (hmid : Spec.top_close Spec.QState.top mid = false)
    (h1 : Spec.slots Spec.QState.top pre ≤ j)
    (h2 : j ≤ Spec.slots Spec.QState.top pre + Spec.slots Spec.QState.top mid) :
    (Spec.flags (Spec.scan (pre ++ c :: (kw ++ ' ' :: '?' :: (mid ++ post)))))[j]? =
      some true := by
  obtain ⟨X1, l2, hX1, hn1⟩ := items_append pre (c :: (kw ++ ' ' :: '?' :: (mid ++ post)))
    Spec.QState.top false
  obtain ⟨X2, hX2, hn2⟩ := items_limit_keyword l2 c kw (mid ++ post) hc hkw
  obtain ⟨X3, hX3, hn3⟩ := items_append_limit mid post Spec.QState.top hmid
  rw [Spec.scan, hX1, hpre, hX2, hX3]
  simp only [flags_append, Spec.flags, hn2, hn3, List.nil_append]
  rw [List.getElem?_append_right (by omega), hn1, ← List.cons_append,
    ← List.replicate_succ]
  have hj : j - Spec.slots Spec.QState.top pre <
      (List.replicate (Spec.slots Spec.QState.top mid + 1) true).length := by
    simp; omega
  rw [List.getElem?_append_left hj, List.getElem?_replicate]
  simp
  omega

theorem segments_text (c : Char) (its : List Spec.Item) :
    ∃ seg0 segs, Spec.segments its = seg0 :: segs ∧
      Spec.segments (Spec.Item.text c :: its) = (c :: seg0) :: segs := by
  cases h : Spec.segments its with
  | nil => exact absurd h (segments_ne_nil its)
  | cons seg0 segs => exact ⟨seg0, segs, rfl, by simp [Spec.segments, h]⟩

/-- Every segment of the walk is free of placeholders, and every segment but
the last ends outside quoted regions: the segments are cut at the
placeholders and nowhere else. -/
theorem segments_clean (s : List Char) :
    ∀ (q : Spec.QState) (l : Bool) (i : Nat) (seg : List Char),
      (Spec.segments (Spec.items q l s))[i]? = some seg →
      Spec.slots (if i = 0 then q else Spec.QState.top) seg = 0 ∧
      (i + 1 < (Spec.segments (Spec.items q l s)).length →
        Spec.state_after (if i = 0 then q else Spec.QState.top) seg = Spec.QState.top) := by
  induction s with
  | nil =>
    intro q l i seg h
    have h0 : Spec.items q l [] = [] := by cases q <;> simp [Spec.items]
    rw [h0] at h ⊢
    cases i with
    | zero =>
      simp only [Spec.segments, List.getElem?_cons_zero, Option.some.injEq] at h
      subst h
      simp [Spec.slots, Spec.segments]
    | succ j => simp [Spec.segments] at h
  | cons c rest ih =>
    intro q l i seg h
    obtain ⟨l2, hit, _⟩ := items_cons q l c rest
    rw [hit] at h ⊢
    by_cases hq : q = Spec.QState.top ∧ c = '?'
    · rw [if_pos hq] at h ⊢
      obtain ⟨hq1, hq2⟩ := hq
      subst hq1
      subst hq2
      have hns : Spec.next_state Spec.QState.top '?' = Spec.QState.top := by
        simp [Spec.next_state, is_quote_ne_qmark]
      rw [hns] at h ⊢
      cases i with
      | zero =>
        simp only [Spec.segments, List.getElem?_cons_zero, Option.some.injEq] at h
        subst h
        simp [Spec.slots, Spec.state_after]
      | succ j =>
        simp only [Spec.segments, List.getElem?_cons_succ] at h
        have := ih Spec.QState.top l2 j seg h
        simp only [ite_self] at this
        simp only [Spec.segments, List.length_cons, Nat.add_one_ne_zero, if_false]
        exact ⟨this.1, fun hlt => this.2 (by omega)⟩
    · rw [if_neg hq] at h ⊢
      obtain ⟨seg0, segs, hs, hs2⟩ := segments_text c (Spec.items (Spec.next_state q c) l2 rest)
      rw [hs2] at h ⊢
      cases i with
      | zero =>
        simp only [List.getElem?_cons_zero, Option.some.injEq] at h
        subst h
        have := ih (Spec.next_state q c) l2 0 seg0 (by rw [hs]; simp)
        simp only [if_true] at this ⊢
        rw [hs] at this
        rw [Spec.slots, if_neg hq, Spec.state_after]
        exact ⟨by simpa using this.1, fun hlt => this.2 (by simpa using hlt)⟩
      | succ j =>
        simp only [List.getElem?_cons_succ] at h
        have := ih (Spec.next_state q c) l2 (j + 1) seg (by rw [hs]; simpa using h)
        rw [hs] at this
        simp only [Nat.add_one_ne_zero, if_false] at this ⊢
        exact ⟨this.1, fun hlt => this.2 (by simpa using hlt)⟩

/-! ## parse_number against the numeric prefix of the spec -/

theorem isdigit_ne_minus (c : Char) (h : isdigit c = true) : c ≠ '-' := by
  intro hc; subst hc; revert h; decide

theorem isdigit_ne_dot (c : Char) (h : isdigit c = true) : c ≠ '.' := by
  intro hc; subst hc; revert h; decide

theorem isdigit_ne_nul (c : Char) (h : isdigit c = true) : c ≠ NUL := by
  intro hc; subst hc; revert h; decide

theorem isspace_ne_minus (c : Char) (h : isspace c = true) : c ≠ '-' := by
  intro hc; subst hc; revert h; decide

theorem isspace_ne_dot (c : Char) (h : isspace c = true) : c ≠ '.' := by
  intro hc; subst hc; revert h; decide

theorem isspace_ne_nul (c : Char) (h : isspace c = true) : c ≠ NUL := by
  intro hc; subst hc; revert h; decide

theorem leading_digits_initial (s : List Char) :
    ∀ d, Spec.leading_digits d s <+: s := by
  induction s with
  | nil => intro d; simp [Spec.leading_digits]
  | cons c rest ih =>
    intro d
    simp only [Spec.leading_digits]
    split_ifs
    · exact (List.prefix_cons_inj c).2 (ih d)
    · exact (List.prefix_cons_inj c).2 (ih true)
    · exact List.nil_prefix

theorem leading_numeric_initial (s : List Char) : Spec.leading_numeric s <+: s := by
  cases s with
  | nil => simp [Spec.leading_numeric]
  | cons c rest =>
    simp only [Spec.leading_numeric]
    split_ifs
    · exact (List.prefix_cons_inj c).2 (leading_digits_initial rest false)
    · exact leading_digits_initial (c :: rest) false

theorem parse_number_for_pos (s : List Char) :
    ∀ (pos : Nat) (neg dec : Bool), 0 < pos →
      parse_number_for s pos neg dec = pos + (Spec.leading_digits dec s).length := by
  induction s with
  | nil => intro pos neg dec _; simp [parse_number_for, Spec.leading_digits]
  | cons c rest ih =>
    intro pos neg dec hpos
    simp only [parse_number_for, Spec.leading_digits]
    by_cases h0 : c = NUL
    · subst h0
      have h1 : isdigit NUL = false := by decide
      have h2 : ¬ NUL = '.' := by decide
      simp [h1, h2]
    · rw [if_neg h0]
      by_cases hm : c = '-'
      · subst hm
        have h1 : isdigit '-' = false := by decide
        have h2 : ¬ '-' = '.' := by decide
        simp [h1, h2, hpos]
      · rw [if_neg hm]
        by_cases hd : c = '.'
        · subst hd
          have h1 : isdigit '.' = false := by decide
          cases dec
          · simp [h1, ih (pos + 1) neg true (by omega)]
            omega
          · simp [h1]
        · rw [if_neg hd]
          cases hg : isdigit c
          · simp [hd]
          · simp [ih (pos + 1) neg dec (by omega)]
            omega

theorem parse_number_for_zero (s : List Char) :
    parse_number_for s 0 false false = (Spec.leading_numeric s).length := by
  cases s with
  | nil => simp [parse_number_for, Spec.leading_numeric]
  | cons c rest =>
    simp only [parse_number_for, Spec.leading_numeric]
    by_cases h0 : c = NUL
    · subst h0
      have h1 : isdigit NUL = false := by decide
      have h2 : ¬ NUL = '.' := by decide
      have h3 : ¬ NUL = '-' := by decide
      simp [h1, h2, h3, Spec.leading_digits]
    · rw [if_neg h0]
      by_cases hm : c = '-'
      · subst hm
        simp [parse_number_for_pos rest 1 true false (by omega)]
        omega
      · rw [if_neg hm, if_neg hm]
        simp only [Spec.leading_digits]
        by_cases hd : c = '.'
        · subst hd
          have h1 : isdigit '.' = false := by decide
          simp [h1, parse_number_for_pos rest 1 false true (by omega)]
          omega
        · rw [if_neg hd]
          cases hg : isdigit c
          · simp [hd]
          · simp [parse_number_for_pos rest 1 false false (by omega)]
            omega

theorem parse_number_space_eq (s : List Char) :
    parse_number_space s = (s.takeWhile isspace).length := by
  induction s with
  | nil => simp [parse_number_space]
  | cons c rest ih =>
    simp only [parse_number_space, List.takeWhile]
    cases hs : isspace c
    · simp
    · have := isspace_ne_nul c hs
      simp [this, ih]

theorem drop_takeWhile_length (s : List Char) (p : Char → Bool) :
    s.drop (s.takeWhile p).length = s.dropWhile p := by
  induction s with
  | nil => simp
  | cons c rest ih =>
    simp only [List.takeWhile, List.dropWhile]
    cases p c <;> simp [ih]

theorem take_takeWhile_length (s : List Char) (p : Char → Bool) :
    s.take (s.takeWhile p).length = s.takeWhile p := by
  induction s with
  | nil => simp
  | cons c rest ih =>
    simp only [List.takeWhile]
    cases p c <;> simp [ih]

/-- The bytes `parse_params` copies for a numeric value: the leading
whitespace, then the numeric prefix; a `-` counts only as the very first byte of
the value. -/
theorem parse_number_take (s : List Char) (len : Nat) :
    s.take (parse_number s len).2 =
      s.takeWhile isspace ++
        (if s.takeWhile isspace = [] then Spec.leading_numeric s
          else Spec.leading_digits false (s.dropWhile isspace)) := by
  simp only [parse_number, parse_number_space_eq, drop_takeWhile_length]
  by_cases hw : s.takeWhile isspace = []
  · have hd : s.dropWhile isspace = s := by
      have := List.takeWhile_append_dropWhile isspace s
      rw [hw] at this
      simpa using this
    rw [if_pos hw, hw, hd]
    simp only [List.length_nil, List.nil_append, parse_number_for_zero]
    exact (List.prefix_iff_eq_take.1 (leading_numeric_initial s)).symm
  · have hpos : 0 < (s.takeWhile isspace).length := List.length_pos.2 hw
    rw [if_neg hw, parse_number_for_pos _ _ false false hpos, List.take_add,
      take_takeWhile_length, drop_takeWhile_length]
    congr 1
    exact (List.prefix_iff_eq_take.1 (leading_digits_initial _ false)).symm

theorem leading_digits_chars (s : List Char) :
    ∀ d, ∀ c ∈ Spec.leading_digits d s, c = '.' ∨ isdigit c = true := by
  induction s with
  | nil => intro d c hc; simp [Spec.leading_digits] at hc
  | cons a rest ih =>
    intro d c hc
    simp only [Spec.leading_digits] at hc
    split_ifs at hc with h1 h2
    · rcases List.mem_cons.1 hc with h | h
      · exact Or.inr (h ▸ h1)
      · exact ih d c h
    · rcases List.mem_cons.1 hc with h | h
      · exact Or.inl (h.trans h2.1)
      · exact ih true c h
    · simp at hc

theorem leading_digits_count_minus (s : List Char) (d : Bool) :
    (Spec.leading_digits d s).count '-' = 0 := by
  rw [List.count_eq_zero]
  intro h
  rcases leading_digits_chars s d _ h with h1 | h1
  · revert h1; decide
  · revert h1; decide

theorem leading_digits_count_dot_true (s : List Char) :
    (Spec.leading_digits true s).count '.' = 0 := by
  induction s with
  | nil => simp [Spec.leading_digits]
  | cons a rest ih =>
    simp only [Spec.leading_digits]
    split_ifs with h1 h2
    · rw [List.count_cons_of_ne (Ne.symm (isdigit_ne_dot a h1)), ih]
    · simp at h2
    · simp

theorem leading_digits_count_dot (s : List Char) (d : Bool) :
    (Spec.leading_digits d s).count '.' ≤ 1 := by
  induction s with
  | nil => simp [Spec.leading_digits]
  | cons a rest ih =>
    simp only [Spec.leading_digits]
    split_ifs with h1 h2
    · rw [List.count_cons_of_ne (Ne.symm (isdigit_ne_dot a h1))]
      exact ih
    · rw [h2.1, List.count_cons_self, leading_digits_count_dot_true]
    · simp

theorem numeric_form_take (s : List Char) (len : Nat) :
    Spec.numeric_form (s.take (parse_number s len).2) := by
  rw [parse_number_take]
  have hws : ∀ c ∈ s.takeWhile isspace, isspace c = true := fun c hc =>
    List.mem_takeWhile_imp hc
  have hwm : (s.takeWhile isspace).count '-' = 0 := by
    rw [List.count_eq_zero]
    intro h
    exact isspace_ne_minus _ (hws _ h) rfl
  have hwd : (s.takeWhile isspace).count '.' = 0 := by
    rw [List.count_eq_zero]
    intro h
    exact isspace_ne_dot _ (hws _ h) rfl
  have hdig : ∀ d t, ∀ c ∈ Spec.leading_digits d t, Spec.numeric_char c = true := by
    intro d t c hc
    rcases leading_digits_chars t d c hc with h | h
    · subst h; decide
    · simp [Spec.numeric_char, h]
  have hwsn : ∀ c ∈ s.takeWhile isspace, Spec.numeric_char c = true := by
    intro c hc
    simp [Spec.numeric_char, hws c hc]
  split_ifs with hw
  · rw [hw, List.nil_append]
    cases s with
    | nil => simp [Spec.leading_numeric, Spec.numeric_form]
    | cons c rest =>
      simp only [Spec.leading_numeric]
      split_ifs with hm
      · subst hm
        refine ⟨?_, ?_, ?_⟩
        · rw [List.all_eq_true]
          intro x hx
          rcases List.mem_cons.1 hx with h | h
          · subst h; decide
          · exact hdig _ _ _ h
        · rw [List.count_cons_self, leading_digits_count_minus]
        · rw [List.count_cons_of_ne (by decide)]
          exact leading_digits_count_dot rest false
      · refine ⟨?_, ?_, ?_⟩
        · rw [List.all_eq_true]
          exact fun x hx => hdig _ _ _ hx
        · rw [leading_digits_count_minus]; omega
        · exact leading_digits_count_dot (c :: rest) false
  · refine ⟨?_, ?_, ?_⟩
    · rw [List.all_eq_true]
      intro x hx
      rcases List.mem_append.1 hx with h | h
      · exact hwsn x h
      · exact hdig _ _ _ h
    · rw [List.count_append, hwm, leading_digits_count_minus]; omega
    · rw [List.count_append, hwd]
      have := leading_digits_count_dot (s.dropWhile isspace) false
      omega

/-! ## The escaping rules -/

theorem unescape_backslash (d : Char) (rest : List Char) :
    Spec.unescape (BACKSLASH :: d :: rest) =
      (if d = '0' then NUL else if d = 'n' then '\n' else if d = 'r' then '\r'
        else if d = 'Z' then Char.ofNat 26 else d) :: Spec.unescape rest := by
  rw [Spec.unescape]
  simp

theorem unescape_cons_of_ne (c : Char) (rest : List Char) (h : c ≠ BACKSLASH) :
    Spec.unescape (c :: rest) = c :: Spec.unescape rest := by
  rw [Spec.unescape.eq_def]
  simp [h]

theorem unescape_escape (v : List Char) : Spec.unescape (drizzle_escape_string v) = v := by
  induction v with
  | nil => simp [drizzle_escape_string, Spec.unescape]
  | cons c rest ih =>
    simp only [drizzle_escape_string]
    split_ifs with h1 h2 h3 h4 h5 h6 h7
    · subst h1; rw [unescape_backslash, ih]; rfl
    · subst h2; rw [unescape_backslash, ih]; rfl
    · subst h3; rw [unescape_backslash, ih]; rfl
    · subst h4; rw [unescape_backslash, ih]; rfl
    · subst h5; rw [unescape_backslash, ih]; rfl
    · subst h6; rw [unescape_backslash, ih]; rfl
    · subst h7; rw [unescape_backslash, ih]; rfl
    · rw [unescape_cons_of_ne c _ h4, ih]

theorem drizzle_escape_string_injective : Function.Injective drizzle_escape_string :=
  Function.LeftInverse.injective unescape_escape

theorem quote_safe_backslash (d : Char) (rest : List Char) :
    Spec.quote_safe (BACKSLASH :: d :: rest) = Spec.quote_safe rest := by
  rw [Spec.quote_safe]
  simp

theorem quote_safe_cons_of_ne (c : Char) (rest : List Char) (h1 : c ≠ BACKSLASH)
    (h2 : c ≠ SQUOTE) : Spec.quote_safe (c :: rest) = Spec.quote_safe rest := by
  rw [Spec.quote_safe.eq_def]
  simp [h1, h2]

theorem quote_safe_escape (v : List Char) :
    Spec.quote_safe (drizzle_escape_string v) = true := by
  induction v with
  | nil => simp [drizzle_escape_string, Spec.quote_safe]
  | cons c rest ih =>
    simp only [drizzle_escape_string]
    split_ifs with h1 h2 h3 h4 h5 h6 h7
    · rw [quote_safe_backslash, ih]
    · rw [quote_safe_backslash, ih]
    · rw [quote_safe_backslash, ih]
    · rw [quote_safe_backslash, ih]
    · rw [quote_safe_backslash, ih]
    · rw [quote_safe_backslash, ih]
    · rw [quote_safe_backslash, ih]
    · rw [quote_safe_cons_of_ne c _ h4 h5, ih]

theorem strip_quotes_quoted (t : List Char) :
    Spec.strip_quotes (SQUOTE :: (t ++ [SQUOTE])) = t := by
  simp [Spec.strip_quotes]

/-! ## The claims on the rewriter -/

/-- C1: with `num_params ≥ 1` slots and exactly `num_params` placeholders
outside quoted regions in the statement (leading whitespace removed),
`parse_params` returns `seg_0 ++ r_1 ++ seg_1 ++ ... ++ r_n ++ seg_n` and its
length.  The `n + 1` segments are the statement's own text between its
placeholders: putting a `?` back between them gives the statement byte for
byte, no segment has a `?` outside quoted regions, and every segment but the
last ends outside quoted regions.  `r_k` is slot `k`, after the
type-inference loop, as the `?` arm renders it at the LIMIT state of its
position. -/
theorem parse_params_substitutes_in_order (escape : List Char → List Char)
    (statement : List Char) (params : List imp_sth_ph_t) (num_params g : Nat)
    (hn : 1 ≤ num_params) (hlen : params.length = num_params)
    (hq : Spec.placeholders (statement.dropWhile isspace) = num_params) :
    parse_params escape statement params num_params g =
      some (Spec.weave (Spec.segments (Spec.scan (statement.dropWhile isspace)))
          (Spec.replacements escape statement params num_params g),
        (Spec.weave (Spec.segments (Spec.scan (statement.dropWhile isspace)))
          (Spec.replacements escape statement params num_params g)).length) ∧
    (Spec.segments (Spec.scan (statement.dropWhile isspace))).length = num_params + 1 ∧
    Spec.weave (Spec.segments (Spec.scan (statement.dropWhile isspace)))
      (List.replicate num_params ['?']) = statement.dropWhile isspace ∧
    (∀ (i : Nat) (seg : List Char),
      (Spec.segments (Spec.scan (statement.dropWhile isspace)))[i]? = some seg →
      Spec.slots Spec.QState.top seg = 0 ∧
      (i < num_params → Spec.state_after Spec.QState.top seg = Spec.QState.top)) ∧
    Spec.replacements escape statement params num_params g =
      List.zipWith (parse_params_value escape) (params.map (parse_params_guess g))
        (Spec.flags (Spec.scan (statement.dropWhile isspace))) := by
  have hsl : (Spec.segments (Spec.scan (statement.dropWhile isspace))).length =
      num_params + 1 := by
    rw [segments_length]
    simpa [Spec.placeholders] using hq
  refine ⟨parse_params_eq escape statement params num_params g hn, hsl, ?_, ?_, ?_⟩
  · have h := weave_source (statement.dropWhile isspace) Spec.QState.top false
    have hm : (Spec.flags (Spec.items Spec.QState.top false
        (statement.dropWhile isspace))).length = num_params := by
      rw [← hq]
      simp [Spec.placeholders, Spec.scan]
    rw [hm] at h
    exact h
  · intro i seg hseg
    have h := segments_clean (statement.dropWhile isspace) Spec.QState.top false i seg hseg
    simp only [ite_self] at h
    refine ⟨h.1, fun hi => h.2 ?_⟩
    have : (Spec.segments (Spec.items Spec.QState.top false
        (statement.dropWhile isspace))).length = num_params + 1 := hsl
    omega
  · apply List.ext_getElem?
    intro k
    rw [replacements_getElem? escape statement params num_params g k hlen]
    simp only [List.getElem?_zipWith, List.getElem?_map, List.getD_eq_getElem?_getD]
    by_cases hk : k < num_params
    · have hk1 : k < params.length := by omega
      have hk2 : k < (Spec.flags (Spec.scan (statement.dropWhile isspace))).length := by
        simpa [Spec.placeholders] using (by omega : k < Spec.placeholders (statement.dropWhile isspace))
      simp [hk, List.getElem?_eq_getElem hk1, List.getElem?_eq_getElem hk2]
    · have hk1 : params.length ≤ k := by omega
      have hk2 : (Spec.flags (Spec.scan (statement.dropWhile isspace))).length ≤ k := by
        have : Spec.placeholders (statement.dropWhile isspace) ≤ k := by omega
        simpa [Spec.placeholders] using this
      simp [List.getElem?_eq_none hk1, List.getElem?_eq_none hk2]

theorem parse_params_substitutes_in_order_witness :
    (1 ≤ 2 ∧ Spec.placeholders ("  a=? AND b=?".toList.dropWhile isspace) = 2) ∧
    parse_params drizzle_escape_string "  a=? AND b=?".toList
      [⟨some ⟨true, false, "x".toList⟩, SQL_VARCHAR⟩, ⟨none, 0⟩] 2 0 =
      some (Spec.weave (Spec.segments (Spec.scan ("  a=? AND b=?".toList.dropWhile isspace)))
          (Spec.replacements drizzle_escape_string "  a=? AND b=?".toList
            [⟨some ⟨true, false, "x".toList⟩, SQL_VARCHAR⟩, ⟨none, 0⟩] 2 0),
        (Spec.weave (Spec.segments (Spec.scan ("  a=? AND b=?".toList.dropWhile isspace)))
          (Spec.replacements drizzle_escape_string "  a=? AND b=?".toList
            [⟨some ⟨true, false, "x".toList⟩, SQL_VARCHAR⟩, ⟨none, 0⟩] 2 0)).length) ∧
    Spec.weave (Spec.segments (Spec.scan ("  a=? AND b=?".toList.dropWhile isspace)))
      (Spec.replacements drizzle_escape_string "  a=? AND b=?".toList
        [⟨some ⟨true, false, "x".toList⟩, SQL_VARCHAR⟩, ⟨none, 0⟩] 2 0) =
      [ 'a', '=', SQUOTE, 'x', SQUOTE, ' ', 'A', 'N', 'D', ' ', 'b', '=', 'N', 'U', 'L', 'L'] :=
  ⟨⟨by decide, by decide⟩,
    (parse_params_substitutes_in_order drizzle_escape_string "  a=? AND b=?".toList
      [⟨some ⟨true, false, "x".toList⟩, SQL_VARCHAR⟩, ⟨none, 0⟩] 2 0
      (by decide) (by decide) (by decide)).1, by decide⟩

theorem flags_getElem?_of_lt (statement : List Char) (k : Nat)
    (hk : k < Spec.placeholders (statement.dropWhile isspace)) :
    ∃ l, (Spec.flags (Spec.scan (statement.dropWhile isspace)))[k]? = some l :=
  ⟨_, List.getElem?_eq_getElem (by simpa [Spec.placeholders] using hk)⟩

theorem getD_of_getElem? (params : List imp_sth_ph_t) (k : Nat) (ph : imp_sth_ph_t)
    (h : params[k]? = some ph) : params.getD k ⟨none, 0⟩ = ph := by
  simp [List.getD_eq_getElem?_getD, h]

theorem lt_of_getElem? (params : List imp_sth_ph_t) (k : Nat) (ph : imp_sth_ph_t)
    (h : params[k]? = some ph) : k < params.length := by
  by_contra hk
  rw [List.getElem?_eq_none (by omega)] at h
  exact absurd h (by simp)

/-- The replacement text of a consumed placeholder: slot `k` after type
inference, rendered at the LIMIT state `l` of placeholder `k`. -/
theorem replacements_consumed (escape : List Char → List Char) (statement : List Char)
    (params : List imp_sth_ph_t) (n g k : Nat) (ph : imp_sth_ph_t) (l : Bool)
    (hlen : params.length = n) (hph : params[k]? = some ph)
    (hl : (Spec.flags (Spec.scan (statement.dropWhile isspace)))[k]? = some l) :
    (Spec.replacements escape statement params n g)[k]? =
      some (parse_params_value escape (parse_params_guess g ph) l) := by
  have hk : k < n := hlen ▸ lt_of_getElem? params k ph hph
  rw [replacements_getElem? escape statement params n g k hlen, hl,
    getD_of_getElem? params k ph hph]
  simp [hk]

/-- C4: a consumed placeholder (number `k`, counted from 0, with `k` below
both the slot count and the number of placeholders) whose slot is unbound or
holds an undefined value is replaced by the four characters `NULL`, for every
declared type, guessing mode and statement (so for every LIMIT state). -/
theorem parse_params_null_for_undefined (escape : List Char → List Char)
    (statement : List Char) (params : List imp_sth_ph_t) (num_params g k : Nat)
    (ph : imp_sth_ph_t) (hn : 1 ≤ num_params) (hlen : params.length = num_params)
    (hkp : k < Spec.placeholders (statement.dropWhile isspace))
    (hph : params[k]? = some ph) (hundef : ∀ sv, ph.value = some sv → sv.ok = false) :
    parse_params escape statement params num_params g =
      some (Spec.weave (Spec.segments (Spec.scan (statement.dropWhile isspace)))
          (Spec.replacements escape statement params num_params g),
        (Spec.rewritten escape statement params num_params g).length) ∧
    (Spec.replacements escape statement params num_params g)[k]? =
      some ['N', 'U', 'L', 'L'] := by
  refine ⟨parse_params_eq escape statement params num_params g hn, ?_⟩
  obtain ⟨l, hl⟩ := flags_getElem?_of_lt statement k hkp
  rw [replacements_consumed escape statement params num_params g k ph l hlen hph hl,
    parse_params_value_null escape _ l
      (by rw [parse_params_guess_value]; exact hundef)]
  rfl

theorem parse_params_null_for_undefined_witness :
    parse_params drizzle_escape_string "a=? LIMIT ?".toList
      [⟨some ⟨false, false, []⟩, SQL_VARCHAR⟩, ⟨none, SQL_INTEGER⟩] 2 2 =
      some ("a=NULL LIMIT NULL".toList, 17) ∧
    (Spec.replacements drizzle_escape_string "a=? LIMIT ?".toList
      [⟨some ⟨false, false, []⟩, SQL_VARCHAR⟩, ⟨none, SQL_INTEGER⟩] 2 2)[1]? =
      some ['N', 'U', 'L', 'L'] :=
  ⟨rfl, (parse_params_null_for_undefined drizzle_escape_string "a=? LIMIT ?".toList
      [⟨some ⟨false, false, []⟩, SQL_VARCHAR⟩, ⟨none, SQL_INTEGER⟩] 2 2 1
      ⟨none, SQL_INTEGER⟩ (by decide) (by decide) (by decide) (by decide)
      (by intro sv h; cases h)).2⟩

theorem parse_params_value_string (escape : List Char → List Char) (ph : imp_sth_ph_t)
    (sv : SV) (hv : ph.value = some sv) (hok : sv.ok = true)
    (ht : is_num_type ph.type = false) :
    parse_params_value escape ph false = SQUOTE :: (escape sv.pv ++ [SQUOTE]) := by
  simp [parse_params_value, hv, hok, ht]

theorem parse_params_value_numeric (escape : List Char → List Char) (ph : imp_sth_ph_t)
    (sv : SV) (l : Bool) (hv : ph.value = some sv) (hok : sv.ok = true)
    (ht : (is_num_type ph.type || l) = true) :
    parse_params_value escape ph l = sv.pv.take (parse_number sv.pv sv.pv.length).2 := by
  simp only [parse_params_value, hv, hok, ht]
  simp

/-- C5: when every slot holds a defined value whose type after the
inference loop is not numeric and no placeholder stands in LIMIT state, each
consumed placeholder is replaced by a single quote, the escaped value and a
single quote, and removing the two quotes leaves the escaped value; undoing
the escaping gives the value back byte for byte, so the escape function is
injective. -/
theorem parse_params_string_round_trip :
    (∀ (escape : List Char → List Char) (statement : List Char)
      (params : List imp_sth_ph_t) (num_params g : Nat),
      1 ≤ num_params → params.length = num_params →
      (∀ ph ∈ params, ∃ sv, ph.value = some sv ∧ sv.ok = true ∧
        is_num_type (parse_params_guess g ph).type = false) →
      (∀ l ∈ Spec.flags (Spec.scan (statement.dropWhile isspace)), l = false) →
      parse_params escape statement params num_params g =
        some (Spec.weave (Spec.segments (Spec.scan (statement.dropWhile isspace)))
            (Spec.replacements escape statement params num_params g),
          (Spec.rewritten escape statement params num_params g).length) ∧
      ∀ (k : Nat) (ph : imp_sth_ph_t) (sv : SV),
        k < Spec.placeholders (statement.dropWhile isspace) →
        params[k]? = some ph → ph.value = some sv →
        (Spec.replacements escape statement params num_params g)[k]? =
          some (SQUOTE :: (escape sv.pv ++ [SQUOTE])) ∧
        Spec.strip_quotes (SQUOTE :: (escape sv.pv ++ [SQUOTE])) = escape sv.pv) ∧
    (∀ v : List Char, Spec.unescape (drizzle_escape_string v) = v) ∧
    Function.Injective drizzle_escape_string := by
  refine ⟨?_, unescape_escape, drizzle_escape_string_injective⟩
  intro escape statement params num_params g hn hlen hstr hlim
  refine ⟨parse_params_eq _ statement params num_params g hn, ?_⟩
  intro k ph sv hkp hph hv
  obtain ⟨l, hl⟩ := flags_getElem?_of_lt statement k hkp
  have hlf : l = false := hlim l (List.getElem?_mem hl)
  subst hlf
  obtain ⟨sv2, hv2, hok, ht⟩ := hstr ph (List.getElem?_mem hph)
  have hsv : sv2 = sv := by rw [hv] at hv2; exact (Option.some.inj hv2).symm
  subst hsv
  refine ⟨?_, strip_quotes_quoted _⟩
  rw [replacements_consumed _ statement params num_params g k ph false hlen hph hl,
    parse_params_value_string _ _ sv2
      (by rw [parse_params_guess_value]; exact hv) hok ht]

theorem parse_params_string_round_trip_witness :
    parse_params drizzle_escape_string "INSERT INTO t VALUES (?, ?)".toList
      [⟨some ⟨true, false, [SQUOTE, 'a', BACKSLASH]⟩, SQL_VARCHAR⟩,
        ⟨some ⟨true, false, "b\nc".toList⟩, 0⟩] 2 0 =
      some ([ 'I', 'N', 'S', 'E', 'R', 'T', ' ', 'I', 'N', 'T', 'O', ' ', 't', ' ',
          'V', 'A', 'L', 'U', 'E', 'S', ' ', '(',
          SQUOTE, BACKSLASH, SQUOTE, 'a', BACKSLASH, BACKSLASH, SQUOTE, ',', ' ',
          SQUOTE, 'b', BACKSLASH, 'n', 'c', SQUOTE, ')'], 38) ∧
    (Spec.replacements drizzle_escape_string "INSERT INTO t VALUES (?, ?)".toList
      [⟨some ⟨true, false, [SQUOTE, 'a', BACKSLASH]⟩, SQL_VARCHAR⟩,
        ⟨some ⟨true, false, "b\nc".toList⟩, 0⟩] 2 0)[0]? =
      some (SQUOTE :: (drizzle_escape_string [SQUOTE, 'a', BACKSLASH] ++ [SQUOTE])) ∧
    Spec.unescape (Spec.strip_quotes
      [SQUOTE, BACKSLASH, SQUOTE, 'a', BACKSLASH, BACKSLASH, SQUOTE]) =
      [SQUOTE, 'a', BACKSLASH] :=
  ⟨rfl,
    ((parse_params_string_round_trip.1 drizzle_escape_string
      "INSERT INTO t VALUES (?, ?)".toList
      [⟨some ⟨true, false, [SQUOTE, 'a', BACKSLASH]⟩, SQL_VARCHAR⟩,
        ⟨some ⟨true, false, "b\nc".toList⟩, 0⟩] 2 0 (by decide) (by decide)
      (by decide) (by decide)).2 0 ⟨some ⟨true, false, [SQUOTE, 'a', BACKSLASH]⟩, SQL_VARCHAR⟩
      ⟨true, false, [SQUOTE, 'a', BACKSLASH]⟩ (by decide) rfl rfl).1,
    by decide⟩

theorem numeric_form_nil : Spec.numeric_form [] := by
  simp [Spec.numeric_form]

/-- The three forms of what the `?` arm writes for a slot. -/
theorem parse_params_value_forms (escape : List Char → List Char) (ph : imp_sth_ph_t)
    (l : Bool) :
    parse_params_value escape ph l = ['N', 'U', 'L', 'L'] ∨
    Spec.numeric_form (parse_params_value escape ph l) ∨
    ∃ sv, ph.value = some sv ∧ sv.ok = true ∧
      parse_params_value escape ph l = SQUOTE :: (escape sv.pv ++ [SQUOTE]) := by
  cases hv : ph.value with
  | none => exact Or.inl (by simp [parse_params_value, hv])
  | some sv =>
    cases hok : sv.ok with
    | false => exact Or.inl (by simp [parse_params_value, hv, hok])
    | true =>
      cases ht : (is_num_type ph.type || l) with
      | true =>
        refine Or.inr (Or.inl ?_)
        rw [parse_params_value_numeric _ ph sv l hv hok ht]
        exact numeric_form_take _ _
      | false =>
        refine Or.inr (Or.inr ⟨sv, rfl, hok, ?_⟩)
        simp only [parse_params_value, hv, hok, ht]
        simp

/-- C6: the output is the statement's own segments with one replacement
text per placeholder between them, and the replacement text of any
placeholder is the token `NULL`, or a numeric prefix (only whitespace, `-`,
`.` and digits, at most one `-` and at most one `.`; empty for a placeholder
beyond the slots), or a single quote, the escape function's output for the
value of that slot and a single quote.  The escaping rules leave no single
quote that is not behind a backslash and no backslash at the end. -/
theorem parse_params_replacement_forms :
    (∀ (escape : List Char → List Char) (statement : List Char)
      (params : List imp_sth_ph_t) (num_params g : Nat),
      1 ≤ num_params → params.length = num_params →
      parse_params escape statement params num_params g =
        some (Spec.weave (Spec.segments (Spec.scan (statement.dropWhile isspace)))
            (Spec.replacements escape statement params num_params g),
          (Spec.rewritten escape statement params num_params g).length) ∧
      ∀ (k : Nat) (r : List Char),
        (Spec.replacements escape statement params num_params g)[k]? = some r →
        r = ['N', 'U', 'L', 'L'] ∨ Spec.numeric_form r ∨
        ∃ (ph : imp_sth_ph_t) (sv : SV), params[k]? = some ph ∧ ph.value = some sv ∧
          sv.ok = true ∧ r = SQUOTE :: (escape sv.pv ++ [SQUOTE])) ∧
    (∀ v : List Char, Spec.quote_safe (drizzle_escape_string v) = true) := by
  refine ⟨?_, quote_safe_escape⟩
  intro escape statement params num_params g hn hlen
  refine ⟨parse_params_eq _ statement params num_params g hn, ?_⟩
  intro k r hr
  rw [replacements_getElem? _ statement params num_params g k hlen] at hr
  cases hl : (Spec.flags (Spec.scan (statement.dropWhile isspace)))[k]? with
  | none => simp [hl] at hr
  | some l =>
    simp only [hl, Option.map_some', Option.some.injEq] at hr
    by_cases hk : k < num_params
    · rw [if_pos hk] at hr
      have hkl : k < params.length := by omega
      have hph : params[k]? = some (params[k]) := List.getElem?_eq_getElem hkl
      rw [getD_of_getElem? params k _ hph] at hr
      subst hr
      rcases parse_params_value_forms escape (parse_params_guess g params[k]) l with
        h | h | h
      · exact Or.inl h
      · exact Or.inr (Or.inl h)
      · obtain ⟨sv, hv, hok, he⟩ := h
        rw [parse_params_guess_value] at hv
        exact Or.inr (Or.inr ⟨params[k], sv, hph, hv, hok, he⟩)
    · rw [if_neg hk] at hr
      subst hr
      exact Or.inr (Or.inl numeric_form_nil)

theorem parse_params_replacement_forms_witness :
    (Spec.replacements drizzle_escape_string "a=? AND b=? LIMIT ?".toList
      [⟨some ⟨true, false, [SQUOTE, ';']⟩, SQL_VARCHAR⟩,
        ⟨some ⟨true, false, "-1.5.2".toList⟩, SQL_DOUBLE⟩,
        ⟨some ⟨true, false, "7 OR 1".toList⟩, SQL_VARCHAR⟩] 3 0) =
      [[SQUOTE, BACKSLASH, SQUOTE, ';', SQUOTE], ['-', '1', '.', '5'], ['7']] ∧
    (['-', '1', '.', '5'] = ['N', 'U', 'L', 'L'] ∨ Spec.numeric_form ['-', '1', '.', '5'] ∨
      ∃ (ph : imp_sth_ph_t) (sv : SV),
        [(⟨some ⟨true, false, [SQUOTE, ';']⟩, SQL_VARCHAR⟩ : imp_sth_ph_t),
          ⟨some ⟨true, false, "-1.5.2".toList⟩, SQL_DOUBLE⟩,
          ⟨some ⟨true, false, "7 OR 1".toList⟩, SQL_VARCHAR⟩][1]? = some ph ∧
        ph.value = some sv ∧ sv.ok = true ∧
        ['-', '1', '.', '5'] = SQUOTE :: (drizzle_escape_string sv.pv ++ [SQUOTE])) :=
  ⟨rfl, ((parse_params_replacement_forms.1 drizzle_escape_string
      "a=? AND b=? LIMIT ?".toList
      [⟨some ⟨true, false, [SQUOTE, ';']⟩, SQL_VARCHAR⟩,
        ⟨some ⟨true, false, "-1.5.2".toList⟩, SQL_DOUBLE⟩,
        ⟨some ⟨true, false, "7 OR 1".toList⟩, SQL_VARCHAR⟩] 3 0
      (by decide) (by decide)).2 1 ['-', '1', '.', '5'] rfl)⟩

/-- C10, as the code has it: a `?` outside quoted regions met after all
`num_params` slots were consumed is skipped and nothing is written for it,
so the segments around it follow each other directly in the output. -/
theorem parse_params_excess_skipped (escape : List Char → List Char)
    (statement : List Char) (params : List imp_sth_ph_t) (num_params g k : Nat)
    (hn : 1 ≤ num_params) (hk : num_params ≤ k)
    (hkp : k < Spec.placeholders (statement.dropWhile isspace)) :
    parse_params escape statement params num_params g =
      some (Spec.weave (Spec.segments (Spec.scan (statement.dropWhile isspace)))
          (Spec.replacements escape statement params num_params g),
        (Spec.rewritten escape statement params num_params g).length) ∧
    (Spec.replacements escape statement params num_params g)[k]? = some [] := by
  refine ⟨parse_params_eq escape statement params num_params g hn, ?_⟩
  obtain ⟨l, hl⟩ := flags_getElem?_of_lt statement k hkp
  unfold Spec.replacements
  rw [renderings_getElem?, hl]
  simp
  omega

theorem parse_params_excess_skipped_witness :
    (1 ≤ 1 ∧ 1 < Spec.placeholders ("a=? b=?".toList.dropWhile isspace)) ∧
    (Spec.replacements drizzle_escape_string "a=? b=?".toList [⟨none, 0⟩] 1 0)[1]? =
      some [] :=
  ⟨⟨by decide, by decide⟩,
    (parse_params_excess_skipped drizzle_escape_string "a=? b=?".toList [⟨none, 0⟩] 1 0 1
      (by decide) (by decide) (by decide)).2⟩

/-- C10, counterexample: with one slot and the statement `a=? b=?` the second
`?` is not copied; the output is `a=NULL b=` and has no placeholder, where the
statement has one beyond the first `num_params`. -/
theorem parse_params_excess_not_copied :
    parse_params drizzle_escape_string "a=? b=?".toList [⟨none, 0⟩] 1 0 =
      some ("a=NULL b=".toList, 9) ∧
    Spec.placeholders "a=? b=?".toList = 1 + 1 ∧
    Spec.placeholders "a=NULL b=".toList = 0 ∧ '?' ∉ "a=NULL b=".toList := by
  refine ⟨rfl, by decide, by decide, by decide⟩

theorem parse_params_guess_declared (g : Nat) (ph : imp_sth_ph_t) (h : ph.type ≠ 0) :
    parse_params_guess g ph = ph := by
  unfold parse_params_guess
  split
  · rfl
  · split_ifs <;> rfl

theorem type_ne_zero_of_num (t : Int) (h : is_num_type t = true) : t ≠ 0 := by
  intro h0; subst h0; revert h; decide

theorem leading_numeric_of_head (s : List Char) (h : s.head? ≠ some '-') :
    Spec.leading_numeric s = Spec.leading_digits false s := by
  cases s with
  | nil => simp [Spec.leading_numeric, Spec.leading_digits]
  | cons c rest =>
    have hc : c ≠ '-' := fun hc => h (by simp [hc])
    simp [Spec.leading_numeric, hc]

/-- C7: the statement `SELECT * FROM t LIMIT ?, ?` with the values 10 and 20,
no declared type and type guessing off, is rewritten to
`SELECT * FROM t LIMIT 10, 20`.  In general, when the statement (leading
whitespace skipped) is `pre ++ keyword ++ " ?" ++ mid ++ post`, where `pre`
stops outside quoted regions, the keyword is one of `limit`, `Limit`,
`lIMIT`, `LIMIT`, and `mid` has no `)` outside quoted regions, then the `?` of
the keyword and every placeholder of `mid` is replaced, for a defined value
of any slot type, by the value's numeric prefix with no quotes added. -/
theorem parse_params_limit_unquoted :
    (∀ (escape : List Char → List Char) (n1 n2 : Bool),
      parse_params escape "SELECT * FROM t LIMIT ?, ?".toList
        [⟨some ⟨true, n1, "10".toList⟩, 0⟩, ⟨some ⟨true, n2, "20".toList⟩, 0⟩] 2 0 =
        some ("SELECT * FROM t LIMIT 10, 20".toList, 28)) ∧
    (∀ (escape : List Char → List Char) (statement : List Char)
      (params : List imp_sth_ph_t) (num_params g : Nat) (pre kw mid post : List Char)
      (c : Char) (j : Nat) (ph : imp_sth_ph_t) (sv : SV),
      1 ≤ num_params → params.length = num_params →
      statement.dropWhile isspace = pre ++ c :: (kw ++ ' ' :: '?' :: (mid ++ post)) →
      Spec.state_after Spec.QState.top pre = Spec.QState.top →
      (c = 'l' ∨ c = 'L') → (kw = "imit".toList ∨ kw = "IMIT".toList) →
      Spec.top_close Spec.QState.top mid = false →
      Spec.slots Spec.QState.top pre ≤ j →
      j ≤ Spec.slots Spec.QState.top pre + Spec.slots Spec.QState.top mid →
      params[j]? = some ph → ph.value = some sv → sv.ok = true →
      parse_params escape statement params num_params g =
        some (Spec.weave (Spec.segments (Spec.scan (statement.dropWhile isspace)))
            (Spec.replacements escape statement params num_params g),
          (Spec.rewritten escape statement params num_params g).length) ∧
      (Spec.replacements escape statement params num_params g)[j]? =
        some (sv.pv.take (parse_number sv.pv sv.pv.length).2) ∧
      Spec.numeric_form (sv.pv.take (parse_number sv.pv sv.pv.length).2)) := by
  refine ⟨fun escape n1 n2 => rfl, ?_⟩
  intro escape statement params num_params g pre kw mid post c j ph sv hn hlen hs hpre hc
    hkw hmid h1 h2 hph hv hok
  have hl : (Spec.flags (Spec.scan (statement.dropWhile isspace)))[j]? = some true := by
    rw [hs]
    exact flags_after_limit pre mid post kw c j hpre hc hkw hmid h1 h2
  refine ⟨parse_params_eq escape statement params num_params g hn, ?_,
    numeric_form_take _ _⟩
  rw [replacements_consumed escape statement params num_params g j ph true hlen hph hl,
    parse_params_value_numeric escape _ sv true
      (by rw [parse_params_guess_value]; exact hv) hok (by simp)]

theorem parse_params_limit_unquoted_witness :
    ("(a=? LIMIT ? OFFSET ?)".toList.dropWhile isspace =
        "(a=? ".toList ++
          'L' :: ("IMIT".toList ++ ' ' :: '?' :: (" OFFSET ?".toList ++ ")".toList)) ∧
      Spec.state_after Spec.QState.top "(a=? ".toList = Spec.QState.top ∧
      Spec.top_close Spec.QState.top " OFFSET ?".toList = false ∧
      Spec.slots Spec.QState.top "(a=? ".toList ≤ 2 ∧
      2 ≤ Spec.slots Spec.QState.top "(a=? ".toList +
        Spec.slots Spec.QState.top " OFFSET ?".toList) ∧
    (Spec.replacements drizzle_escape_string "(a=? LIMIT ? OFFSET ?)".toList
      [⟨some ⟨true, false, "x".toList⟩, SQL_VARCHAR⟩,
        ⟨some ⟨true, false, "5".toList⟩, SQL_VARCHAR⟩,
        ⟨some ⟨true, false, "10; DROP".toList⟩, SQL_VARCHAR⟩] 3 0)[2]? =
      some ("10; DROP".toList.take (parse_number "10; DROP".toList "10; DROP".toList.length).2) ∧
    "10; DROP".toList.take (parse_number "10; DROP".toList "10; DROP".toList.length).2 =
      ['1', '0'] ∧
    parse_params drizzle_escape_string "(a=? LIMIT ? OFFSET ?)".toList
      [⟨some ⟨true, false, "x".toList⟩, SQL_VARCHAR⟩,
        ⟨some ⟨true, false, "5".toList⟩, SQL_VARCHAR⟩,
        ⟨some ⟨true, false, "10; DROP".toList⟩, SQL_VARCHAR⟩] 3 0 =
      some ([ '(', 'a', '=', SQUOTE, 'x', SQUOTE, ' ',
        'L', 'I', 'M', 'I', 'T', ' ', '5', ' ', 'O', 'F', 'F', 'S', 'E', 'T', ' ', '1', '0',
        ')'], 25) :=
  ⟨⟨by decide, by decide, by decide, by decide, by decide⟩,
    (parse_params_limit_unquoted.2 drizzle_escape_string
      "(a=? LIMIT ? OFFSET ?)".toList
      [⟨some ⟨true, false, "x".toList⟩, SQL_VARCHAR⟩,
        ⟨some ⟨true, false, "5".toList⟩, SQL_VARCHAR⟩,
        ⟨some ⟨true, false, "10; DROP".toList⟩, SQL_VARCHAR⟩] 3 0
      "(a=? ".toList "IMIT".toList " OFFSET ?".toList ")".toList
      'L' 2
      ⟨some ⟨true, false, "10; DROP".toList⟩, SQL_VARCHAR⟩ ⟨true, false, "10; DROP".toList⟩
      (by decide) (by decide) (by decide) (by decide) (by decide) (by decide) (by decide)
      (by decide) (by decide) (by decide) rfl rfl).2.1,
    by decide, rfl⟩

/-- C8, as the code has it: a defined value in a slot with a declared numeric
type is replaced, with no quotes, by the value's leading whitespace followed
by the maximal leading numeric substring of what comes behind the whitespace
(an optional single leading `-`, digits, at most one `.`), for every value in
which no `-` follows leading whitespace; everything behind is dropped, and
`12.5abc` gives `12.5`. -/
theorem parse_params_numeric_leading :
    (∀ (escape : List Char → List Char) (statement : List Char)
      (params : List imp_sth_ph_t) (num_params g k : Nat) (ph : imp_sth_ph_t) (sv : SV),
      1 ≤ num_params → params.length = num_params →
      k < Spec.placeholders (statement.dropWhile isspace) →
      params[k]? = some ph → ph.value = some sv → sv.ok = true →
      is_num_type ph.type = true →
      (sv.pv.takeWhile isspace = [] ∨ (sv.pv.dropWhile isspace).head? ≠ some '-') →
      parse_params escape statement params num_params g =
        some (Spec.weave (Spec.segments (Spec.scan (statement.dropWhile isspace)))
            (Spec.replacements escape statement params num_params g),
          (Spec.rewritten escape statement params num_params g).length) ∧
      (Spec.replacements escape statement params num_params g)[k]? =
        some (sv.pv.takeWhile isspace ++ Spec.leading_numeric (sv.pv.dropWhile isspace))) ∧
    (∀ (escape : List Char → List Char) (g : Nat),
      parse_params escape "?".toList
        [⟨some ⟨true, false, "12.5abc".toList⟩, SQL_DECIMAL⟩] 1 g =
        some ("12.5".toList, 4)) := by
  refine ⟨?_, fun escape g => ?_⟩
  · intro escape statement params num_params g k ph sv hn hlen hkp hph hv hok ht hminus
    refine ⟨parse_params_eq escape statement params num_params g hn, ?_⟩
    obtain ⟨l, hl⟩ := flags_getElem?_of_lt statement k hkp
    rw [replacements_consumed escape statement params num_params g k ph l hlen hph hl,
      parse_params_guess_declared g ph (type_ne_zero_of_num _ ht),
      parse_params_value_numeric escape ph sv l hv hok (by simp [ht]), parse_number_take]
    by_cases hw : sv.pv.takeWhile isspace = []
    · have hd : sv.pv.dropWhile isspace = sv.pv := by
        have := List.takeWhile_append_dropWhile isspace sv.pv
        rw [hw] at this
        simpa using this
      rw [if_pos hw, hd]
    · rw [if_neg hw]
      rcases hminus with h | h
      · exact absurd h hw
      · rw [leading_numeric_of_head _ h]
  · rw [parse_params_eq escape _ _ 1 g (by decide)]
    rfl

theorem parse_params_numeric_leading_witness :
    (" 12.5.1".toList.takeWhile isspace = [] ∨
      (" 12.5.1".toList.dropWhile isspace).head? ≠ some '-') ∧
    (Spec.replacements drizzle_escape_string "a = ?".toList
      [⟨some ⟨true, false, " 12.5.1".toList⟩, SQL_FLOAT⟩] 1 0)[0]? =
      some (" 12.5.1".toList.takeWhile isspace ++
        Spec.leading_numeric (" 12.5.1".toList.dropWhile isspace)) ∧
    " 12.5.1".toList.takeWhile isspace ++
      Spec.leading_numeric (" 12.5.1".toList.dropWhile isspace) = " 12.5".toList :=
  ⟨by decide,
    (parse_params_numeric_leading.1 drizzle_escape_string "a = ?".toList
      [⟨some ⟨true, false, " 12.5.1".toList⟩, SQL_FLOAT⟩] 1 0 0
      ⟨some ⟨true, false, " 12.5.1".toList⟩, SQL_FLOAT⟩ ⟨true, false, " 12.5.1".toList⟩
      (by decide) (by decide) (by decide) rfl rfl rfl (by decide) (by decide)).2,
    by decide⟩

/-- C8, counterexample: the value ` 12` (a space, then 12) in an INTEGER slot
is written with its leading space, while the maximal leading numeric
substring of that text is empty. -/
theorem parse_params_numeric_keeps_whitespace :
    parse_params drizzle_escape_string "?".toList
      [⟨some ⟨true, false, " 12".toList⟩, SQL_INTEGER⟩] 1 0 = some (" 12".toList, 3) ∧
    Spec.leading_numeric " 12".toList = [] ∧
    " 12".toList ≠ Spec.leading_numeric " 12".toList ∧
    " 12".toList ≠ Spec.leading_numeric "12".toList := by
  refine ⟨rfl, by decide, by decide, by decide⟩

/-- C9, as the code has it: a defined value in a slot with a declared numeric
type that has no leading whitespace and no leading numeric substring is
replaced by the empty text, under every guessing mode.  The quoted escaped
string is what a slot with no declared type gets outside LIMIT state when the
inference loop picks the string type: guessing off, loose guessing with a
value that carries no native number, strict guessing with a text
`parse_number` rejects; so `abc` with no declared type under loose guessing
gives the quoted `abc`. -/
theorem parse_params_numeric_no_fallback :
    (∀ (escape : List Char → List Char) (statement : List Char)
      (params : List imp_sth_ph_t) (num_params g k : Nat) (ph : imp_sth_ph_t) (sv : SV),
      1 ≤ num_params → params.length = num_params →
      k < Spec.placeholders (statement.dropWhile isspace) →
      params[k]? = some ph → ph.value = some sv → sv.ok = true →
      is_num_type ph.type = true →
      sv.pv.takeWhile isspace = [] → Spec.leading_numeric sv.pv = [] →
      parse_params escape statement params num_params g =
        some (Spec.weave (Spec.segments (Spec.scan (statement.dropWhile isspace)))
            (Spec.replacements escape statement params num_params g),
          (Spec.rewritten escape statement params num_params g).length) ∧
      (Spec.replacements escape statement params num_params g)[k]? = some []) ∧
    (∀ (escape : List Char → List Char) (statement : List Char)
      (params : List imp_sth_ph_t) (num_params g k : Nat) (ph : imp_sth_ph_t) (sv : SV),
      1 ≤ num_params → params.length = num_params →
      (Spec.flags (Spec.scan (statement.dropWhile isspace)))[k]? = some false →
      params[k]? = some ph → ph.value = some sv → sv.ok = true → ph.type = 0 →
      (g = 0 ∨ (g = 1 ∧ sv.niok = false) ∨
        (2 ≤ g ∧ (parse_number sv.pv sv.pv.length).1 ≠ 0)) →
      parse_params escape statement params num_params g =
        some (Spec.weave (Spec.segments (Spec.scan (statement.dropWhile isspace)))
            (Spec.replacements escape statement params num_params g),
          (Spec.rewritten escape statement params num_params g).length) ∧
      (Spec.replacements escape statement params num_params g)[k]? =
        some (SQUOTE :: (escape sv.pv ++ [SQUOTE]))) ∧
    parse_params drizzle_escape_string "a = ?".toList
      [⟨some ⟨true, false, "abc".toList⟩, 0⟩] 1 1 =
      some ([ 'a', ' ', '=', ' ', SQUOTE, 'a', 'b', 'c', SQUOTE], 9) := by
  refine ⟨?_, ?_, rfl⟩
  · intro escape statement params num_params g k ph sv hn hlen hkp hph hv hok ht hw hnum
    refine ⟨parse_params_eq escape statement params num_params g hn, ?_⟩
    obtain ⟨l, hl⟩ := flags_getElem?_of_lt statement k hkp
    rw [replacements_consumed escape statement params num_params g k ph l hlen hph hl,
      parse_params_guess_declared g ph (type_ne_zero_of_num _ ht),
      parse_params_value_numeric escape ph sv l hv hok (by simp [ht]), parse_number_take,
      if_pos hw, hw, hnum]
    rfl
  · intro escape statement params num_params g k ph sv hn hlen hl hph hv hok ht hg
    refine ⟨parse_params_eq escape statement params num_params g hn, ?_⟩
    rw [replacements_consumed escape statement params num_params g k ph false hlen hph hl]
    have hty : is_num_type (parse_params_guess g ph).type = false := by
      unfold parse_params_guess
      rw [hv]
      simp only [hok, ht]
      rcases hg with h | ⟨h, hni⟩ | ⟨h, hp⟩
      · subst h; simp; decide
      · subst h; simp [hni]; decide
      · have h1 : g > 1 := by omega
        simp [h1, hp]; decide
    rw [parse_params_value_string escape _ sv
      (by rw [parse_params_guess_value]; exact hv) hok hty]

theorem parse_params_numeric_no_fallback_witness :
    ("abc".toList.takeWhile isspace = [] ∧ Spec.leading_numeric "abc".toList = []) ∧
    (Spec.replacements drizzle_escape_string "a = ?".toList
      [⟨some ⟨true, false, "abc".toList⟩, SQL_INTEGER⟩] 1 1)[0]? = some [] :=
  ⟨⟨by decide, by decide⟩,
    (parse_params_numeric_no_fallback.1 drizzle_escape_string "a = ?".toList
      [⟨some ⟨true, false, "abc".toList⟩, SQL_INTEGER⟩] 1 1 0
      ⟨some ⟨true, false, "abc".toList⟩, SQL_INTEGER⟩ ⟨true, false, "abc".toList⟩
      (by decide) (by decide) (by decide) rfl rfl rfl (by decide) (by decide)
      (by decide)).2⟩

/-- C9, counterexample: the value `abc` in an INTEGER slot (and likewise in a
BIGINT slot), rewritten under loose type guessing, is written as the empty
text, not as the quoted `abc`. -/
theorem parse_params_numeric_abc_empty :
    parse_params drizzle_escape_string "a = ?".toList
      [⟨some ⟨true, false, "abc".toList⟩, SQL_INTEGER⟩] 1 1 = some ("a = ".toList, 4) ∧
    parse_params drizzle_escape_string "a = ?".toList
      [⟨some ⟨true, false, "abc".toList⟩, SQL_BIGINT⟩] 1 1 = some ("a = ".toList, 4) ∧
    (Spec.replacements drizzle_escape_string "a = ?".toList
      [⟨some ⟨true, false, "abc".toList⟩, SQL_INTEGER⟩] 1 1) = [[]] ∧
    "a = ".toList ≠ [ 'a', ' ', '=', ' ', SQUOTE, 'a', 'b', 'c', SQUOTE] := by
  exact ⟨rfl, rfl, rfl, by decide⟩

/-! ## LIMIT spellings -/

theorem case_variants_limit :
    Spec.case_variants "limit".toList =
      ["limit".toList, "limiT".toList, "limIt".toList, "limIT".toList, "liMit".toList, "liMiT".toList, "liMIt".toList, "liMIT".toList, "lImit".toList, "lImiT".toList, "lImIt".toList, "lImIT".toList, "lIMit".toList, "lIMiT".toList, "lIMIt".toList, "lIMIT".toList, "Limit".toList, "LimiT".toList, "LimIt".toList, "LimIT".toList, "LiMit".toList, "LiMiT".toList, "LiMIt".toList, "LiMIT".toList, "LImit".toList, "LImiT".toList, "LImIt".toList, "LImIT".toList, "LIMit".toList, "LIMiT".toList, "LIMIt".toList, "LIMIT".toList] := by
  decide

/-- A statement with one placeholder and one slot: the output is the text
before the placeholder, the rendering of the slot, and the text behind. -/
theorem parse_params_single (escape : List Char → List Char) (statement : List Char)
    (seg0 seg1 : List Char) (b : Bool) (ph : imp_sth_ph_t) (g : Nat)
    (hs : Spec.segments (Spec.scan (statement.dropWhile isspace)) = [seg0, seg1])
    (hf : Spec.flags (Spec.scan (statement.dropWhile isspace)) = [b]) :
    parse_params escape statement [ph] 1 g =
      some (seg0 ++ (parse_params_value escape (parse_params_guess g ph) b ++ seg1),
        (seg0 ++ (parse_params_value escape (parse_params_guess g ph) b ++ seg1)).length) := by
  rw [parse_params_eq escape statement [ph] 1 g (by omega)]
  have : Spec.rewritten escape statement [ph] 1 g =
      seg0 ++ (parse_params_value escape (parse_params_guess g ph) b ++ seg1) := by
    simp [Spec.rewritten, Spec.replacements, hs, hf, Spec.renderings, Spec.weave,
      parse_params_types]
  rw [this]

theorem limit_spellings_scan :
    ∀ kw ∈ Spec.case_variants "limit".toList,
      Spec.segments (Spec.scan ((kw ++ " ?".toList).dropWhile isspace)) = [kw ++ [' '], []] ∧
      Spec.flags (Spec.scan ((kw ++ " ?".toList).dropWhile isspace)) =
        [decide (kw ∈ Spec.limit_spellings)] := by
  decide

/-- C12, as the code has it: of the 32 upper/lower-case spellings of `limit`,
followed by one space and a placeholder, `parse_params` recognises the four
spellings `limit`, `Limit`, `lIMIT`, `LIMIT`: for these a defined value in a
string-typed slot is written as its numeric prefix without quotes (10 for
the value 10); for each of the other 28 spellings (such as `LiMiT`) the value
is written as a quoted escaped string. -/
theorem parse_params_limit_spellings :
    ∀ (escape : List Char → List Char) (kw : List Char) (sv : SV) (t : Int) (g : Nat),
      kw ∈ Spec.case_variants "limit".toList →
      sv.ok = true → t ≠ 0 → is_num_type t = false →
      parse_params escape (kw ++ " ?".toList) [⟨some sv, t⟩] 1 g =
        some (kw ++ (' ' ::
            (if kw ∈ Spec.limit_spellings then sv.pv.take (parse_number sv.pv sv.pv.length).2
              else SQUOTE :: (escape sv.pv ++ [SQUOTE]))),
          (kw ++ (' ' ::
            (if kw ∈ Spec.limit_spellings then sv.pv.take (parse_number sv.pv sv.pv.length).2
              else SQUOTE :: (escape sv.pv ++ [SQUOTE])))).length) := by
  intro escape kw sv t g hkw hok ht hnum
  have hg : parse_params_guess g ⟨some sv, t⟩ = ⟨some sv, t⟩ :=
    parse_params_guess_declared g _ ht
  obtain ⟨hs, hf⟩ := limit_spellings_scan kw hkw
  rw [parse_params_single escape _ (kw ++ [' ']) [] _ ⟨some sv, t⟩ g hs hf, hg]
  by_cases hmem : kw ∈ Spec.limit_spellings
  · rw [if_pos hmem, decide_eq_true hmem,
      parse_params_value_numeric escape ⟨some sv, t⟩ sv true rfl hok (by simp)]
    simp
  · rw [if_neg hmem, decide_eq_false hmem,
      parse_params_value_string escape ⟨some sv, t⟩ sv rfl hok hnum]
    simp

theorem parse_params_limit_spellings_witness :
    "LiMiT".toList ∈ Spec.case_variants "limit".toList ∧
    "LiMiT".toList ∉ Spec.limit_spellings ∧
    parse_params drizzle_escape_string ("LiMiT".toList ++ " ?".toList)
      [⟨some ⟨true, false, "10".toList⟩, SQL_VARCHAR⟩] 1 0 =
      some ([ 'L', 'i', 'M', 'i', 'T', ' ', SQUOTE, '1', '0', SQUOTE], 10) :=
  ⟨by decide, by decide,
    (parse_params_limit_spellings drizzle_escape_string "LiMiT".toList
      ⟨true, false, "10".toList⟩ SQL_VARCHAR 0 (by decide) rfl (by decide) (by decide)).trans
      (by decide)⟩

/-- C12, counterexample: the spelling `LiMiT` is not recognised; the value 10
in a VARCHAR slot behind `LiMiT ?` is written with quotes. -/
theorem parse_params_limit_mixed_case_quoted :
    "LiMiT".toList ∈ Spec.case_variants "limit".toList ∧
    parse_params drizzle_escape_string "SELECT * FROM t LiMiT ?".toList
      [⟨some ⟨true, false, "10".toList⟩, SQL_VARCHAR⟩] 1 0 =
      some ("SELECT * FROM t LiMiT ".toList ++ [SQUOTE, '1', '0', SQUOTE], 26) ∧
    parse_params drizzle_escape_string "SELECT * FROM t LIMIT ?".toList
      [⟨some ⟨true, false, "10".toList⟩, SQL_VARCHAR⟩] 1 0 =
      some ("SELECT * FROM t LIMIT 10".toList, 24) := by
  exact ⟨by decide, rfl, rfl⟩

/-! ## Binding -/

theorem do_error_srv (h : HandleType) (rc : Int) (what : String) (st : Option String)
    (w : World) : (do_error h rc what st w).srv = w.srv := by
  cases h <;> rfl

theorem do_error_sth_params (h : HandleType) (rc : Int) (what : String) (st : Option String)
    (w : World) : (do_error h rc what st w).sth.params = w.sth.params := by
  cases h <;> rfl

theorem do_error_sth_result (h : HandleType) (rc : Int) (what : String) (st : Option String)
    (w : World) : (do_error h rc what st w).sth.result = w.sth.result := by
  cases h <;> rfl

theorem do_error_pdrizzle (h : HandleType) (rc : Int) (what : String) (st : Option String)
    (w : World) : (do_error h rc what st w).dbh.pdrizzle = w.dbh.pdrizzle := by
  cases h <;> rfl

theorem int_of_IV_small (v : Int) (h1 : -2 ^ 31 ≤ v) (h2 : v < 2 ^ 31) : int_of_IV v = v := by
  unfold int_of_IV
  have e1 : (2 : Int) ^ 32 = 4294967296 := by norm_num
  have e2 : (2 : Int) ^ 31 = 2147483648 := by norm_num
  rw [e1, e2] at *
  by_cases h : v % 4294967296 < 2147483648
  · rw [if_pos h]; omega
  · rw [if_neg h]; omega

theorem int_of_IV_wrap (v : Int) : int_of_IV (v + 2 ^ 32) = int_of_IV v := by
  unfold int_of_IV
  rw [Int.add_emod_self]

theorem bind_report_params (lln : SV → Bool) (neat : SV → String) (w w1 : World)
    (param : Int) (value : SV) (sql_type : Int)
    (h : bind_report_non_numeric lln neat w param value sql_type = some w1) :
    w1.sth.params = w.sth.params := by
  unfold bind_report_non_numeric at h
  split_ifs at h <;> simp only [Option.some.injEq] at h <;> rw [← h]
  rfl

theorem bind_report_none_iff (lln : SV → Bool) (neat : SV → String) (w : World)
    (param : Int) (value : SV) (sql_type : Int) :
    bind_report_non_numeric lln neat w param value sql_type = none ↔
      (value.ok = true ∧ (sql_type = SQL_NUMERIC ∨ sql_type = SQL_DECIMAL ∨
        sql_type = SQL_INTEGER ∨ sql_type = SQL_SMALLINT ∨ sql_type = SQL_FLOAT ∨
        sql_type = SQL_REAL ∨ sql_type = SQL_DOUBLE)) ∧ lln value = false ∧
      64 < (bind_report_text neat param value).utf8ByteSize + 1 := by
  unfold bind_report_non_numeric
  by_cases h1 : value.ok = true ∧ (sql_type = SQL_NUMERIC ∨ sql_type = SQL_DECIMAL ∨
        sql_type = SQL_INTEGER ∨ sql_type = SQL_SMALLINT ∨ sql_type = SQL_FLOAT ∨
        sql_type = SQL_REAL ∨ sql_type = SQL_DOUBLE)
  · rw [if_pos h1]
    cases h2 : lln value with
    | true => simp
    | false =>
      by_cases h3 : (bind_report_text neat param value).utf8ByteSize + 1 > 64
      · simp [h3, h1]
      · simp [h3, h1]
  · rw [if_neg h1]
    simp [h1]

theorem dbd_bind_ph_in_range (lln : SV → Bool) (neat : SV → String) (w w1 : World)
    (param : Int) (value : SV) (sql_type : Int)
    (hin : 1 ≤ int_of_IV param ∧ int_of_IV param ≤ (w.sth.NUM_PARAMS : Int))
    (h : bind_report_non_numeric lln neat w (int_of_IV param) value sql_type = some w1) :
    dbd_bind_ph lln neat w param value sql_type false =
      some (true, { w1 with sth := { w1.sth with
        params := w1.sth.params.set (int_of_IV param - 1).toNat
          (bind_param (w1.sth.params.getD (int_of_IV param - 1).toNat ⟨none, 0⟩)
            value sql_type).2 } }) := by
  have hr : ¬ (int_of_IV param ≤ 0 ∨ int_of_IV param > (w.sth.NUM_PARAMS : Int)) := by omega
  unfold dbd_bind_ph
  simp only [if_neg hr, h, Bool.false_eq_true, if_false]
  rfl

/-- C13, amended: `param` is converted to the `int param_num`.  For an
in-parameter `dbd_bind_ph` returns FALSE exactly when `param_num` is outside
`[1, n]`, `n` the placeholder count; then the illegal-parameter-number error
is recorded and nothing else of the state changes, no slot in particular.
For `param_num` in range the call overruns `err_msg` exactly when a defined
value that does not look like a number is bound with a numeric type and the
report text with its NUL is longer than 64 bytes; otherwise it returns TRUE,
slot `param_num - 1` holds the value (and the declared type as an `int`, when
one is declared) and the other slots are as before.  An index or type that
fits an `int` is not changed by the conversion. -/
theorem dbd_bind_ph_index (lln : SV → Bool) (neat : SV → String) (w : World)
    (param : Int) (value : SV) (sql_type : Int)
    (hlen : w.sth.params.length = w.sth.NUM_PARAMS) :
    ((∃ w2, dbd_bind_ph lln neat w param value sql_type false = some (false, w2)) ↔
      (int_of_IV param < 1 ∨ (w.sth.NUM_PARAMS : Int) < int_of_IV param)) ∧
    ((int_of_IV param < 1 ∨ (w.sth.NUM_PARAMS : Int) < int_of_IV param) →
      dbd_bind_ph lln neat w param value sql_type false =
        some (false, { w with sth := { w.sth with errors :=
          w.sth.errors ++ [⟨JW_ERR_ILLEGAL_PARAM_NUM, "Illegal parameter number", none⟩] } })) ∧
    ((1 ≤ int_of_IV param ∧ int_of_IV param ≤ (w.sth.NUM_PARAMS : Int)) →
      (dbd_bind_ph lln neat w param value sql_type false = none ↔
        ((value.ok = true ∧ (sql_type = SQL_NUMERIC ∨ sql_type = SQL_DECIMAL ∨
          sql_type = SQL_INTEGER ∨ sql_type = SQL_SMALLINT ∨ sql_type = SQL_FLOAT ∨
          sql_type = SQL_REAL ∨ sql_type = SQL_DOUBLE)) ∧ lln value = false ∧
          64 < (bind_report_text neat (int_of_IV param) value).utf8ByteSize + 1)) ∧
      (∀ r : Bool × World, dbd_bind_ph lln neat w param value sql_type false = some r →
        r.1 = true ∧
        r.2.sth.params[(int_of_IV param - 1).toNat]? =
          some ⟨some value, if sql_type ≠ 0 then int_of_IV sql_type
            else (w.sth.params.getD (int_of_IV param - 1).toNat ⟨none, 0⟩).type⟩ ∧
        ∀ j : Nat, j ≠ (int_of_IV param - 1).toNat →
          r.2.sth.params[j]? = w.sth.params[j]?)) ∧
    ((-2 ^ 31 ≤ param ∧ param < 2 ^ 31) → int_of_IV param = param) ∧
    ((-2 ^ 31 ≤ sql_type ∧ sql_type < 2 ^ 31) → int_of_IV sql_type = sql_type) := by
  refine ⟨?_, ?_, ?_, fun h => int_of_IV_small param h.1 h.2,
    fun h => int_of_IV_small sql_type h.1 h.2⟩
  · by_cases hr : int_of_IV param ≤ 0 ∨ int_of_IV param > (w.sth.NUM_PARAMS : Int)
    · have hout : int_of_IV param < 1 ∨ (w.sth.NUM_PARAMS : Int) < int_of_IV param := by omega
      refine ⟨fun _ => hout, fun _ => ⟨do_error HandleType.DBIt_ST JW_ERR_ILLEGAL_PARAM_NUM
        "Illegal parameter number" none w, ?_⟩⟩
      unfold dbd_bind_ph
      simp only [if_pos hr]
    · have hin : 1 ≤ int_of_IV param ∧ int_of_IV param ≤ (w.sth.NUM_PARAMS : Int) := by omega
      refine ⟨fun hx => ?_, fun hx => (by omega)⟩
      obtain ⟨w2, hw2⟩ := hx
      exfalso
      cases hb : bind_report_non_numeric lln neat w (int_of_IV param) value sql_type with
      | none =>
        unfold dbd_bind_ph at hw2
        simp only [if_neg hr, hb] at hw2
        cases hw2
      | some w1 =>
        rw [dbd_bind_ph_in_range lln neat w w1 param value sql_type hin hb] at hw2
        simp only [Option.some.injEq, Prod.mk.injEq] at hw2
        exact absurd hw2.1 (by decide)
  · intro hout
    have hr : int_of_IV param ≤ 0 ∨ int_of_IV param > (w.sth.NUM_PARAMS : Int) := by omega
    unfold dbd_bind_ph
    simp only [if_pos hr]
    rfl
  · intro hin
    have hr : ¬ (int_of_IV param ≤ 0 ∨ int_of_IV param > (w.sth.NUM_PARAMS : Int)) := by omega
    refine ⟨?_, ?_⟩
    · rw [← bind_report_none_iff lln neat w (int_of_IV param) value sql_type]
      cases hb : bind_report_non_numeric lln neat w (int_of_IV param) value sql_type with
      | none =>
        unfold dbd_bind_ph
        simp only [if_neg hr, hb]
      | some w1 =>
        rw [dbd_bind_ph_in_range lln neat w w1 param value sql_type hin hb]
        simp
    · intro r hres
      cases hb : bind_report_non_numeric lln neat w (int_of_IV param) value sql_type with
      | none =>
        unfold dbd_bind_ph at hres
        simp only [if_neg hr, hb] at hres
        cases hres
      | some w1 =>
        rw [dbd_bind_ph_in_range lln neat w w1 param value sql_type hin hb] at hres
        simp only [Option.some.injEq] at hres
        have hp := bind_report_params lln neat w w1 (int_of_IV param) value sql_type hb
        have hidx : (int_of_IV param - 1).toNat < w.sth.params.length := by omega
        rw [← hres]
        refine ⟨rfl, ?_, ?_⟩
        · simp only [hp]
          rw [List.getElem?_set_self hidx]
          unfold bind_param
          split_ifs <;> rfl
        · intro j hj
          simp only [hp]
          rw [List.getElem?_set_ne (Ne.symm hj)]

theorem dbd_bind_ph_index_witness :
    (World_prepared "SELECT ?".toList).sth.params.length =
      (World_prepared "SELECT ?".toList).sth.NUM_PARAMS ∧
    dbd_bind_ph (fun sv => sv.niok) (fun sv => String.mk sv.pv)
      (World_prepared "SELECT ?".toList) 2 ⟨true, false, "abc".toList⟩ 0 false =
      some (false, { (World_prepared "SELECT ?".toList) with
        sth := { (World_prepared "SELECT ?".toList).sth with errors :=
          (World_prepared "SELECT ?".toList).sth.errors ++
            [⟨JW_ERR_ILLEGAL_PARAM_NUM, "Illegal parameter number", none⟩] } }) ∧
    (dbd_bind_ph (fun sv => sv.niok) (fun sv => String.mk sv.pv)
      (World_prepared "SELECT ?".toList) 1 ⟨true, false, "abc".toList⟩ SQL_INTEGER false).map
        Prod.fst = some true ∧
    ((dbd_bind_ph (fun sv => sv.niok) (fun sv => String.mk sv.pv)
      (World_prepared "SELECT ?".toList) 1 ⟨true, false, "abc".toList⟩ SQL_INTEGER false).map
        (fun r => r.2.sth.params)) =
      some [⟨some ⟨true, false, "abc".toList⟩, SQL_INTEGER⟩] ∧
    (dbd_bind_ph (fun sv => sv.niok) (fun sv => String.mk sv.pv)
      (World_prepared "SELECT ?".toList) 1 ⟨true, false, "abcdefghijklmnop".toList⟩
      SQL_INTEGER false = none ↔
      ((true = true ∧ (SQL_INTEGER = SQL_NUMERIC ∨ SQL_INTEGER = SQL_DECIMAL ∨
        SQL_INTEGER = SQL_INTEGER ∨ SQL_INTEGER = SQL_SMALLINT ∨ SQL_INTEGER = SQL_FLOAT ∨
        SQL_INTEGER = SQL_REAL ∨ SQL_INTEGER = SQL_DOUBLE)) ∧ false = false ∧
        64 < (bind_report_text (fun sv => String.mk sv.pv) (int_of_IV 1)
          ⟨true, false, "abcdefghijklmnop".toList⟩).utf8ByteSize + 1)) ∧
    dbd_bind_ph (fun sv => sv.niok) (fun sv => String.mk sv.pv)
      (World_prepared "SELECT ?".toList) 1 ⟨true, false, "abcdefghijklmnop".toList⟩
      SQL_INTEGER false = none :=
  ⟨by decide,
    (dbd_bind_ph_index (fun sv => sv.niok) (fun sv => String.mk sv.pv)
      (World_prepared "SELECT ?".toList) 2 ⟨true, false, "abc".toList⟩ 0 (by decide)).2.1
        (by decide),
    by decide, by decide,
    ((dbd_bind_ph_index (fun sv => sv.niok) (fun sv => String.mk sv.pv)
      (World_prepared "SELECT ?".toList) 1 ⟨true, false, "abcdefghijklmnop".toList⟩
      SQL_INTEGER (by decide)).2.2.1 (by decide)).1,
    by decide⟩

/-- C13, counterexample: the index 2^32 + 1, which is outside `[1, 1]`, is
converted to the `int` 1: the bind on a statement with one placeholder
returns TRUE and slot 0 holds the value. -/
theorem dbd_bind_ph_index_wraps :
    ¬ ((1 : Int) ≤ 2 ^ 32 + 1 ∧ (2 ^ 32 + 1 : Int) ≤
      ((World_prepared "SELECT ?".toList).sth.NUM_PARAMS : Int)) ∧
    (dbd_bind_ph (fun sv => sv.niok) (fun sv => String.mk sv.pv)
      (World_prepared "SELECT ?".toList) (2 ^ 32 + 1) ⟨true, false, "abc".toList⟩ 0 false).map
        Prod.fst = some true ∧
    ((dbd_bind_ph (fun sv => sv.niok) (fun sv => String.mk sv.pv)
      (World_prepared "SELECT ?".toList) (2 ^ 32 + 1) ⟨true, false, "abc".toList⟩ 0 false).map
        (fun r => r.2.sth.params)) = some [⟨some ⟨true, false, "abc".toList⟩, 0⟩] ∧
    ((dbd_bind_ph (fun sv => sv.niok) (fun sv => String.mk sv.pv)
      (World_prepared "SELECT ?".toList) (2 ^ 32 + 1) ⟨true, false, "abc".toList⟩ 0 false).map
        (fun r => r.2.sth.errors)) = some [] := by
  refine ⟨by decide, by decide, by decide, by decide⟩

/-! ## Re-binding -/

/-- C14, amended: a second bind of a slot without a declared type replaces
the value and keeps the type the slot has: the type declared by the earlier
bind (converted to the `int` of the slot), or the one an earlier execute
inferred; the next rewrite uses the kept type and does not classify the new
value.  A bind with a declared type replaces the type by the declared type
converted to an `int`, which is the declared type itself when it fits an
`int`. -/
theorem bind_param_rebind_keeps_type (ph : imp_sth_ph_t) (v1 v2 : SV) (t1 : Int) (g g2 : Nat)
    (h : (parse_params_guess g (bind_param ph v1 t1).2).type ≠ 0) :
    (bind_param (bind_param ph v1 t1).2 v2 0).2 = ⟨some v2, (bind_param ph v1 t1).2.type⟩ ∧
    ((bind_param ph v1 t1).2.type = if t1 ≠ 0 then int_of_IV t1 else ph.type) ∧
    (bind_param (parse_params_guess g (bind_param ph v1 t1).2) v2 0).2 =
      ⟨some v2, (parse_params_guess g (bind_param ph v1 t1).2).type⟩ ∧
    parse_params_guess g2 (bind_param (parse_params_guess g (bind_param ph v1 t1).2) v2 0).2 =
      ⟨some v2, (parse_params_guess g (bind_param ph v1 t1).2).type⟩ ∧
    (∀ t2 : Int, t2 ≠ 0 →
      (bind_param (bind_param ph v1 t1).2 v2 t2).2 = ⟨some v2, int_of_IV t2⟩) ∧
    (∀ t : Int, -2 ^ 31 ≤ t → t < 2 ^ 31 → int_of_IV t = t) := by
  refine ⟨by simp [bind_param], ?_, by simp [bind_param], ?_, ?_, int_of_IV_small⟩
  · unfold bind_param
    split_ifs <;> rfl
  · have e : (bind_param (parse_params_guess g (bind_param ph v1 t1).2) v2 0).2 =
        ⟨some v2, (parse_params_guess g (bind_param ph v1 t1).2).type⟩ := by
      simp [bind_param]
    rw [e]
    exact parse_params_guess_declared g2 _ h
  · intro t2 ht2
    simp [bind_param, ht2]

theorem bind_param_rebind_keeps_type_witness :
    (parse_params_guess 0 (bind_param ⟨none, 0⟩ ⟨true, true, "5".toList⟩ 0).2).type ≠ 0 ∧
    parse_params_guess 2 (bind_param (parse_params_guess 0
        (bind_param ⟨none, 0⟩ ⟨true, true, "5".toList⟩ 0).2) ⟨true, true, "7".toList⟩ 0).2 =
      ⟨some ⟨true, true, "7".toList⟩, SQL_VARCHAR⟩ :=
  ⟨by decide,
    (bind_param_rebind_keeps_type ⟨none, 0⟩ ⟨true, true, "5".toList⟩ ⟨true, true, "7".toList⟩
      0 0 2 (by decide)).2.2.2.1.trans (by decide)⟩

/-- C14, counterexample: a slot bound to 5 with the declared type
SQL_INTEGER and bound again to the text abc without a declared type still has
the type SQL_INTEGER, not an unset one, and the next rewrite treats abc as a
number. -/
theorem bind_param_rebind_type_survives :
    (bind_param (bind_param ⟨none, 0⟩ ⟨true, true, "5".toList⟩ SQL_INTEGER).2
      ⟨true, false, "abc".toList⟩ 0).2 = ⟨some ⟨true, false, "abc".toList⟩, SQL_INTEGER⟩ ∧
    SQL_INTEGER ≠ 0 ∧
    parse_params drizzle_escape_string "a = ?".toList
      [(bind_param (bind_param ⟨none, 0⟩ ⟨true, true, "5".toList⟩ SQL_INTEGER).2
        ⟨true, false, "abc".toList⟩ 0).2] 1 0 = some ("a = ".toList, 4) ∧
    parse_params drizzle_escape_string "a = ?".toList
      [(bind_param ⟨none, 0⟩ ⟨true, false, "abc".toList⟩ 0).2] 1 0 =
      some ([ 'a', ' ', '=', ' ', SQUOTE, 'a', 'b', 'c', SQUOTE], 9) := by
  refine ⟨by decide, by decide, by decide, by decide⟩

/-! ## Blank trimming -/

theorem chop_blanks_nil : Spec.chop_blanks [] = [] := rfl

theorem chop_blanks_snoc (init : List Char) (c : Char) :
    Spec.chop_blanks (init ++ [c]) = if c = ' ' then Spec.chop_blanks init else init ++ [c] := by
  unfold Spec.chop_blanks
  rw [List.reverse_append, List.reverse_singleton, List.singleton_append, List.dropWhile_cons]
  by_cases hc : c = ' '
  · simp [hc]
  · simp [hc]

theorem chop_blanks_len_take (xs : List Char) :
    ∀ ys : List Char,
      (xs ++ ys).take (chop_blanks_len (xs ++ ys) xs.length) = Spec.chop_blanks xs := by
  induction xs using List.reverseRecOn with
  | nil => intro ys; simp [chop_blanks_len, chop_blanks_nil]
  | append_singleton init c ih =>
    intro ys
    have hget : (init ++ [c] ++ ys).getD init.length NUL = c := by
      rw [List.append_assoc, List.getD_eq_getElem?_getD,
        List.getElem?_append_right (le_refl _)]
      simp
    rw [List.length_append, List.length_singleton, chop_blanks_len, hget, chop_blanks_snoc]
    by_cases hc : c = ' '
    · rw [if_pos hc, if_pos hc, List.append_assoc]
      exact ih ([c] ++ ys)
    · rw [if_neg hc, if_neg hc]
      have hl : init.length + 1 = (init ++ [c]).length := by simp
      rw [hl, List.take_left]

theorem chop_blanks_len_length (bytes : List Char) :
    bytes.take (chop_blanks_len bytes bytes.length) = Spec.chop_blanks bytes := by
  have h := chop_blanks_len_take bytes []
  simpa using h

theorem chop_blanks_spaces (bytes : List Char) :
    ∃ n : Nat, bytes = Spec.chop_blanks bytes ++ List.replicate n ' ' := by
  induction bytes using List.reverseRecOn with
  | nil => exact ⟨0, rfl⟩
  | append_singleton init c ih =>
    rw [chop_blanks_snoc]
    by_cases hc : c = ' '
    · obtain ⟨n, hn⟩ := ih
      refine ⟨n + 1, ?_⟩
      rw [if_pos hc, hc, List.replicate_succ', ← List.append_assoc, ← hn]
    · exact ⟨0, by rw [if_neg hc]; simp⟩

theorem chop_blanks_last (bytes : List Char) :
    (Spec.chop_blanks bytes).getLast? ≠ some ' ' := by
  induction bytes using List.reverseRecOn with
  | nil => simp [chop_blanks_nil]
  | append_singleton init c ih =>
    rw [chop_blanks_snoc]
    by_cases hc : c = ' '
    · rw [if_pos hc]; exact ih
    · rw [if_neg hc, List.getLast?_append]
      simpa using hc

theorem dbd_st_fetch_row (w : World) (res : DRIZZLE_RES)
    (cols : List (Option (List Char))) (rest : List (List (Option (List Char))))
    (hres : w.sth.result = some res) (hrows : res.rows = cols :: rest) :
    (dbd_st_fetch w).1 = some ((List.range res.num_fields).map (fun i =>
      fetch_column w.sth.ChopBlanks w.dbh.enable_utf8 (res.fields.getD i ⟨0, 0⟩)
        (cols.getD i none))) := by
  unfold dbd_st_fetch
  simp only [hres, drizzle_fetch_row, hrows]

/-- C20, amended: with ChopBlanks enabled `dbd_st_fetch` returns every
column value that is not NULL, of a text column or of a binary one, with
exactly its trailing space bytes removed: the returned bytes followed by
spaces only are the value, and the returned bytes do not end in a space.
With ChopBlanks disabled every value is returned unchanged; a NULL column
is returned as undefined, a value that is not NULL as a defined scalar. -/
theorem dbd_st_fetch_chop_blanks (w : World) (res : DRIZZLE_RES)
    (cols : List (Option (List Char))) (rest : List (List (Option (List Char))))
    (i : Nat) (hres : w.sth.result = some res) (hrows : res.rows = cols :: rest)
    (hi : i < res.num_fields) :
    ∃ av : AV, (dbd_st_fetch w).1 = some av ∧ av.length = res.num_fields ∧
      (cols.getD i none = none → av[i]? = some none) ∧
      ∀ bytes : List Char, cols.getD i none = some bytes →
        ∃ f : Fetched, av[i]? = some (some f) ∧
          (w.sth.ChopBlanks = false → f.bytes = bytes) ∧
          (w.sth.ChopBlanks = true →
            f.bytes = Spec.chop_blanks bytes ∧
            (∃ n : Nat, bytes = f.bytes ++ List.replicate n ' ') ∧
            f.bytes.getLast? ≠ some ' ') := by
  refine ⟨_, dbd_st_fetch_row w res cols rest hres hrows, by simp, ?_, ?_⟩
  · intro hnull
    simp only [List.getElem?_map, List.getElem?_range hi, Option.map_some', hnull, fetch_column]
  · intro bytes hb
    refine ⟨_, by (simp only [List.getElem?_map, List.getElem?_range hi, hb, fetch_column,
      Option.map_some']; rfl), ?_, ?_⟩
    · intro hc
      simp [hc]
    · intro hc
      simp only [hc, if_true, chop_blanks_len_length]
      exact ⟨trivial, chop_blanks_spaces bytes, chop_blanks_last bytes⟩

theorem dbd_st_fetch_chop_blanks_witness :
    ∃ av : AV, (dbd_st_fetch (World_one_column ⟨8, 0⟩ (some " a b\t  ".toList) true)).1 = some av ∧
      av.length = 1 ∧
      ((some " a b\t  ".toList : Option (List Char)) = none → av[0]? = some none) ∧
      ∀ bytes : List Char, some " a b\t  ".toList = some bytes →
        ∃ f : Fetched, av[0]? = some (some f) ∧
          (true = false → f.bytes = bytes) ∧
          (true = true →
            f.bytes = Spec.chop_blanks bytes ∧
            (∃ n : Nat, bytes = f.bytes ++ List.replicate n ' ') ∧
            f.bytes.getLast? ≠ some ' ') :=
  dbd_st_fetch_chop_blanks (World_one_column ⟨8, 0⟩ (some " a b\t  ".toList) true)
    ⟨1, 1, [⟨8, 0⟩], [[some " a b\t  ".toList]], false, false⟩
    [some " a b\t  ".toList] [] 0 rfl rfl (by decide)

/-- C20, counterexample: with ChopBlanks enabled the value `ab ` of a binary
column (character set 63, BINARY_FLAG set) is returned as `ab`, without its
trailing space. -/
theorem dbd_st_fetch_chops_binary :
    Nat.land (DRIZZLE_FIELD.mk 63 BINARY_FLAG).flags BINARY_FLAG ≠ 0 ∧
    (dbd_st_fetch (World_one_column ⟨63, BINARY_FLAG⟩ (some "ab ".toList) true)).1 =
      some [some ⟨"ab".toList, false⟩] ∧
    "ab".toList ≠ "ab ".toList := by
  refine ⟨by decide, by decide, by decide⟩

/-! ## Draining result sets -/

theorem install_reply_pending (con : DRIZZLE) (r : Reply) :
    (install_reply con r).pending = con.pending := by
  cases r <;> rfl

theorem drizzle_take_result_pending (streamed : Bool) (con : DRIZZLE) :
    (drizzle_take_result streamed con).2.pending = con.pending := by
  unfold drizzle_take_result
  split <;> rfl

theorem drizzle_next_result_cases (con : DRIZZLE) :
    (con.pending = [] ∧ drizzle_next_result con = (-1, con)) ∨
    (∃ r rest, con.pending = r :: rest ∧ (drizzle_next_result con).1 = 1 ∧
      (drizzle_next_result con).2.pending = rest) ∨
    (∃ r rest, con.pending = r :: rest ∧ (drizzle_next_result con).1 = 0 ∧
      (drizzle_next_result con).2.pending = rest) := by
  unfold drizzle_next_result
  cases hp : con.pending with
  | nil => exact Or.inl ⟨rfl, rfl⟩
  | cons r rest =>
    cases r with
    | fail e m st => exact Or.inr (Or.inl ⟨_, _, rfl, rfl, by simp [install_reply_pending]⟩)
    | rows res => exact Or.inr (Or.inr ⟨_, _, rfl, rfl, by simp [install_reply_pending]⟩)
    | ok n => exact Or.inr (Or.inr ⟨_, _, rfl, rfl, by simp [install_reply_pending]⟩)
    | unreadable a b c d =>
      exact Or.inr (Or.inr ⟨_, _, rfl, rfl, by simp [install_reply_pending]⟩)

theorem free_result_sets_use_spec (rc : Int) (w : World) :
    (free_result_sets_use rc w).2.dbh.pdrizzle.pending = w.dbh.pdrizzle.pending ∧
    (free_result_sets_use rc w).2.dbh.errors = w.dbh.errors ∧
    ((free_result_sets_use rc w).1 = true →
      (free_result_sets_use rc w).2.sth.result = none ∧
      ∃ e, (free_result_sets_use rc w).2.sth.errors = w.sth.errors ++ [e]) ∧
    ((free_result_sets_use rc w).1 = false →
      (free_result_sets_use rc w).2.sth.errors = w.sth.errors) := by
  unfold free_result_sets_use
  by_cases hrc : rc = 0
  · simp only [if_pos hrc]
    split_ifs with hc
    · refine ⟨drizzle_take_result_pending true _, rfl, fun _ => ⟨?_, _, rfl⟩, fun h => (by cases h)⟩
      have := hc.1
      simpa [do_error_con, do_error] using this
    · exact ⟨drizzle_take_result_pending true _, rfl, fun h => (by cases h), fun _ => rfl⟩
  · rw [if_neg hrc]
    exact ⟨rfl, rfl, fun h => (by cases h), fun _ => rfl⟩

theorem free_result_sets_release_spec (w : World) :
    (free_result_sets_release w).sth.result = none ∧
    (free_result_sets_release w).dbh = w.dbh ∧
    (free_result_sets_release w).sth.errors = w.sth.errors := by
  unfold free_result_sets_release
  split_ifs with h
  · exact ⟨rfl, rfl, rfl⟩
  · refine ⟨?_, rfl, rfl⟩
    simpa using h

theorem do_error_con_st_errors (w : World) :
    (do_error_con HandleType.DBIt_ST w).sth.errors =
      w.sth.errors ++ [⟨w.dbh.pdrizzle.last_errno, w.dbh.pdrizzle.last_error,
        some (w.dbh.pdrizzle.sqlstate.take 5)⟩] := rfl

theorem free_result_sets_loop_spec : ∀ (fuel : Nat) (rc : Int) (w : World),
    w.dbh.pdrizzle.pending.length < fuel →
    (free_result_sets_loop fuel rc w).2.sth.result = none ∧
    (free_result_sets_loop fuel rc w).2.dbh.errors = w.dbh.errors ∧
    ((free_result_sets_loop fuel rc w).1 = 0 ∨ (free_result_sets_loop fuel rc w).1 = 1) ∧
    (((free_result_sets_loop fuel rc w).1 = 1 ∧
        (free_result_sets_loop fuel rc w).2.sth.errors = w.sth.errors ∧
        (free_result_sets_loop fuel rc w).2.dbh.pdrizzle.pending = []) ∨
      ∃ e, (free_result_sets_loop fuel rc w).2.sth.errors = w.sth.errors ++ [e]) := by
  intro fuel
  induction fuel with
  | zero => intro rc w h; omega
  | succ fuel ih =>
    intro rc w h
    obtain ⟨hu1, hu2, hu3, hu4⟩ := free_result_sets_use_spec rc w
    obtain ⟨hr1, hr2, hr3⟩ := free_result_sets_release_spec (free_result_sets_use rc w).2
    rw [free_result_sets_loop]
    cases hb : (free_result_sets_use rc w).1 with
    | true =>
      obtain ⟨h1, e, h2⟩ := hu3 hb
      simp only [if_true]
      exact ⟨h1, hu2, Or.inl trivial, Or.inr ⟨e, h2⟩⟩
    | false =>
      have h4 := hu4 hb
      simp only [Bool.false_eq_true, if_false]
      have hpend : (free_result_sets_release (free_result_sets_use rc w).2).dbh.pdrizzle.pending =
          w.dbh.pdrizzle.pending := by rw [hr2, hu1]
      rcases drizzle_next_result_cases
        (free_result_sets_release (free_result_sets_use rc w).2).dbh.pdrizzle with
        ⟨hp, hn⟩ | ⟨r, rest, hp, hn1, hn2⟩ | ⟨r, rest, hp, hn1, hn2⟩
      · rw [hn]
        have c1 : ¬ ((-1 : Int) = 0) := by decide
        have c2 : ¬ ((-1 : Int) > 0) := by decide
        simp only [if_neg c1, if_neg c2]
        refine ⟨hr1, ?_, Or.inr trivial, Or.inl ⟨trivial, ?_, hp⟩⟩
        · show (free_result_sets_release (free_result_sets_use rc w).2).dbh.errors = _
          rw [hr2, hu2]
        · show (free_result_sets_release (free_result_sets_use rc w).2).sth.errors = _
          rw [hr3, h4]
      · have c1 : ¬ ((drizzle_next_result
            (free_result_sets_release (free_result_sets_use rc w).2).dbh.pdrizzle).1 = 0) := by
          rw [hn1]; decide
        have c2 : (drizzle_next_result
            (free_result_sets_release (free_result_sets_use rc w).2).dbh.pdrizzle).1 > 0 := by
          rw [hn1]; decide
        simp only [if_neg c1, if_pos c2]
        refine ⟨hr1, ?_, Or.inr trivial, Or.inr
          ⟨⟨(drizzle_next_result
              (free_result_sets_release (free_result_sets_use rc w).2).dbh.pdrizzle).2.last_errno,
            (drizzle_next_result
              (free_result_sets_release (free_result_sets_use rc w).2).dbh.pdrizzle).2.last_error,
            some ((drizzle_next_result
              (free_result_sets_release (free_result_sets_use rc w).2).dbh.pdrizzle).2.sqlstate.take
                5)⟩, ?_⟩⟩
        · show (free_result_sets_release (free_result_sets_use rc w).2).dbh.errors = _
          rw [hr2, hu2]
        · show (free_result_sets_release (free_result_sets_use rc w).2).sth.errors ++ _ = _
          rw [hr3, h4]
          rfl
      · simp only [if_pos hn1]
        have hlen : rest.length < fuel := by
          rw [← hpend, hp] at h
          simpa using h
        obtain ⟨i1, i2, i3, i4⟩ := ih 0
          { free_result_sets_release (free_result_sets_use rc w).2 with
            dbh := { (free_result_sets_release (free_result_sets_use rc w).2).dbh with
              pdrizzle := (drizzle_next_result
                (free_result_sets_release (free_result_sets_use rc w).2).dbh.pdrizzle).2 } }
          (by show (drizzle_next_result _).2.pending.length < fuel
              rw [hn2]; exact hlen)
        refine ⟨i1, ?_, i3, ?_⟩
        · rw [i2]
          show (free_result_sets_release (free_result_sets_use rc w).2).dbh.errors = _
          rw [hr2, hu2]
        · have he : (free_result_sets_release (free_result_sets_use rc w).2).sth.errors =
              w.sth.errors := by rw [hr3, h4]
          rcases i4 with ⟨j1, j2, j3⟩ | ⟨e, j⟩
          · exact Or.inl ⟨j1, j2.trans he, j3⟩
          · exact Or.inr ⟨e, j.trans (by rw [← he])⟩

theorem free_result_sets_loop_fuel : ∀ (fuel fuel2 : Nat) (rc : Int) (w : World),
    w.dbh.pdrizzle.pending.length < fuel → w.dbh.pdrizzle.pending.length < fuel2 →
    free_result_sets_loop fuel rc w = free_result_sets_loop fuel2 rc w := by
  intro fuel
  induction fuel with
  | zero => intro fuel2 rc w h; omega
  | succ fuel ih =>
    intro fuel2 rc w h h2
    cases fuel2 with
    | zero => omega
    | succ fuel2 =>
      obtain ⟨hu1, -, -, -⟩ := free_result_sets_use_spec rc w
      obtain ⟨-, hr2, -⟩ := free_result_sets_release_spec (free_result_sets_use rc w).2
      have hpend : (free_result_sets_release (free_result_sets_use rc w).2).dbh.pdrizzle.pending =
          w.dbh.pdrizzle.pending := by rw [hr2, hu1]
      rw [free_result_sets_loop, free_result_sets_loop]
      by_cases hb : (free_result_sets_use rc w).1 = true
      · simp only [if_pos hb]
      · simp only [if_neg hb]
        by_cases hn : (drizzle_next_result
            (free_result_sets_release (free_result_sets_use rc w).2).dbh.pdrizzle).1 = 0
        · simp only [if_pos hn]
          rcases drizzle_next_result_cases
            (free_result_sets_release (free_result_sets_use rc w).2).dbh.pdrizzle with
            ⟨hp, hx⟩ | ⟨r, rest, hp, hn1, hn2⟩ | ⟨r, rest, hp, hn1, hn2⟩
          · rw [hx] at hn; exact absurd hn (by simp)
          · rw [hn1] at hn; exact absurd hn (by simp)
          · rw [hpend] at hp
            rw [hp] at h h2
            simp only [List.length_cons] at h h2
            apply ih
            · show (drizzle_next_result _).2.pending.length < fuel
              rw [hn2]; omega
            · show (drizzle_next_result _).2.pending.length < fuel2
              rw [hn2]; omega
        · simp only [if_neg hn]

theorem free_result_sets_use_readable (w : World) (r : Reply) (con : DRIZZLE)
    (hr : (∃ res, r = Reply.rows res) ∨ (∃ n, r = Reply.ok n))
    (hc : w.dbh.pdrizzle = install_reply con r) :
    (free_result_sets_use 0 w).1 = false := by
  unfold free_result_sets_use
  rcases hr with ⟨res, rfl⟩ | ⟨n, rfl⟩
  · simp [hc, install_reply, drizzle_use_result, drizzle_take_result]
  · simp [hc, install_reply, drizzle_use_result, drizzle_take_result]

theorem free_result_sets_loop_error (post : List Reply) (bad : Reply) (e : Nat) (m st : String)
    (hbad : bad = Reply.fail e m st ∨ ∃ fc, fc ≠ 0 ∧ bad = Reply.unreadable fc e m st) :
    ∀ (pre : List Reply) (fuel : Nat) (rc : Int) (w : World),
      (∀ r ∈ pre, (∃ res, r = Reply.rows res) ∨ (∃ n, r = Reply.ok n)) →
      w.dbh.pdrizzle.pending = pre ++ bad :: post →
      (free_result_sets_use rc w).1 = false →
      pre.length + 2 ≤ fuel →
      (free_result_sets_loop fuel rc w).1 = (if bad = Reply.fail e m st then 1 else 0) ∧
      (free_result_sets_loop fuel rc w).2.dbh.pdrizzle.pending = post ∧
      (free_result_sets_loop fuel rc w).2.sth.errors =
        w.sth.errors ++ [⟨e, m, some (st.take 5)⟩] := by
  intro pre
  induction pre with
  | nil =>
    intro fuel rc w _ hp hu hf
    obtain ⟨hu1, hu2, hu3, hu4⟩ := free_result_sets_use_spec rc w
    obtain ⟨hr1, hr2, hr3⟩ := free_result_sets_release_spec (free_result_sets_use rc w).2
    have hpend : (free_result_sets_release (free_result_sets_use rc w).2).dbh.pdrizzle.pending =
        bad :: post := by rw [hr2, hu1, hp]; rfl
    have herr : (free_result_sets_release (free_result_sets_use rc w).2).sth.errors =
        w.sth.errors := by rw [hr3, hu4 hu]
    obtain ⟨k, rfl⟩ : ∃ k, fuel = k + 2 := ⟨fuel - 2, by simp at hf; omega⟩
    rw [free_result_sets_loop]
    simp only [hu, Bool.false_eq_true, if_false]
    rcases hbad with rfl | ⟨fc, hfc, rfl⟩
    · have hn : drizzle_next_result
          (free_result_sets_release (free_result_sets_use rc w).2).dbh.pdrizzle =
          (1, install_reply { (free_result_sets_release (free_result_sets_use rc w).2).dbh.pdrizzle
            with pending := post } (Reply.fail e m st)) := by
        unfold drizzle_next_result
        rw [hpend]
      rw [hn]
      simp only [if_true]
      have c1 : ¬ ((1 : Int) = 0) := by decide
      have c2 : (1 : Int) > 0 := by decide
      simp only [if_neg c1, if_pos c2]
      refine ⟨trivial, ?_, ?_⟩
      · simp [do_error_con, do_error, install_reply]
      · rw [do_error_con_st_errors]
        simp [install_reply, herr]
    · have hn : drizzle_next_result
          (free_result_sets_release (free_result_sets_use rc w).2).dbh.pdrizzle =
          (0, install_reply { (free_result_sets_release (free_result_sets_use rc w).2).dbh.pdrizzle
            with pending := post } (Reply.unreadable fc e m st)) := by
        unfold drizzle_next_result
        rw [hpend]
      rw [hn]
      have hne : ¬ (Reply.unreadable fc e m st = Reply.fail e m st) := by simp
      simp only [if_true, if_neg hne]
      generalize free_result_sets_release (free_result_sets_use rc w).2 = w2 at herr
      rw [free_result_sets_loop]
      simp [free_result_sets_use, drizzle_use_result, drizzle_take_result, install_reply, hfc,
        do_error_con, do_error, herr]
  | cons r pre ih =>
    intro fuel rc w hpre hp hu hf
    obtain ⟨hu1, hu2, hu3, hu4⟩ := free_result_sets_use_spec rc w
    obtain ⟨hr1, hr2, hr3⟩ := free_result_sets_release_spec (free_result_sets_use rc w).2
    have hpend : (free_result_sets_release (free_result_sets_use rc w).2).dbh.pdrizzle.pending =
        r :: (pre ++ bad :: post) := by rw [hr2, hu1, hp]; rfl
    have herr : (free_result_sets_release (free_result_sets_use rc w).2).sth.errors =
        w.sth.errors := by rw [hr3, hu4 hu]
    obtain ⟨k, rfl⟩ : ∃ k, fuel = k + 1 := ⟨fuel - 1, by simp at hf; omega⟩
    have hrr := hpre r (List.mem_cons_self _ _)
    have hn : drizzle_next_result
        (free_result_sets_release (free_result_sets_use rc w).2).dbh.pdrizzle =
        (0, install_reply { (free_result_sets_release (free_result_sets_use rc w).2).dbh.pdrizzle
          with pending := pre ++ bad :: post } r) := by
      unfold drizzle_next_result
      rw [hpend]
      rcases hrr with ⟨res, rfl⟩ | ⟨n, rfl⟩ <;> rfl
    rw [free_result_sets_loop]
    simp only [hu, Bool.false_eq_true, if_false, hn, if_true]
    have := ih k 0
      { free_result_sets_release (free_result_sets_use rc w).2 with
        dbh := { (free_result_sets_release (free_result_sets_use rc w).2).dbh with
          pdrizzle := install_reply
            { (free_result_sets_release (free_result_sets_use rc w).2).dbh.pdrizzle
              with pending := pre ++ bad :: post } r } }
      (fun x hx => hpre x (List.mem_cons_of_mem _ hx))
      (by simp [install_reply_pending])
      (free_result_sets_use_readable _ r _ hrr rfl)
      (by simp at hf; omega)
    rw [herr] at this
    exact this

/-- C19, amended: `drizzle_st_free_result_sets` terminates for every
connection with finitely many pending result sets (any bound on the rounds
above their number gives the same outcome), reports at most one error, to
the statement handle, and leaves the handle without a result set; when no
error was reported it returns 1 and the connection has no pending result
set left.  An error ends the drain: when the pending replies are `pre`, all
of them result sets or OK replies, then a reply `bad` that is an error or a
result set that cannot be read, then `post`, the call reports the error of
`bad` and leaves `post` pending; it returns 0 when `bad` cannot be read and 1
when `bad` is an error reply. -/
theorem drizzle_st_free_result_sets_drain (w : World) :
    (∀ fuel : Nat, w.dbh.pdrizzle.pending.length < fuel →
      free_result_sets_loop fuel (-1) w = drizzle_st_free_result_sets w) ∧
    (drizzle_st_free_result_sets w).2.sth.result = none ∧
    (drizzle_st_free_result_sets w).2.dbh.errors = w.dbh.errors ∧
    ((drizzle_st_free_result_sets w).2.sth.errors = w.sth.errors ∨
      ∃ e, (drizzle_st_free_result_sets w).2.sth.errors = w.sth.errors ++ [e]) ∧
    ((drizzle_st_free_result_sets w).2.sth.errors = w.sth.errors →
      (drizzle_st_free_result_sets w).1 = 1 ∧
      (drizzle_st_free_result_sets w).2.dbh.pdrizzle.pending = []) ∧
    (∀ (pre post : List Reply) (bad : Reply) (e : Nat) (m st : String),
      w.dbh.pdrizzle.pending = pre ++ bad :: post →
      (∀ r ∈ pre, (∃ res, r = Reply.rows res) ∨ (∃ n, r = Reply.ok n)) →
      (bad = Reply.fail e m st ∨ ∃ fc, fc ≠ 0 ∧ bad = Reply.unreadable fc e m st) →
      (drizzle_st_free_result_sets w).2.dbh.pdrizzle.pending = post ∧
      (drizzle_st_free_result_sets w).2.sth.errors =
        w.sth.errors ++ [⟨e, m, some (st.take 5)⟩] ∧
      (drizzle_st_free_result_sets w).1 = (if bad = Reply.fail e m st then 1 else 0)) := by
  obtain ⟨s1, s2, -, s4⟩ := free_result_sets_loop_spec (w.dbh.pdrizzle.pending.length + 1) (-1) w
    (Nat.lt_succ_self _)
  refine ⟨fun fuel hf => free_result_sets_loop_fuel fuel _ (-1) w hf (Nat.lt_succ_self _),
    s1, s2, ?_, ?_, ?_⟩
  rotate_left 2
  · intro pre post bad e m st hp hpre hbad
    have hu : (free_result_sets_use (-1) w).1 = false := by
      unfold free_result_sets_use
      rw [if_neg (by decide)]
    obtain ⟨r1, r2, r3⟩ := free_result_sets_loop_error post bad e m st hbad pre
      (w.dbh.pdrizzle.pending.length + 1) (-1) w hpre hp hu
      (by rw [hp]; simp only [List.length_append, List.length_cons]; omega)
    exact ⟨r2, r3, r1⟩
  · rcases s4 with ⟨-, j2, -⟩ | ⟨e, j⟩
    · exact Or.inl j2
    · exact Or.inr ⟨e, j⟩
  · intro he
    rcases s4 with ⟨j1, -, j3⟩ | ⟨e, j⟩
    · exact ⟨j1, j3⟩
    · exfalso
      have hl := congrArg List.length (he.symm.trans j)
      simp at hl

theorem drizzle_st_free_result_sets_drain_witness :
    (drizzle_st_free_result_sets (World_multi (DRIZZLE_RES_one [])
      [Reply.rows (DRIZZLE_RES_one []), Reply.ok 3])).2.sth.errors = [] ∧
    ((drizzle_st_free_result_sets (World_multi (DRIZZLE_RES_one [])
      [Reply.rows (DRIZZLE_RES_one []), Reply.ok 3])).1 = 1 ∧
    (drizzle_st_free_result_sets (World_multi (DRIZZLE_RES_one [])
      [Reply.rows (DRIZZLE_RES_one []), Reply.ok 3])).2.dbh.pdrizzle.pending = []) ∧
    (World_multi (DRIZZLE_RES_one []) [Reply.rows (DRIZZLE_RES_one []),
      Reply.fail 1064 "syntax error" "42000", Reply.ok 3]).dbh.pdrizzle.pending =
      [Reply.rows (DRIZZLE_RES_one [])] ++ Reply.fail 1064 "syntax error" "42000" ::
        [Reply.ok 3] ∧
    ((drizzle_st_free_result_sets (World_multi (DRIZZLE_RES_one [])
      [Reply.rows (DRIZZLE_RES_one []), Reply.fail 1064 "syntax error" "42000",
        Reply.ok 3])).2.dbh.pdrizzle.pending = [Reply.ok 3] ∧
    (drizzle_st_free_result_sets (World_multi (DRIZZLE_RES_one [])
      [Reply.rows (DRIZZLE_RES_one []), Reply.fail 1064 "syntax error" "42000",
        Reply.ok 3])).2.sth.errors =
      (World_multi (DRIZZLE_RES_one []) [Reply.rows (DRIZZLE_RES_one []),
        Reply.fail 1064 "syntax error" "42000", Reply.ok 3]).sth.errors ++
        [⟨1064, "syntax error", some ("42000".take 5)⟩] ∧
    (drizzle_st_free_result_sets (World_multi (DRIZZLE_RES_one [])
      [Reply.rows (DRIZZLE_RES_one []), Reply.fail 1064 "syntax error" "42000",
        Reply.ok 3])).1 =
      (if Reply.fail 1064 "syntax error" "42000" = Reply.fail 1064 "syntax error" "42000"
        then 1 else 0)) :=
  ⟨by decide,
    (drizzle_st_free_result_sets_drain (World_multi (DRIZZLE_RES_one [])
      [Reply.rows (DRIZZLE_RES_one []), Reply.ok 3])).2.2.2.2.1 (by decide),
    by decide,
    (drizzle_st_free_result_sets_drain (World_multi (DRIZZLE_RES_one [])
      [Reply.rows (DRIZZLE_RES_one []), Reply.fail 1064 "syntax error" "42000",
        Reply.ok 3])).2.2.2.2.2 [Reply.rows (DRIZZLE_RES_one [])] [Reply.ok 3]
      (Reply.fail 1064 "syntax error" "42000") 1064 "syntax error" "42000" (by decide)
      (fun r hr => Or.inl ⟨DRIZZLE_RES_one [], by simpa using hr⟩) (Or.inl rfl)⟩

/-- C19, counterexample: the second of three result sets cannot be read
(the client is out of memory); `drizzle_st_free_result_sets` reports the
error, returns 0 and leaves the third result set pending on the connection. -/
theorem drizzle_st_free_result_sets_stops_at_error :
    (drizzle_st_free_result_sets (World_multi (DRIZZLE_RES_one [])
      [Reply.unreadable 1 2008 "out of memory" "HY000",
       Reply.rows (DRIZZLE_RES_one [[some "x".toList]])])).1 = 0 ∧
    (drizzle_st_free_result_sets (World_multi (DRIZZLE_RES_one [])
      [Reply.unreadable 1 2008 "out of memory" "HY000",
       Reply.rows (DRIZZLE_RES_one [[some "x".toList]])])).2.dbh.pdrizzle.pending =
      [Reply.rows (DRIZZLE_RES_one [[some "x".toList]])] ∧
    drizzle_more_results (drizzle_st_free_result_sets (World_multi (DRIZZLE_RES_one [])
      [Reply.unreadable 1 2008 "out of memory" "HY000",
       Reply.rows (DRIZZLE_RES_one [[some "x".toList]])])).2.dbh.pdrizzle = true ∧
    (drizzle_st_free_result_sets (World_multi (DRIZZLE_RES_one [])
      [Reply.unreadable 1 2008 "out of memory" "HY000",
       Reply.rows (DRIZZLE_RES_one [[some "x".toList]])])).2.sth.errors =
      [⟨2008, "out of memory", some "HY000"⟩] := by
  refine ⟨by decide, by decide, by decide, by decide⟩

/-! ## Fetching without a result set -/

theorem drizzle_st_free_result_sets_result (w : World) :
    (drizzle_st_free_result_sets w).2.sth.result = none :=
  (free_result_sets_loop_spec (w.dbh.pdrizzle.pending.length + 1) (-1) w
    (Nat.lt_succ_self _)).1

theorem dbd_st_finish_result (w : World) : (dbd_st_finish w).2.sth.result = none := by
  unfold dbd_st_finish
  cases hres : w.sth.result with
  | none => simp [hres]
  | some res => simpa using drizzle_st_free_result_sets_result w

theorem dbd_st_prepare_result (w : World) (statement : List Char) (attr : Option Bool) :
    (dbd_st_prepare w statement attr).2.sth.result = none := by
  unfold dbd_st_prepare
  exact drizzle_st_free_result_sets_result _

theorem dbd_st_fetch_last (w : World) (res : DRIZZLE_RES) (hres : w.sth.result = some res)
    (hrows : res.rows = []) (hp : w.dbh.pdrizzle.pending = []) :
    (dbd_st_fetch w).1 = none ∧ (dbd_st_fetch w).2.sth.result = none := by
  unfold dbd_st_fetch
  simp only [hres, drizzle_fetch_row, hrows, drizzle_more_results, hp, ne_eq, not_true_eq_false,
    if_false, List.isEmpty_nil, Bool.not_true, Bool.not_false, if_true, true_and]
  exact dbd_st_finish_result _

/-! ## Iterating over result sets -/

theorem take_result_by_flag (b : Bool) (con : DRIZZLE) :
    (if b = true then drizzle_use_result con else drizzle_store_result con) =
      drizzle_take_result b con := by
  cases b <;> rfl

theorem dbd_st_more_results_none (w : World) (hp : w.dbh.pdrizzle.pending = []) :
    dbd_st_more_results w = (0, w) := by
  unfold dbd_st_more_results
  simp [drizzle_more_results, hp]

theorem dbd_st_more_results_rows (w : World) (res : DRIZZLE_RES) (rest : List Reply)
    (hp : w.dbh.pdrizzle.pending = Reply.rows res :: rest) :
    (dbd_st_more_results w).1 = 1 ∧
    (dbd_st_more_results w).2.sth.result =
      some { res with streamed := w.sth.use_drizzle_use_result, freed := false } ∧
    (dbd_st_more_results w).2.sth.av_attr = List.replicate AV_ATTRIB_LAST none ∧
    (dbd_st_more_results w).2.sth.currow = 0 ∧
    (dbd_st_more_results w).2.sth.done_desc = 0 ∧
    (dbd_st_more_results w).2.sth.ACTIVE = true ∧
    (dbd_st_more_results w).2.sth.use_drizzle_use_result = w.sth.use_drizzle_use_result ∧
    (dbd_st_more_results w).2.sth.errors = w.sth.errors ∧
    (dbd_st_more_results w).2.dbh.pdrizzle.pending = rest := by
  unfold dbd_st_more_results
  simp only [drizzle_more_results, hp, take_result_by_flag, drizzle_next_result, install_reply,
    drizzle_take_result]
  simp

/-- C18, amended: on a handle that holds the first of three row-returning
result sets, three `dbd_st_more_results` calls return 1, 1 and 0 whatever
arrays (`a1`, `a2`) the attribute reads in between have cached.  After each
of the first two calls the handle holds the next result set, every cached
column-attribute array is empty, the current-row counter is 0 and the
described flag is cleared.  The last call finds nothing pending and leaves
the handle as it was, the arrays cached since the second call included. -/
theorem dbd_st_more_results_three (w : World) (res0 res1 res2 : DRIZZLE_RES)
    (a1 a2 : List (Option AV)) (_hres : w.sth.result = some res0)
    (hp : w.dbh.pdrizzle.pending = [Reply.rows res1, Reply.rows res2]) :
    ∃ w1 w2 : World,
      dbd_st_more_results w = (1, w1) ∧
      w1.sth.result =
        some { res1 with streamed := w.sth.use_drizzle_use_result, freed := false } ∧
      w1.sth.av_attr = List.replicate AV_ATTRIB_LAST none ∧
      w1.sth.currow = 0 ∧ w1.sth.done_desc = 0 ∧
      dbd_st_more_results { w1 with sth := { w1.sth with av_attr := a1 } } = (1, w2) ∧
      w2.sth.result =
        some { res2 with streamed := w.sth.use_drizzle_use_result, freed := false } ∧
      w2.sth.av_attr = List.replicate AV_ATTRIB_LAST none ∧
      w2.sth.currow = 0 ∧ w2.sth.done_desc = 0 ∧
      dbd_st_more_results { w2 with sth := { w2.sth with av_attr := a2 } } =
        (0, { w2 with sth := { w2.sth with av_attr := a2 } }) := by
  obtain ⟨x1, x2, x3, x4, x5, -, x7, -, x9⟩ := dbd_st_more_results_rows w res1 [Reply.rows res2] hp
  obtain ⟨y1, y2, y3, y4, y5, -, -, -, y9⟩ := dbd_st_more_results_rows
    { (dbd_st_more_results w).2 with sth := { (dbd_st_more_results w).2.sth with av_attr := a1 } }
    res2 [] x9
  refine ⟨(dbd_st_more_results w).2, (dbd_st_more_results
    { (dbd_st_more_results w).2 with
      sth := { (dbd_st_more_results w).2.sth with av_attr := a1 } }).2,
    Prod.ext x1 rfl, x2, x3, x4, x5, Prod.ext y1 rfl, ?_, y3, y4, y5,
    dbd_st_more_results_none _ y9⟩
  rw [y2]
  simp only [x7]

theorem dbd_st_more_results_three_witness :
    ∃ w1 w2 : World,
      dbd_st_more_results (World_multi (DRIZZLE_RES_one [])
        [Reply.rows (DRIZZLE_RES_one [[none]]), Reply.rows (DRIZZLE_RES_one [])]) = (1, w1) ∧
      w1.sth.result = some { (DRIZZLE_RES_one [[none]]) with streamed := false, freed := false } ∧
      w1.sth.av_attr = List.replicate AV_ATTRIB_LAST none ∧
      w1.sth.currow = 0 ∧ w1.sth.done_desc = 0 ∧
      dbd_st_more_results { w1 with sth := { w1.sth with av_attr := [] } } = (1, w2) ∧
      w2.sth.result = some { (DRIZZLE_RES_one []) with streamed := false, freed := false } ∧
      w2.sth.av_attr = List.replicate AV_ATTRIB_LAST none ∧
      w2.sth.currow = 0 ∧ w2.sth.done_desc = 0 ∧
      dbd_st_more_results { w2 with sth := { w2.sth with av_attr := [] } } =
        (0, { w2 with sth := { w2.sth with av_attr := [] } }) :=
  dbd_st_more_results_three (World_multi (DRIZZLE_RES_one [])
    [Reply.rows (DRIZZLE_RES_one [[none]]), Reply.rows (DRIZZLE_RES_one [])])
    (DRIZZLE_RES_one []) (DRIZZLE_RES_one [[none]]) (DRIZZLE_RES_one []) [] [] rfl rfl

/-- C18, counterexample: three result sets, the NULLABLE attribute is read
while the handle is on the third one; the `dbd_st_more_results` call that
follows returns 0 and the array cached for NULLABLE is still there. -/
theorem dbd_st_more_results_last_keeps_cache :
    (dbd_st_more_results (dbd_st_FETCH_internal attrib_sv_nullable
      (dbd_st_more_results (dbd_st_more_results (World_multi (DRIZZLE_RES_one [])
        [Reply.rows (DRIZZLE_RES_one []), Reply.rows (DRIZZLE_RES_one [])])).2).2
      AV_ATTRIB_NULLABLE
      (dbd_st_more_results (dbd_st_more_results (World_multi (DRIZZLE_RES_one [])
        [Reply.rows (DRIZZLE_RES_one []), Reply.rows (DRIZZLE_RES_one [])])).2).2.sth.result
      true).2).1 = 0 ∧
    (dbd_st_more_results (dbd_st_FETCH_internal attrib_sv_nullable
      (dbd_st_more_results (dbd_st_more_results (World_multi (DRIZZLE_RES_one [])
        [Reply.rows (DRIZZLE_RES_one []), Reply.rows (DRIZZLE_RES_one [])])).2).2
      AV_ATTRIB_NULLABLE
      (dbd_st_more_results (dbd_st_more_results (World_multi (DRIZZLE_RES_one [])
        [Reply.rows (DRIZZLE_RES_one []), Reply.rows (DRIZZLE_RES_one [])])).2).2.sth.result
      true).2).2.sth.av_attr.getD 6 none = some [some ⟨['1'], false⟩] ∧
    (dbd_st_more_results (dbd_st_more_results (World_multi (DRIZZLE_RES_one [])
        [Reply.rows (DRIZZLE_RES_one []), Reply.rows (DRIZZLE_RES_one [])])).2).1 = 1 := by
  refine ⟨by decide, by decide, by decide⟩

/-! ## Submitting the statement -/

theorem drizzle_real_query_log (srv : Server) (con : DRIZZLE) (q : List Char) :
    (drizzle_real_query srv con q).2.1.queries = srv.queries ++ [q] := by
  unfold drizzle_real_query
  by_cases hc : (!con.connected) = true
  · simp only [hc, if_true]
  · simp only [hc, if_false]
    cases srv.answers with
    | nil => rfl
    | cons a rest =>
      cases a with
      | nil => rfl
      | cons r rs => cases r <;> rfl

theorem real_query_log (w : World) (sbuf : List Char) :
    (real_query w sbuf).2.srv.queries = w.srv.queries ++ [sbuf] :=
  drizzle_real_query_log w.srv w.dbh.pdrizzle sbuf

theorem drizzle_connect_queries (srv : Server) (con : DRIZZLE) (args : connect_args) :
    (drizzle_connect srv con args).2.1.queries = srv.queries := by
  unfold drizzle_connect
  cases srv.logins with
  | nil => rfl
  | cons l rest =>
    cases l with
    | none => rfl
    | some e => rfl

theorem drizzle_dr_connect_queries (w : World)
    (drizzle_socket host port user password dbname : Option (List Char)) :
    (drizzle_dr_connect w drizzle_socket host port user password dbname).2.srv.queries =
      w.srv.queries := by
  unfold drizzle_dr_connect
  exact drizzle_connect_queries _ _ _

theorem my_login_queries (w : World) : (my_login w).2.srv.queries = w.srv.queries := by
  unfold my_login
  split_ifs
  · rfl
  · rfl
  · cases w.dbh.imp_data_hv with
    | none => rfl
    | some hv => exact drizzle_dr_connect_queries _ _ _ _ _ _ _

theorem drizzle_db_reconnect_off (w : World)
    (h : w.dbh.pdrizzle.last_errno ≠ CR_SERVER_GONE_ERROR ∨ w.dbh.AutoCommit = false ∨
      w.dbh.auto_reconnect = false) :
    drizzle_db_reconnect w = (false, w) := by
  unfold drizzle_db_reconnect
  by_cases he : w.dbh.pdrizzle.last_errno ≠ CR_SERVER_GONE_ERROR
  · rw [if_pos he]
  · rw [if_neg he]
    have h2 : (!w.dbh.AutoCommit) = true ∨ (!w.dbh.auto_reconnect) = true := by
      rcases h with h | h | h
      · exact absurd h he
      · exact Or.inl (by rw [h]; rfl)
      · exact Or.inr (by rw [h]; rfl)
    rw [if_pos h2]

theorem drizzle_db_reconnect_on (w : World)
    (he : w.dbh.pdrizzle.last_errno = CR_SERVER_GONE_ERROR) (ha : w.dbh.AutoCommit = true)
    (hr : w.dbh.auto_reconnect = true) :
    (drizzle_db_reconnect w).1 =
      (my_login { w with dbh := { w.dbh with pdrizzle := DRIZZLE_zero } }).1 ∧
    (drizzle_db_reconnect w).2.srv.queries = w.srv.queries := by
  unfold drizzle_db_reconnect
  have h1 : ¬ (w.dbh.pdrizzle.last_errno ≠ CR_SERVER_GONE_ERROR) := fun h => h he
  have h2 : ¬ ((!w.dbh.AutoCommit) = true ∨ (!w.dbh.auto_reconnect) = true) := by
    rw [ha, hr]; decide
  rw [if_neg h1, if_neg h2]
  cases hm : (my_login { w with dbh := { w.dbh with pdrizzle := DRIZZLE_zero } }).1 with
  | false =>
    simp only [hm, Bool.not_false, if_true, true_and]
    have := my_login_queries { w with dbh := { w.dbh with pdrizzle := DRIZZLE_zero } }
    simpa [do_error_con, do_error] using this
  | true =>
    simp only [hm, Bool.not_true, Bool.false_eq_true, if_false, true_and]
    exact my_login_queries { w with dbh := { w.dbh with pdrizzle := DRIZZLE_zero } }

theorem drizzle_db_reconnect_queries (w : World) :
    (drizzle_db_reconnect w).2.srv.queries = w.srv.queries := by
  by_cases h : w.dbh.pdrizzle.last_errno ≠ CR_SERVER_GONE_ERROR ∨ w.dbh.AutoCommit = false ∨
      w.dbh.auto_reconnect = false
  · rw [drizzle_db_reconnect_off w h]
  · have he : w.dbh.pdrizzle.last_errno = CR_SERVER_GONE_ERROR := by
      by_contra hx; exact h (Or.inl hx)
    have ha : w.dbh.AutoCommit = true := by
      cases hx : w.dbh.AutoCommit with
      | false => exact absurd (Or.inr (Or.inl hx)) h
      | true => rfl
    have hr : w.dbh.auto_reconnect = true := by
      cases hx : w.dbh.auto_reconnect with
      | false => exact absurd (Or.inr (Or.inr hx)) h
      | true => rfl
    exact (drizzle_db_reconnect_on w he ha hr).2

theorem execute_query_sent (w : World) (sbuf : List Char) (h : (real_query w sbuf).1 = 0) :
    execute_query w sbuf = (false, (real_query w sbuf).2) := by
  unfold execute_query
  simp only [h, ne_eq, not_true_eq_false, if_false]

theorem execute_query_no_retry (w : World) (sbuf : List Char) (h : (real_query w sbuf).1 ≠ 0)
    (hr : (drizzle_db_reconnect (real_query w sbuf).2).1 = false) :
    execute_query w sbuf = (true, (drizzle_db_reconnect (real_query w sbuf).2).2) := by
  unfold execute_query
  simp only [h, ne_eq, not_false_eq_true, if_true, hr, Bool.not_false]

theorem execute_query_retry (w : World) (sbuf : List Char) (h : (real_query w sbuf).1 ≠ 0)
    (hr : (drizzle_db_reconnect (real_query w sbuf).2).1 = true) :
    execute_query w sbuf =
      ((real_query (drizzle_db_reconnect (real_query w sbuf).2).2 sbuf).1 != 0,
        (real_query (drizzle_db_reconnect (real_query w sbuf).2).2 sbuf).2) := by
  unfold execute_query
  simp only [h, ne_eq, not_false_eq_true, if_true, hr, Bool.not_true, Bool.false_eq_true,
    if_false]

theorem execute_query_log (w : World) (sbuf : List Char) :
    (((real_query w sbuf).1 ≠ 0 ∧ (drizzle_db_reconnect (real_query w sbuf).2).1 = true) →
      (execute_query w sbuf).2.srv.queries = w.srv.queries ++ [sbuf, sbuf]) ∧
    (¬ ((real_query w sbuf).1 ≠ 0 ∧ (drizzle_db_reconnect (real_query w sbuf).2).1 = true) →
      (execute_query w sbuf).2.srv.queries = w.srv.queries ++ [sbuf]) := by
  constructor
  · rintro ⟨h, hr⟩
    rw [execute_query_retry w sbuf h hr]
    show (real_query _ sbuf).2.srv.queries = _
    rw [real_query_log, drizzle_db_reconnect_queries, real_query_log, List.append_assoc]
    rfl
  · intro hn
    by_cases h : (real_query w sbuf).1 = 0
    · rw [execute_query_sent w sbuf h]
      exact real_query_log w sbuf
    · have hr : (drizzle_db_reconnect (real_query w sbuf).2).1 = false := by
        cases hx : (drizzle_db_reconnect (real_query w sbuf).2).1 with
        | false => rfl
        | true => exact absurd ⟨h, hx⟩ hn
      rw [execute_query_no_retry w sbuf h hr]
      show (drizzle_db_reconnect _).2.srv.queries = _
      rw [drizzle_db_reconnect_queries, real_query_log]

theorem execute_result_spec (h : HandleType) (w : World) (use_result : Bool) :
    (execute_result h w use_result).2.2.srv = w.srv ∧
    (execute_result h w use_result).2.1 = (drizzle_take_result use_result w.dbh.pdrizzle).1 ∧
    (execute_result h w use_result).2.2.dbh.pdrizzle =
      (drizzle_take_result use_result w.dbh.pdrizzle).2 ∧
    (execute_result h w use_result).1 =
      match (drizzle_take_result use_result w.dbh.pdrizzle).1 with
      | none => (drizzle_take_result use_result w.dbh.pdrizzle).2.affected_rows
      | some res => res.num_rows := by
  unfold execute_result
  simp only [take_result_by_flag]
  split_ifs <;> simp [do_error_con, do_error_srv, do_error_pdrizzle]

theorem internal_execute_failed (to_bool : Nat → Nat) (escape : List Char → List Char)
    (h : HandleType) (w : World) (statement : List Char) (num_params : Nat)
    (params : List imp_sth_ph_t) (result : Option DRIZZLE_RES) (use_result : Bool)
    (hl : is_listfields (execute_text escape statement num_params params
      (to_bool w.dbh.bind_type_guessing)) = false)
    (hs : (execute_query w (execute_text escape statement num_params params
      (to_bool w.dbh.bind_type_guessing))).1 = true) :
    drizzle_st_internal_execute to_bool escape h w statement num_params params result
      use_result =
      (EXECUTE_FAILED, result,
        if num_params = 0 then params
          else parse_params_types params num_params (to_bool w.dbh.bind_type_guessing),
        do_error_con h (execute_query w (execute_text escape statement num_params params
          (to_bool w.dbh.bind_type_guessing))).2) := by
  unfold drizzle_st_internal_execute
  simp only [hl, Bool.false_eq_true, if_false, hs, if_true]

theorem internal_execute_sent (to_bool : Nat → Nat) (escape : List Char → List Char)
    (h : HandleType) (w : World) (statement : List Char) (num_params : Nat)
    (params : List imp_sth_ph_t) (result : Option DRIZZLE_RES) (use_result : Bool)
    (hl : is_listfields (execute_text escape statement num_params params
      (to_bool w.dbh.bind_type_guessing)) = false)
    (hs : (execute_query w (execute_text escape statement num_params params
      (to_bool w.dbh.bind_type_guessing))).1 = false) :
    (drizzle_st_internal_execute to_bool escape h w statement num_params params result
      use_result).1 =
      (execute_result h (execute_query w (execute_text escape statement num_params params
        (to_bool w.dbh.bind_type_guessing))).2 use_result).1 ∧
    (drizzle_st_internal_execute to_bool escape h w statement num_params params result
      use_result).2.1 =
      (execute_result h (execute_query w (execute_text escape statement num_params params
        (to_bool w.dbh.bind_type_guessing))).2 use_result).2.1 ∧
    (drizzle_st_internal_execute to_bool escape h w statement num_params params result
      use_result).2.2.2 =
      (execute_result h (execute_query w (execute_text escape statement num_params params
        (to_bool w.dbh.bind_type_guessing))).2 use_result).2.2 := by
  unfold drizzle_st_internal_execute
  simp only [hl, Bool.false_eq_true, if_false, hs, and_self]

theorem internal_execute_srv (to_bool : Nat → Nat) (escape : List Char → List Char)
    (h : HandleType) (w : World) (statement : List Char) (num_params : Nat)
    (params : List imp_sth_ph_t) (result : Option DRIZZLE_RES) (use_result : Bool)
    (hl : is_listfields (execute_text escape statement num_params params
      (to_bool w.dbh.bind_type_guessing)) = false) :
    (drizzle_st_internal_execute to_bool escape h w statement num_params params result
      use_result).2.2.2.srv =
      (execute_query w (execute_text escape statement num_params params
        (to_bool w.dbh.bind_type_guessing))).2.srv := by
  cases hs : (execute_query w (execute_text escape statement num_params params
      (to_bool w.dbh.bind_type_guessing))).1 with
  | true =>
    rw [internal_execute_failed to_bool escape h w statement num_params params result
      use_result hl hs]
    exact do_error_srv _ _ _ _ _
  | false =>
    rw [(internal_execute_sent to_bool escape h w statement num_params params result
      use_result hl hs).2.2]
    exact (execute_result_spec _ _ _).1

theorem drizzle_take_result_streamed (b : Bool) (con : DRIZZLE) (res : DRIZZLE_RES)
    (h : (drizzle_take_result b con).1 = some res) : res.streamed = b := by
  unfold drizzle_take_result at h
  split at h
  · simp only [Option.some.injEq] at h
    rw [← h]
  · cases h
  · cases h

/-- C16: when the submission of the statement succeeds,
`drizzle_st_internal_execute` takes the result set with `drizzle_use_result`
(streaming) when use_drizzle_use_result is true and with
`drizzle_store_result` (buffering) otherwise; it returns the number of rows of
the result set when the connection yields one, and the affected-row count of
the connection otherwise. -/
theorem drizzle_st_internal_execute_rows (to_bool : Nat → Nat)
    (escape : List Char → List Char) (h : HandleType) (w : World) (statement : List Char)
    (num_params : Nat) (params : List imp_sth_ph_t) (result : Option DRIZZLE_RES)
    (use_result : Bool) (sbuf : List Char)
    (hs : sbuf = execute_text escape statement num_params params
      (to_bool w.dbh.bind_type_guessing))
    (hl : is_listfields sbuf = false) (hsent : (execute_query w sbuf).1 = false) :
    (drizzle_st_internal_execute to_bool escape h w statement num_params params result
      use_result).2.1 =
      (if use_result = true then drizzle_use_result (execute_query w sbuf).2.dbh.pdrizzle
        else drizzle_store_result (execute_query w sbuf).2.dbh.pdrizzle).1 ∧
    (∀ res : DRIZZLE_RES,
      (drizzle_st_internal_execute to_bool escape h w statement num_params params result
        use_result).2.1 = some res →
      (drizzle_st_internal_execute to_bool escape h w statement num_params params result
        use_result).1 = res.num_rows ∧ res.streamed = use_result) ∧
    ((drizzle_st_internal_execute to_bool escape h w statement num_params params result
        use_result).2.1 = none →
      (drizzle_st_internal_execute to_bool escape h w statement num_params params result
        use_result).1 =
      (drizzle_st_internal_execute to_bool escape h w statement num_params params result
        use_result).2.2.2.dbh.pdrizzle.affected_rows) := by
  subst hs
  obtain ⟨e1, e2, e3⟩ := internal_execute_sent to_bool escape h w statement num_params params
    result use_result hl hsent
  obtain ⟨-, r2, r3, r4⟩ := execute_result_spec h (execute_query w (execute_text escape statement
    num_params params (to_bool w.dbh.bind_type_guessing))).2 use_result
  rw [e1, e2, e3, r2, r3, r4, take_result_by_flag]
  refine ⟨rfl, ?_, ?_⟩
  · intro res hres
    rw [hres]
    exact ⟨rfl, drizzle_take_result_streamed _ _ _ hres⟩
  · intro hnone
    rw [hnone]

theorem drizzle_st_internal_execute_rows_witness :
    "SELECT 1".toList = execute_text drizzle_escape_string "SELECT 1".toList 0 []
      (id (World_connected "SELECT 1".toList [] 0
        [[Reply.rows (DRIZZLE_RES_one [[some "1".toList]])]]).dbh.bind_type_guessing) ∧
    is_listfields "SELECT 1".toList = false ∧
    (execute_query (World_connected "SELECT 1".toList [] 0
      [[Reply.rows (DRIZZLE_RES_one [[some "1".toList]])]]) "SELECT 1".toList).1 = false ∧
    (drizzle_st_internal_execute id drizzle_escape_string HandleType.DBIt_ST
      (World_connected "SELECT 1".toList [] 0
        [[Reply.rows (DRIZZLE_RES_one [[some "1".toList]])]])
      "SELECT 1".toList 0 [] none true).1 = 1 :=
  ⟨by decide, by decide, by decide,
    ((drizzle_st_internal_execute_rows id drizzle_escape_string HandleType.DBIt_ST
      (World_connected "SELECT 1".toList [] 0
        [[Reply.rows (DRIZZLE_RES_one [[some "1".toList]])]])
      "SELECT 1".toList 0 [] none true "SELECT 1".toList (by decide) (by decide)
      (by decide)).2.1 { (DRIZZLE_RES_one [[some "1".toList]]) with streamed := true }
        (by decide)).1.trans (by decide)⟩

/-! ## Type guessing -/

theorem parse_number_whole (s : List Char) (h : (parse_number s s.length).1 = 0) :
    s.take (parse_number s s.length).2 = s := by
  cases s with
  | nil => simp
  | cons c rest =>
    apply List.take_of_length_le
    simp only [parse_number] at h ⊢
    have hlen : ¬ ((c :: rest).length ≤ 0) := by simp
    rw [if_neg hlen] at h
    by_contra hx
    rw [if_pos (by omega)] at h
    exact absurd h (by decide)

theorem parse_params_guess_untyped (g : Nat) (sv : SV) (hok : sv.ok = true) :
    parse_params_guess g ⟨some sv, 0⟩ =
      ⟨some sv,
        if g > 1 then
          (if (parse_number sv.pv sv.pv.length).1 ≠ 0 then SQL_VARCHAR else SQL_INTEGER)
        else if g ≠ 0 then (if sv.niok = true then SQL_INTEGER else SQL_VARCHAR)
        else SQL_VARCHAR⟩ := by
  unfold parse_params_guess
  simp only [hok, Bool.not_true, Bool.false_eq_true, if_false, ne_eq, not_true_eq_false]
  split_ifs <;> rfl

theorem parse_params_value_guessed (escape : List Char → List Char) (g : Nat) (sv : SV)
    (hok : sv.ok = true) :
    parse_params_value escape (parse_params_guess g ⟨some sv, 0⟩) false =
      if g > 1 then
        (if (parse_number sv.pv sv.pv.length).1 = 0 then sv.pv
          else SQUOTE :: (escape sv.pv ++ [SQUOTE]))
      else if g ≠ 0 then
        (if sv.niok = true then sv.pv.take (parse_number sv.pv sv.pv.length).2
          else SQUOTE :: (escape sv.pv ++ [SQUOTE]))
      else SQUOTE :: (escape sv.pv ++ [SQUOTE]) := by
  rw [parse_params_guess_untyped g sv hok]
  have hnum : ∀ t, is_num_type t = true →
      parse_params_value escape ⟨some sv, t⟩ false =
        sv.pv.take (parse_number sv.pv sv.pv.length).2 := fun t ht =>
    parse_params_value_numeric escape ⟨some sv, t⟩ sv false rfl hok (by simp [ht])
  have hstr : ∀ t, is_num_type t = false →
      parse_params_value escape ⟨some sv, t⟩ false = SQUOTE :: (escape sv.pv ++ [SQUOTE]) :=
    fun t ht => parse_params_value_string escape ⟨some sv, t⟩ sv rfl hok ht
  by_cases h1 : g > 1
  · simp only [if_pos h1]
    by_cases h2 : (parse_number sv.pv sv.pv.length).1 = 0
    · rw [if_neg (not_not.2 h2), if_pos h2, hnum _ (by decide), parse_number_whole _ h2]
    · rw [if_pos h2, if_neg h2, hstr _ (by decide)]
  · simp only [if_neg h1]
    by_cases h3 : g ≠ 0
    · simp only [if_pos h3]
      by_cases h4 : sv.niok = true
      · rw [if_pos h4, if_pos h4, hnum _ (by decide)]
      · rw [if_neg h4, if_neg h4, hstr _ (by decide)]
    · simp only [if_neg h3]
      exact hstr _ (by decide)

theorem execute_text_rewritten (escape : List Char → List Char) (statement : List Char)
    (num_params : Nat) (params : List imp_sth_ph_t) (g : Nat) (hn : 1 ≤ num_params) :
    execute_text escape statement num_params params g =
      Spec.rewritten escape statement params num_params g := by
  unfold execute_text
  rw [parse_params_eq escape statement params num_params g hn]
  simp

theorem internal_execute_log (to_bool : Nat → Nat)
    (escape : List Char → List Char) (h : HandleType) (w : World) (statement : List Char)
    (num_params : Nat) (params : List imp_sth_ph_t) (result : Option DRIZZLE_RES)
    (use_result : Bool) (sbuf : List Char)
    (hs : sbuf = execute_text escape statement num_params params
      (to_bool w.dbh.bind_type_guessing))
    (hl : is_listfields sbuf = false) :
    (drizzle_st_internal_execute to_bool escape h w statement num_params params result
        use_result).2.2.2.srv.queries = w.srv.queries ++ [sbuf] ∨
      (drizzle_st_internal_execute to_bool escape h w statement num_params params result
        use_result).2.2.2.srv.queries = w.srv.queries ++ [sbuf, sbuf] := by
  subst hs
  rw [internal_execute_srv to_bool escape h w statement num_params params result use_result hl]
  obtain ⟨hlog2, hlog1⟩ := execute_query_log w (execute_text escape statement num_params params
    (to_bool w.dbh.bind_type_guessing))
  by_cases hc : (real_query w (execute_text escape statement num_params params
      (to_bool w.dbh.bind_type_guessing))).1 ≠ 0 ∧
      (drizzle_db_reconnect (real_query w (execute_text escape statement num_params params
        (to_bool w.dbh.bind_type_guessing))).2).1 = true
  · exact Or.inr (hlog2 hc)
  · exact Or.inl (hlog1 hc)

/-- C11, amended: for a slot with a defined value and no declared type whose
placeholder is not in LIMIT state, and a `bool` type that keeps the value of
the setting (the `char` of the Perl headers), the statement
`drizzle_st_internal_execute` submits has in place of the placeholder: with a
setting above 1 (strict) the value unquoted if `parse_number` returns 0 for
it and the quoted escaped value otherwise; with the setting 1 (loose) the
numeric start of the value unquoted if the value has a numeric native
representation and the quoted escaped value otherwise; with the setting 0
the quoted escaped value.  The statement submitted, once or twice, is the
weave of the segments of the statement and the replacement texts. -/
theorem drizzle_st_internal_execute_type_guessing (to_bool : Nat → Nat)
    (escape : List Char → List Char) (h : HandleType) (w : World) (statement : List Char)
    (num_params : Nat) (params : List imp_sth_ph_t) (result : Option DRIZZLE_RES)
    (use_result : Bool) (k : Nat) (sv : SV)
    (hn : 1 ≤ num_params) (hlen : params.length = num_params)
    (hb : to_bool w.dbh.bind_type_guessing = w.dbh.bind_type_guessing)
    (hk : params[k]? = some ⟨some sv, 0⟩) (hok : sv.ok = true)
    (hf : (Spec.flags (Spec.scan (statement.dropWhile isspace)))[k]? = some false)
    (hl : is_listfields (Spec.weave (Spec.segments (Spec.scan (statement.dropWhile isspace)))
      (Spec.replacements escape statement params num_params w.dbh.bind_type_guessing)) =
        false) :
    ((drizzle_st_internal_execute to_bool escape h w statement num_params params result
        use_result).2.2.2.srv.queries = w.srv.queries ++
        [Spec.weave (Spec.segments (Spec.scan (statement.dropWhile isspace)))
          (Spec.replacements escape statement params num_params w.dbh.bind_type_guessing)] ∨
      (drizzle_st_internal_execute to_bool escape h w statement num_params params result
        use_result).2.2.2.srv.queries = w.srv.queries ++
        [Spec.weave (Spec.segments (Spec.scan (statement.dropWhile isspace)))
          (Spec.replacements escape statement params num_params w.dbh.bind_type_guessing),
         Spec.weave (Spec.segments (Spec.scan (statement.dropWhile isspace)))
          (Spec.replacements escape statement params num_params w.dbh.bind_type_guessing)]) ∧
    (Spec.replacements escape statement params num_params w.dbh.bind_type_guessing)[k]? =
      some (
        if w.dbh.bind_type_guessing > 1 then
          (if (parse_number sv.pv sv.pv.length).1 = 0 then sv.pv
            else SQUOTE :: (escape sv.pv ++ [SQUOTE]))
        else if w.dbh.bind_type_guessing ≠ 0 then
          (if sv.niok = true then sv.pv.take (parse_number sv.pv sv.pv.length).2
            else SQUOTE :: (escape sv.pv ++ [SQUOTE]))
        else SQUOTE :: (escape sv.pv ++ [SQUOTE])) := by
  have htext : execute_text escape statement num_params params
      (to_bool w.dbh.bind_type_guessing) =
      Spec.weave (Spec.segments (Spec.scan (statement.dropWhile isspace)))
        (Spec.replacements escape statement params num_params w.dbh.bind_type_guessing) := by
    rw [hb, execute_text_rewritten escape statement num_params params _ hn]
    rfl
  constructor
  · exact (internal_execute_log to_bool escape h w statement num_params
      params result use_result _ htext.symm hl)
  · have hklt : k < num_params := by
      rw [← hlen]
      exact (List.getElem?_eq_some.1 hk).1
    have hget : params.getD k ⟨none, 0⟩ = ⟨some sv, 0⟩ := by
      rw [List.getD_eq_getElem?_getD, hk]; rfl
    rw [replacements_getElem? escape statement params num_params _ k hlen, hf]
    simp only [Option.map_some', if_pos hklt, hget]
    rw [parse_params_value_guessed escape _ sv hok]

theorem drizzle_st_internal_execute_type_guessing_witness :
    (Spec.flags (Spec.scan ("SELECT ?".toList.dropWhile isspace)))[0]? = some false ∧
    (Spec.replacements drizzle_escape_string "SELECT ?".toList
      [⟨some ⟨true, false, "12".toList⟩, 0⟩] 1
      (World_connected "SELECT ?".toList [⟨some ⟨true, false, "12".toList⟩, 0⟩] 2
        [[Reply.ok 0]]).dbh.bind_type_guessing)[0]? = some "12".toList ∧
    (drizzle_st_internal_execute id drizzle_escape_string HandleType.DBIt_ST
      (World_connected "SELECT ?".toList [⟨some ⟨true, false, "12".toList⟩, 0⟩] 2 [[Reply.ok 0]])
      "SELECT ?".toList 1 [⟨some ⟨true, false, "12".toList⟩, 0⟩] none false).2.2.2.srv.queries =
      ["SELECT 12".toList] :=
  ⟨by decide,
    (drizzle_st_internal_execute_type_guessing id drizzle_escape_string HandleType.DBIt_ST
      (World_connected "SELECT ?".toList [⟨some ⟨true, false, "12".toList⟩, 0⟩] 2 [[Reply.ok 0]])
      "SELECT ?".toList 1 [⟨some ⟨true, false, "12".toList⟩, 0⟩] none false 0
      ⟨true, false, "12".toList⟩ (by decide) rfl rfl rfl rfl (by decide) (by decide)).2.trans
      (by decide),
    by decide⟩

/-- C11, counterexample: type guessing is off and the value 10 has no declared
type and no numeric native representation; behind `LIMIT ?` the statement
submitted has it without quotes. -/
theorem drizzle_st_internal_execute_limit_unquoted :
    (World_connected "SELECT a FROM t LIMIT ?".toList
      [⟨some ⟨true, false, "10".toList⟩, 0⟩] 0 [[Reply.ok 0]]).dbh.bind_type_guessing = 0 ∧
    (drizzle_st_internal_execute id drizzle_escape_string HandleType.DBIt_ST
      (World_connected "SELECT a FROM t LIMIT ?".toList
        [⟨some ⟨true, false, "10".toList⟩, 0⟩] 0 [[Reply.ok 0]])
      "SELECT a FROM t LIMIT ?".toList 1 [⟨some ⟨true, false, "10".toList⟩, 0⟩] none
      false).2.2.2.srv.queries = ["SELECT a FROM t LIMIT 10".toList] ∧
    (drizzle_st_internal_execute id drizzle_escape_string HandleType.DBIt_ST
      (World_connected "SELECT a FROM t WHERE b = ?".toList
        [⟨some ⟨true, false, "10".toList⟩, 0⟩] 0 [[Reply.ok 0]])
      "SELECT a FROM t WHERE b = ?".toList 1 [⟨some ⟨true, false, "10".toList⟩, 0⟩] none
      false).2.2.2.srv.queries =
      ["SELECT a FROM t WHERE b = ".toList ++ [SQUOTE, '1', '0', SQUOTE]] := by
  refine ⟨rfl, by decide, by decide⟩

/-! ## The type catalogue -/

/-- C26: `native2sql` is total, and for the wire types VARCHAR, NEWDECIMAL,
TINY, LONG, DOUBLE, TIMESTAMP, LONGLONG, TIME and DATETIME the record it
returns has that wire type as `native_type`; every wire type without a case
gets the `varchar` record.  For ENUM it returns element 14 of the array,
which is the `blob` record (native type BLOB, not ENUM), and for BLOB
element 15, the `tinyblob` record (SQL_VARBINARY, size 255): the `enum` and
`blob` records are the elements 13 and 14.  The enumerators are taken to have
different values. -/
theorem native2sql_records (wt : enum_field_types) (h : (native2sql_cases wt).Nodup) :
    (native2sql wt wt.DRIZZLE_TYPE_ENUM).type_name = "blob" ∧
    (native2sql wt wt.DRIZZLE_TYPE_ENUM).native_type = wt.DRIZZLE_TYPE_BLOB ∧
    (native2sql wt wt.DRIZZLE_TYPE_ENUM).native_type ≠ wt.DRIZZLE_TYPE_ENUM ∧
    (native2sql wt wt.DRIZZLE_TYPE_BLOB).type_name = "tinyblob" ∧
    (native2sql wt wt.DRIZZLE_TYPE_BLOB).data_type = SQL_VARBINARY ∧
    (native2sql wt wt.DRIZZLE_TYPE_BLOB).column_size = 255 ∧
    (SQL_GET_TYPE_INFO_at wt 13).type_name = "enum" ∧
    (SQL_GET_TYPE_INFO_at wt 13).native_type = wt.DRIZZLE_TYPE_ENUM ∧
    (SQL_GET_TYPE_INFO_at wt 14).type_name = "blob" ∧
    (SQL_GET_TYPE_INFO_at wt 14).data_type = SQL_LONGVARBINARY ∧
    (SQL_GET_TYPE_INFO_at wt 14).column_size = 65535 ∧
    (∀ t : Int, t ∈ (native2sql_cases wt).take 9 → (native2sql wt t).native_type = t) ∧
    (∀ t : Int, t ∉ native2sql_cases wt →
      native2sql wt t = SQL_GET_TYPE_INFO_at wt 0 ∧ (native2sql wt t).type_name = "varchar") := by
  simp only [native2sql_cases, List.nodup_cons, List.mem_cons, List.mem_singleton, not_or,
    List.not_mem_nil, not_false_eq_true, List.nodup_nil, and_true] at h
  obtain ⟨⟨a1, a2, a3, a4, a5, a6, a7, a8, a9, a10⟩, ⟨b2, b3, b4, b5, b6, b7, b8, b9, b10⟩,
    ⟨c3, c4, c5, c6, c7, c8, c9, c10⟩, ⟨d4, d5, d6, d7, d8, d9, d10⟩,
    ⟨e5, e6, e7, e8, e9, e10⟩, ⟨f6, f7, f8, f9, f10⟩, ⟨g7, g8, g9, g10⟩, ⟨h8, h9, h10⟩,
    ⟨i9, i10⟩, j10⟩ := h
  have hE : native2sql wt wt.DRIZZLE_TYPE_ENUM = SQL_GET_TYPE_INFO_at wt 14 := by
    unfold native2sql
    simp [Ne.symm a9, Ne.symm b9, Ne.symm c9, Ne.symm d9, Ne.symm e9, Ne.symm f9, Ne.symm g9,
      Ne.symm h9, Ne.symm i9]
  have hB : native2sql wt wt.DRIZZLE_TYPE_BLOB = SQL_GET_TYPE_INFO_at wt 15 := by
    unfold native2sql
    simp [Ne.symm a10, Ne.symm b10, Ne.symm c10, Ne.symm d10, Ne.symm e10, Ne.symm f10,
      Ne.symm g10, Ne.symm h10, Ne.symm i10, Ne.symm j10]
  refine ⟨by rw [hE]; rfl, by rw [hE]; rfl, by rw [hE]; exact Ne.symm j10, by rw [hB]; rfl,
    by rw [hB]; rfl, by rw [hB]; rfl, rfl, rfl, rfl, rfl, rfl, ?_, ?_⟩
  · intro t ht
    simp only [native2sql_cases, List.take, List.mem_cons, List.mem_singleton,
      List.not_mem_nil, or_false] at ht
    unfold native2sql
    rcases ht with r | r | r | r | r | r | r | r | r <;> subst r
    · simp; rfl
    · simp [Ne.symm a1]; rfl
    · simp [Ne.symm a2, Ne.symm b2]; rfl
    · simp [Ne.symm a3, Ne.symm b3, Ne.symm c3]; rfl
    · simp [Ne.symm a4, Ne.symm b4, Ne.symm c4, Ne.symm d4]; rfl
    · simp [Ne.symm a5, Ne.symm b5, Ne.symm c5, Ne.symm d5, Ne.symm e5]; rfl
    · simp [Ne.symm a6, Ne.symm b6, Ne.symm c6, Ne.symm d6, Ne.symm e6, Ne.symm f6]; rfl
    · simp [Ne.symm a7, Ne.symm b7, Ne.symm c7, Ne.symm d7, Ne.symm e7, Ne.symm f7,
        Ne.symm g7]; rfl
    · simp [Ne.symm a8, Ne.symm b8, Ne.symm c8, Ne.symm d8, Ne.symm e8, Ne.symm f8,
        Ne.symm g8, Ne.symm h8]; rfl
  · intro t ht
    simp only [native2sql_cases, List.mem_cons, List.mem_singleton, List.not_mem_nil, or_false,
      not_or] at ht
    obtain ⟨n1, n2, n3, n4, n5, n6, n7, n8, n9, n10, n11⟩ := ht
    have e : native2sql wt t = SQL_GET_TYPE_INFO_at wt 0 := by
      unfold native2sql
      simp [n1, n2, n3, n4, n5, n6, n7, n8, n9, n10, n11]
    exact ⟨e, by rw [e]; rfl⟩

theorem native2sql_records_witness :
    (native2sql_cases enum_field_types_example).Nodup ∧
    (native2sql enum_field_types_example
      enum_field_types_example.DRIZZLE_TYPE_ENUM).type_name = "blob" ∧
    (native2sql enum_field_types_example
      enum_field_types_example.DRIZZLE_TYPE_BLOB).type_name = "tinyblob" :=
  ⟨by decide, (native2sql_records enum_field_types_example (by decide)).1,
    (native2sql_records enum_field_types_example (by decide)).2.2.2.1⟩

/-! ## What parse_number accepts -/

theorem parse_number_end (s : List Char) (len : Nat) :
    (parse_number s len).2 = (Spec.scanned s).length := by
  simp only [parse_number, parse_number_space_eq, drop_takeWhile_length, Spec.scanned,
    List.length_append]
  by_cases hw : s.takeWhile isspace = []
  · have hd : s.dropWhile isspace = s := by
      have := List.takeWhile_append_dropWhile isspace s
      rw [hw] at this
      simpa using this
    rw [if_pos hw, hw, hd]
    simp only [List.length_nil, Nat.zero_add]
    exact parse_number_for_zero s
  · have hpos : 0 < (s.takeWhile isspace).length := List.length_pos.2 hw
    rw [if_neg hw]
    exact parse_number_for_pos _ _ false false hpos

theorem scanned_initial (s : List Char) : Spec.scanned s <+: s := by
  unfold Spec.scanned
  by_cases hw : s.takeWhile isspace = []
  · rw [if_pos hw, hw]
    simpa using leading_numeric_initial s
  · rw [if_neg hw]
    have h1 := leading_digits_initial (s.dropWhile isspace) false
    have h2 := (List.prefix_append_right_inj (s.takeWhile isspace)).2 h1
    rwa [List.takeWhile_append_dropWhile] at h2

theorem parse_number_zero_iff (s : List Char) :
    (parse_number s s.length).1 = 0 ↔ s = Spec.scanned s := by
  have hend := parse_number_end s s.length
  have hle : (Spec.scanned s).length ≤ s.length := (scanned_initial s).length_le
  cases s with
  | nil => exact ⟨fun _ => rfl, fun _ => by decide⟩
  | cons c rest =>
    have hlen : ¬ ((c :: rest).length ≤ 0) := by simp
    have h1 : (parse_number (c :: rest) (c :: rest).length).1 =
        if (parse_number (c :: rest) (c :: rest).length).2 < (c :: rest).length then -1
        else 0 := by
      simp only [parse_number, if_neg hlen]
    rw [h1, hend]
    constructor
    · intro h
      by_cases hx : (Spec.scanned (c :: rest)).length < (c :: rest).length
      · rw [if_pos hx] at h; exact absurd h (by decide)
      · exact ((scanned_initial (c :: rest)).eq_of_length (by omega)).symm
    · intro h
      rw [← h, if_neg (lt_irrefl _)]

theorem isspace_false_of_isdigit (c : Char) (h : isdigit c = true) : isspace c = false := by
  cases hs : isspace c with
  | false => rfl
  | true =>
    exfalso
    simp only [isdigit, Bool.and_eq_true, decide_eq_true_eq] at h
    simp only [isspace, Bool.or_eq_true, beq_iff_eq, Bool.and_eq_true, decide_eq_true_eq] at hs
    rcases hs with hs | hs
    · subst hs
      exact absurd h.1 (by decide)
    · omega

theorem leading_digits_body (s : List Char) :
    ∀ d : Bool, s.all (fun c => isdigit c || c == '.') = true →
      (d = true → s.count '.' = 0) → s.count '.' ≤ 1 → Spec.leading_digits d s = s := by
  induction s with
  | nil => intro d _ _ _; rfl
  | cons c rest ih =>
    intro d hall hd hc
    simp only [List.all_cons, Bool.and_eq_true, Bool.or_eq_true, beq_iff_eq] at hall
    obtain ⟨hc1, hall⟩ := hall
    simp only [Spec.leading_digits]
    by_cases hdig : isdigit c = true
    · have hne : c ≠ '.' := isdigit_ne_dot c hdig
      rw [if_pos hdig, ih d hall
        (fun h => by have := hd h; rwa [List.count_cons_of_ne (Ne.symm hne)] at this)
        (by rwa [List.count_cons_of_ne (Ne.symm hne)] at hc)]
    · have hdot : c = '.' := by
        rcases hc1 with h | h
        · exact absurd h hdig
        · exact h
      subst hdot
      rw [List.count_cons_self] at hc
      have hdf : d = false := by
        cases d with
        | false => rfl
        | true => have := hd rfl; rw [List.count_cons_self] at this; omega
      rw [if_neg hdig, if_pos ⟨rfl, hdf⟩, ih true hall (fun _ => by omega) (by omega)]

theorem scanned_of_literal (s : List Char) (h : Spec.decimal_literal s = true) :
    Spec.scanned s = s := by
  cases s with
  | nil => rfl
  | cons c rest =>
    have body : ∀ b : List Char, Spec.decimal_body b = true →
        Spec.leading_digits false b = b := by
      intro b hb
      simp only [Spec.decimal_body, Bool.and_eq_true, decide_eq_true_eq] at hb
      exact leading_digits_body b false hb.1.1 (fun hx => by cases hx) hb.1.2
    have hws : isspace c = false := by
      simp only [Spec.decimal_literal] at h
      by_cases hm : c = '-'
      · subst hm; decide
      · rw [if_neg hm] at h
        simp only [Spec.decimal_body, List.all_cons, Bool.and_eq_true, Bool.or_eq_true,
          beq_iff_eq] at h
        rcases h.1.1.1 with hd | hd
        · exact isspace_false_of_isdigit c hd
        · subst hd; decide
    have hw : (c :: rest).takeWhile isspace = [] := by
      simp [List.takeWhile, hws]
    unfold Spec.scanned
    rw [if_pos hw, hw, List.nil_append]
    simp only [Spec.decimal_literal] at h
    simp only [Spec.leading_numeric]
    by_cases hm : c = '-'
    · rw [if_pos hm] at h ⊢
      rw [body rest h]
    · rw [if_neg hm] at h ⊢
      exact body (c :: rest) h

theorem scanned_of_spaced_literal (ws lit : List Char)
    (hws : ∀ c ∈ ws, isspace c = true) (hlit : Spec.decimal_body lit = true) :
    Spec.scanned (ws ++ lit) = ws ++ lit := by
  have hb := hlit
  simp only [Spec.decimal_body, Bool.and_eq_true, decide_eq_true_eq] at hb
  obtain ⟨⟨hall, hcount⟩, hany⟩ := hb
  have hrun : Spec.leading_digits false lit = lit :=
    leading_digits_body lit false hall (fun hx => by cases hx) hcount
  cases lit with
  | nil => simp at hany
  | cons c rest =>
    have hc : isdigit c = true ∨ c = '.' := by
      simp only [List.all_cons, Bool.and_eq_true, Bool.or_eq_true, beq_iff_eq] at hall
      exact hall.1
    have hsp : isspace c = false := by
      rcases hc with hd | hd
      · exact isspace_false_of_isdigit c hd
      · subst hd; decide
    have hminus : c ≠ '-' := by
      rcases hc with hd | hd
      · exact isdigit_ne_minus c hd
      · subst hd; decide
    have htake : (ws ++ c :: rest).takeWhile isspace = ws := by
      rw [List.takeWhile_append_of_pos hws]
      simp [List.takeWhile, hsp]
    have hdrop : (ws ++ c :: rest).dropWhile isspace = c :: rest := by
      rw [List.dropWhile_append_of_pos hws]
      simp [List.dropWhile, hsp]
    unfold Spec.scanned
    rw [htake, hdrop]
    by_cases hw : ws = []
    · subst hw
      rw [if_pos rfl, List.nil_append, List.nil_append,
        leading_numeric_of_head (c :: rest) (by simpa using hminus), hrun]
    · rw [if_neg hw, hrun]

/-- C27, amended: `parse_number` returns 0 or -1.  It returns 0 for every
integer or decimal literal (an optional leading `-`, one or more digits, at
most one `.`), also for a literal without `-` behind leading whitespace, and
it returns 0 only when the whole text is what it scans over: leading
whitespace, then a `-` only at the very start of the text, then digits with
at most one `.`; for a text with any other character, a second `-` or `.`
it returns -1.  The end position lies within the text and the text up to it
is the scanned part. -/
theorem parse_number_classifies (s : List Char) (h : Spec.decimal_literal s = true) :
    (parse_number s s.length).1 = 0 ∧
    (∀ ws lit : List Char, (∀ c ∈ ws, isspace c = true) → Spec.decimal_body lit = true →
      (parse_number (ws ++ lit) (ws ++ lit).length).1 = 0) ∧
    (∀ v : List Char,
      ((parse_number v v.length).1 = 0 ∨ (parse_number v v.length).1 = -1) ∧
      ((parse_number v v.length).1 = 0 ↔ v = Spec.scanned v) ∧
      (parse_number v v.length).2 ≤ v.length ∧
      v.take (parse_number v v.length).2 = Spec.scanned v) := by
  refine ⟨(parse_number_zero_iff s).2 (scanned_of_literal s h).symm,
    fun ws lit hws hlit =>
      (parse_number_zero_iff _).2 (scanned_of_spaced_literal ws lit hws hlit).symm,
    fun v => ⟨?_, ?_, ?_, ?_⟩⟩
  · simp only [parse_number]
    split_ifs <;> simp
  · exact parse_number_zero_iff v
  · rw [parse_number_end]
    exact (scanned_initial v).length_le
  · rw [parse_number_end]
    exact (List.prefix_iff_eq_take.1 (scanned_initial v)).symm

theorem parse_number_classifies_witness :
    Spec.decimal_literal "-12.5".toList = true ∧
    (parse_number "-12.5".toList "-12.5".toList.length).1 = 0 ∧
    (parse_number "12a".toList "12a".toList.length).2 ≤ "12a".toList.length :=
  ⟨by decide, (parse_number_classifies "-12.5".toList (by decide)).1,
    ((parse_number_classifies "-12.5".toList (by decide)).2.2 "12a".toList).2.2.1⟩

/-- C27, counterexample: `parse_number` returns 0 for the empty text, for a
lone `-`, for a lone `.` and for ` 12` with its leading blank, none of which
is an integer or decimal literal. -/
theorem parse_number_accepts_no_digits :
    parse_number [] 0 = (0, 0) ∧ Spec.decimal_literal [] = false ∧
    parse_number "-".toList 1 = (0, 1) ∧ Spec.decimal_literal "-".toList = false ∧
    parse_number ".".toList 1 = (0, 1) ∧ Spec.decimal_literal ".".toList = false ∧
    parse_number " 12".toList 3 = (0, 3) ∧ Spec.decimal_literal " 12".toList = false := by
  refine ⟨by decide, by decide, by decide, by decide, by decide, by decide, by decide,
    by decide⟩

/-! ## The scanner against the rewriter -/

/-- C28: two statements without NUL for which `count_params` returns 1.  In
the first (quote, a, backslash, quote, ?, quote) `parse_params` finds no
placeholder: with one bound slot the output is the statement itself and the
slot is not consumed.  In the second (?, blank, quote, backslash, quote,
quote, blank, ?) `parse_params` finds two placeholders: the slot goes to the
first and the second `?`, met after the slots have run out, is dropped. -/
theorem count_params_parse_params_disagree :
    NUL ∉ [SQUOTE, 'a', BACKSLASH, SQUOTE, '?', SQUOTE] ∧
    count_params [SQUOTE, 'a', BACKSLASH, SQUOTE, '?', SQUOTE] = 1 ∧
    Spec.placeholders [SQUOTE, 'a', BACKSLASH, SQUOTE, '?', SQUOTE] = 0 ∧
    parse_params drizzle_escape_string [SQUOTE, 'a', BACKSLASH, SQUOTE, '?', SQUOTE]
      [⟨some ⟨true, false, ['x']⟩, SQL_VARCHAR⟩] 1 0 =
      some ([SQUOTE, 'a', BACKSLASH, SQUOTE, '?', SQUOTE], 6) ∧
    NUL ∉ ['?', ' ', SQUOTE, BACKSLASH, SQUOTE, SQUOTE, ' ', '?'] ∧
    count_params ['?', ' ', SQUOTE, BACKSLASH, SQUOTE, SQUOTE, ' ', '?'] = 1 ∧
    Spec.placeholders ['?', ' ', SQUOTE, BACKSLASH, SQUOTE, SQUOTE, ' ', '?'] = 2 ∧
    parse_params drizzle_escape_string ['?', ' ', SQUOTE, BACKSLASH, SQUOTE, SQUOTE, ' ', '?']
      [⟨some ⟨true, false, ['x']⟩, SQL_VARCHAR⟩] 1 0 =
      some ([SQUOTE, 'x', SQUOTE, ' ', SQUOTE, BACKSLASH, SQUOTE, SQUOTE, ' '], 9) := by
  refine ⟨by decide, by decide, by decide, by decide, by decide, by decide, by decide,
    by decide⟩

/-! ## Liveness of the result set -/

theorem dbd_st_more_results_fail (w : World) (e : Nat) (m st : String) (rest : List Reply)
    (hp : w.dbh.pdrizzle.pending = Reply.fail e m st :: rest) :
    (dbd_st_more_results w).1 = 0 ∧
    (dbd_st_more_results w).2.sth.result = w.sth.result.map drizzle_free_result ∧
    (dbd_st_more_results w).2.sth.errors = w.sth.errors ++ [⟨e, m, some (st.take 5)⟩] ∧
    (dbd_st_more_results w).2.sth.ChopBlanks = w.sth.ChopBlanks ∧
    (dbd_st_more_results w).2.dbh.enable_utf8 = w.dbh.enable_utf8 := by
  unfold dbd_st_more_results
  simp [drizzle_more_results, hp, drizzle_next_result, install_reply, do_error_con, do_error]

/-- C29: a handle holds a result set that is not released and has a row
left, and the next pending result is an error.  `dbd_st_more_results`
releases the result set, reports the error and returns 0 with the handle
still referring to the released result set; the `dbd_st_fetch` that follows
does not report a sequence error: it returns a row read from the released
result set. -/
theorem dbd_st_more_results_error_keeps_released (w : World) (res : DRIZZLE_RES)
    (e : Nat) (m st : String) (rest : List Reply)
    (cols : List (Option (List Char))) (more : List (List (Option (List Char))))
    (hres : w.sth.result = some res) (hlive : res.freed = false)
    (hrows : res.rows = cols :: more)
    (hp : w.dbh.pdrizzle.pending = Reply.fail e m st :: rest) :
    (dbd_st_more_results w).1 = 0 ∧
    (dbd_st_more_results w).2.sth.result = some { res with freed := true } ∧
    ({ res with freed := true } : DRIZZLE_RES).freed ≠ res.freed ∧
    (dbd_st_more_results w).2.sth.errors = w.sth.errors ++ [⟨e, m, some (st.take 5)⟩] ∧
    (dbd_st_fetch (dbd_st_more_results w).2).1 =
      some ((List.range res.num_fields).map (fun i =>
        fetch_column w.sth.ChopBlanks w.dbh.enable_utf8 (res.fields.getD i ⟨0, 0⟩)
          (cols.getD i none))) := by
  obtain ⟨h1, h2, h3, h4, h5⟩ := dbd_st_more_results_fail w e m st rest hp
  have h2b : (dbd_st_more_results w).2.sth.result = some { res with freed := true } := by
    rw [h2, hres]; rfl
  refine ⟨h1, h2b, by rw [hlive]; simp, h3, ?_⟩
  rw [dbd_st_fetch_row (dbd_st_more_results w).2 { res with freed := true } cols more h2b hrows,
    h4, h5]

theorem dbd_st_more_results_error_keeps_released_witness :
    (dbd_st_more_results (World_multi (DRIZZLE_RES_one [[some ['x']]])
      [Reply.fail 1064 "syntax error" "42000"])).1 = 0 ∧
    (dbd_st_more_results (World_multi (DRIZZLE_RES_one [[some ['x']]])
      [Reply.fail 1064 "syntax error" "42000"])).2.sth.result =
      some { (DRIZZLE_RES_one [[some ['x']]]) with freed := true } ∧
    (dbd_st_fetch (dbd_st_more_results (World_multi (DRIZZLE_RES_one [[some ['x']]])
      [Reply.fail 1064 "syntax error" "42000"])).2).1 = some [some ⟨['x'], false⟩] :=
  ⟨(dbd_st_more_results_error_keeps_released (World_multi (DRIZZLE_RES_one [[some ['x']]])
      [Reply.fail 1064 "syntax error" "42000"]) (DRIZZLE_RES_one [[some ['x']]])
      1064 "syntax error" "42000" [] [some ['x']] [] rfl rfl rfl rfl).1,
    by decide, by decide⟩

/-! ## The value dbd_st_execute returns -/

theorem to_int_small (r : Nat) (h : r < 2 ^ 31) : to_int r = (r : Int) := by
  unfold to_int
  have h1 : r % 2 ^ 32 = r := Nat.mod_eq_of_lt (by omega)
  rw [h1, if_pos h]

theorem to_int_eq_minus_two (r : Nat) : to_int r = -2 ↔ r % 2 ^ 32 = 2 ^ 32 - 2 := by
  unfold to_int
  have hlt : r % 2 ^ 32 < 2 ^ 32 := Nat.mod_lt _ (by norm_num)
  generalize r % 2 ^ 32 = m at hlt ⊢
  have e1 : (2 : Nat) ^ 32 = 4294967296 := by norm_num
  have e2 : (2 : Nat) ^ 31 = 2147483648 := by norm_num
  have e3 : (2 : Int) ^ 32 = 4294967296 := by norm_num
  rw [e1] at hlt
  rw [e1, e2, e3]
  by_cases h : m < 2147483648
  · rw [if_pos h]
    constructor
    · intro hx; exfalso; omega
    · intro hx; omega
  · rw [if_neg h]
    constructor
    · intro hx; omega
    · intro hx; omega

theorem to_int_neg (r : Nat) : to_int r < 0 ↔ 2 ^ 31 ≤ r % 2 ^ 32 := by
  unfold to_int
  have hlt : r % 2 ^ 32 < 2 ^ 32 := Nat.mod_lt _ (by norm_num)
  generalize r % 2 ^ 32 = m at hlt ⊢
  have e1 : (2 : Nat) ^ 32 = 4294967296 := by norm_num
  have e2 : (2 : Nat) ^ 31 = 2147483648 := by norm_num
  have e3 : (2 : Int) ^ 32 = 4294967296 := by norm_num
  rw [e1] at hlt
  rw [e2, e3]
  by_cases h : m < 2147483648
  · rw [if_pos h]
    constructor
    · intro hx; omega
    · intro hx; omega
  · rw [if_neg h]
    constructor
    · intro _; omega
    · intro _; omega

theorem dbd_st_execute_row_num (to_bool : Nat → Nat) (escape : List Char → List Char)
    (w : World) :
    (dbd_st_execute to_bool escape w).1 = to_int (dbd_st_execute to_bool escape w).2.sth.row_num ∧
    (dbd_st_execute to_bool escape w).2.sth.row_num =
      (drizzle_st_internal_execute to_bool escape HandleType.DBIt_ST
        (drizzle_st_free_result_sets
          { w with sth := { w.sth with av_attr := List.replicate AV_ATTRIB_LAST none } }).2
        w.sth.Statement
        (drizzle_st_free_result_sets
          { w with sth := { w.sth with av_attr := List.replicate AV_ATTRIB_LAST none } }).2.sth.NUM_PARAMS
        (drizzle_st_free_result_sets
          { w with sth := { w.sth with av_attr := List.replicate AV_ATTRIB_LAST none } }).2.sth.params
        (drizzle_st_free_result_sets
          { w with sth := { w.sth with av_attr := List.replicate AV_ATTRIB_LAST none } }).2.sth.result
        (drizzle_st_free_result_sets
          { w with sth := { w.sth with av_attr := List.replicate AV_ATTRIB_LAST none } }).2.sth.use_drizzle_use_result).1 := by
  unfold dbd_st_execute
  simp only []
  split_ifs
  · split <;> (constructor <;> first | rfl | trivial)
  · constructor <;> first | rfl | trivial

/-- C30, amended: `dbd_st_execute` returns the row count of
`drizzle_st_internal_execute` narrowed to a 32-bit `int`.  It returns -2 when
the internal execution failed (2^64 - 2); a successful count below 2^31 is
returned as it is, so it is neither negative nor -2; in general the returned
int is -2 exactly for the counts that are 2^32 - 2 modulo 2^32, and negative
exactly for the counts whose bit 31 is set. -/
theorem dbd_st_execute_narrows (to_bool : Nat → Nat) (escape : List Char → List Char)
    (w : World) (r : Nat) (hr : r < 2 ^ 31) :
    (dbd_st_execute to_bool escape w).1 =
      to_int (drizzle_st_internal_execute to_bool escape HandleType.DBIt_ST
        (drizzle_st_free_result_sets
          { w with sth := { w.sth with av_attr := List.replicate AV_ATTRIB_LAST none } }).2
        w.sth.Statement
        (drizzle_st_free_result_sets
          { w with sth := { w.sth with av_attr := List.replicate AV_ATTRIB_LAST none } }).2.sth.NUM_PARAMS
        (drizzle_st_free_result_sets
          { w with sth := { w.sth with av_attr := List.replicate AV_ATTRIB_LAST none } }).2.sth.params
        (drizzle_st_free_result_sets
          { w with sth := { w.sth with av_attr := List.replicate AV_ATTRIB_LAST none } }).2.sth.result
        (drizzle_st_free_result_sets
          { w with sth := { w.sth with av_attr := List.replicate AV_ATTRIB_LAST none } }).2.sth.use_drizzle_use_result).1 ∧
    to_int EXECUTE_FAILED = -2 ∧
    to_int r = (r : Int) ∧ 0 ≤ to_int r ∧ to_int r ≠ -2 ∧
    (∀ n : Nat, to_int n = -2 ↔ n % 2 ^ 32 = 2 ^ 32 - 2) ∧
    (∀ n : Nat, to_int n < 0 ↔ 2 ^ 31 ≤ n % 2 ^ 32) := by
  have hs := to_int_small r hr
  obtain ⟨e1, e2⟩ := dbd_st_execute_row_num to_bool escape w
  refine ⟨by rw [e1, e2], by decide, hs, by rw [hs]; omega, by rw [hs]; omega,
    to_int_eq_minus_two, to_int_neg⟩

theorem dbd_st_execute_narrows_witness :
    (7 : Nat) < 2 ^ 31 ∧ to_int 7 = 7 ∧
    (dbd_st_execute id drizzle_escape_string
      (World_connected "DELETE FROM t".toList [] 0 [[Reply.ok 7]])).1 = 7 :=
  ⟨by decide,
    (dbd_st_execute_narrows id drizzle_escape_string
      (World_connected "DELETE FROM t".toList [] 0 [[Reply.ok 7]]) 7 (by decide)).2.2.1,
    by decide⟩

/-- C30, counterexample: the server reports 2^32 - 2 affected rows for a
statement; the internal execution succeeds (no error is recorded) and
`dbd_st_execute` returns -2.  For 2^31 affected rows it returns -2^31. -/
theorem dbd_st_execute_success_minus_two :
    (dbd_st_execute id drizzle_escape_string
      (World_connected "DELETE FROM t".toList [] 0 [[Reply.ok 4294967294]])).1 = -2 ∧
    (dbd_st_execute id drizzle_escape_string
      (World_connected "DELETE FROM t".toList [] 0 [[Reply.ok 4294967294]])).2.sth.row_num =
      4294967294 ∧
    (4294967294 : Nat) ≠ EXECUTE_FAILED ∧
    (dbd_st_execute id drizzle_escape_string
      (World_connected "DELETE FROM t".toList [] 0 [[Reply.ok 4294967294]])).2.sth.errors = [] ∧
    (dbd_st_execute id drizzle_escape_string
      (World_connected "DELETE FROM t".toList [] 0 [[Reply.ok 2147483648]])).1 =
      -2147483648 := by
  refine ⟨by decide, by decide, by decide, by decide, by decide⟩

/-! ## The reconnect counters -/

theorem strEQ_initial (t : List Char) (ht : NUL ∉ t) :
    ∀ s : List Char, strEQ s t = true → t <+: s := by
  induction t with
  | nil => intro s _; exact List.nil_prefix
  | cons d t ih =>
    intro s h
    have hd : d ≠ NUL := fun hx => ht (by rw [hx]; exact List.mem_cons_self _ _)
    have ht2 : NUL ∉ t := fun hx => ht (List.mem_cons_of_mem _ hx)
    cases s with
    | nil =>
      simp only [strEQ, beq_iff_eq] at h
      exact absurd h hd
    | cons c s =>
      simp only [strEQ] at h
      by_cases hcd : c = d
      · subst hcd
        simp only [ne_eq, not_true_eq_false, if_false, if_neg hd] at h
        exact (List.prefix_cons_inj c).2 (ih ht2 s h)
      · simp [hcd] at h

theorem strEQ_length (s t : List Char) (ht : NUL ∉ t) (h : strEQ s t = true) :
    t.length ≤ s.length :=
  (strEQ_initial t ht s h).length_le

theorem dbd_db_STORE_attrib_unknown (D : Nat) (w : World) (key : List Char) (b : Bool)
    (iv : Int) (hk : key.length ≠ 10) :
    dbd_db_STORE_attrib D w key b iv = (some false, w) := by
  have h1 : ¬ (key.length = 10 ∧ strEQ key "AutoCommit".toList = true) := fun h => hk h.1
  have h2 : ¬ (key.length = 16 ∧ strEQ key "drizzle_use_result".toList = true) := by
    rintro ⟨hl, he⟩
    have := strEQ_length key _ (by decide) he
    simp at this
    omega
  have h3 : ¬ (key.length = 20 ∧ strEQ key "drizzle_auto_reconnect".toList = true) := by
    rintro ⟨hl, he⟩
    have := strEQ_length key _ (by decide) he
    simp at this
    omega
  have h4 : ¬ (key.length = 31 ∧
      strEQ key "drizzle_unsafe_bind_type_guessing".toList = true) := by
    rintro ⟨hl, he⟩
    have := strEQ_length key _ (by decide) he
    simp at this
    omega
  have h5 : ¬ (key.length = 17 ∧ strEQ key "drizzle_enable_utf8".toList = true) := by
    rintro ⟨hl, he⟩
    have := strEQ_length key _ (by decide) he
    simp at this
    omega
  unfold dbd_db_STORE_attrib
  simp only [if_neg h1, if_neg h2, if_neg h3, if_neg h4, if_neg h5]

theorem db_FETCH_switch_e_underscore (stat : Bool) (w : World) (rest : List Char) (kl : Nat) :
    db_FETCH_switch stat w ('e' :: '_' :: rest) kl = none := by
  unfold db_FETCH_switch
  simp [strEQ, NUL]

theorem dbd_db_FETCH_attrib_drizzle (stat : Bool) (w : World) (key : List Char)
    (hk : strncmp_zero key "drizzle_".toList 8 = true) :
    dbd_db_FETCH_attrib stat w key = none := by
  have hp : "drizzle_".toList.isPrefixOf key = true := by
    rw [← strncmp_zero_eq_isPrefixOf "drizzle_".toList (by decide) key]
    exact hk
  obtain ⟨rest, hrest⟩ := List.isPrefixOf_iff_prefix.1 hp
  subst hrest
  unfold dbd_db_FETCH_attrib
  have h1 : ¬ (("drizzle_".toList ++ rest).headD NUL = 'A' ∧
      strEQ ("drizzle_".toList ++ rest) "AutoCommit".toList = true) := by
    rintro ⟨h, -⟩
    exact absurd h (show ¬ ('d' = 'A') by decide)
  rw [if_neg h1, if_pos hk]
  exact db_FETCH_switch_e_underscore stat w rest _

/-- C21: for each of the names drizzle_auto_reconnect, drizzle_use_result
and drizzle_unsafe_bind_type_guessing and every value, `dbd_db_STORE_attrib`
returns FALSE (unknown key) and leaves the session as it was, and
`dbd_db_FETCH_attrib` returns NULL for the name, as for every name that
starts with `drizzle_`.  The store tests the key length against 16, 20 and
31, the lengths of the names with the `mysql_` beginning, so that no key can
pass; the fetch skips 6 bytes of the 8 of `drizzle_`.  The fetch does know
`auto_reconnect` and `unsafe_bind_type_guessing` without the beginning. -/
theorem dbd_db_attrib_drizzle_names (D : Nat) (stat : Bool) (w : World) (b : Bool) (iv : Int)
    (key : List Char)
    (hkey : key ∈ ["drizzle_auto_reconnect".toList, "drizzle_use_result".toList,
      "drizzle_unsafe_bind_type_guessing".toList]) :
    dbd_db_STORE_attrib D w key b iv = (some false, w) ∧
    dbd_db_FETCH_attrib stat w key = none ∧
    (∀ (k : List Char) (b2 : Bool) (iv2 : Int), k.length ≠ 10 →
      dbd_db_STORE_attrib D w k b2 iv2 = (some false, w)) ∧
    (∀ k : List Char, strncmp_zero k "drizzle_".toList 8 = true →
      dbd_db_FETCH_attrib stat w k = none) ∧
    dbd_db_FETCH_attrib stat w "auto_reconnect".toList =
      some (AttribSV.iv (if w.dbh.auto_reconnect then 1 else 0)) ∧
    dbd_db_FETCH_attrib stat w "unsafe_bind_type_guessing".toList =
      some (AttribSV.iv w.dbh.bind_type_guessing) := by
  have hlen : key.length ≠ 10 := by
    simp only [List.mem_cons, List.mem_singleton, List.not_mem_nil, or_false] at hkey
    rcases hkey with h | h | h <;> subst h <;> decide
  have hpre : strncmp_zero key "drizzle_".toList 8 = true := by
    simp only [List.mem_cons, List.mem_singleton, List.not_mem_nil, or_false] at hkey
    rcases hkey with h | h | h <;> subst h <;> decide
  exact ⟨dbd_db_STORE_attrib_unknown D w key b iv hlen,
    dbd_db_FETCH_attrib_drizzle stat w key hpre,
    fun k b2 iv2 hk => dbd_db_STORE_attrib_unknown D w k b2 iv2 hk,
    fun k hk => dbd_db_FETCH_attrib_drizzle stat w k hk, rfl, rfl⟩

theorem dbd_db_attrib_drizzle_names_witness :
    "drizzle_auto_reconnect".toList ∈ ["drizzle_auto_reconnect".toList,
      "drizzle_use_result".toList, "drizzle_unsafe_bind_type_guessing".toList] ∧
    dbd_db_STORE_attrib 512 (World_connected [] [] 0 []) "drizzle_auto_reconnect".toList
      true 1 = (some false, World_connected [] [] 0 []) ∧
    dbd_db_FETCH_attrib false (World_connected [] [] 0 []) "drizzle_auto_reconnect".toList =
      none :=
  ⟨by decide,
    (dbd_db_attrib_drizzle_names 512 false (World_connected [] [] 0 []) true 1
      "drizzle_auto_reconnect".toList (by decide)).1,
    (dbd_db_attrib_drizzle_names 512 false (World_connected [] [] 0 []) true 1
      "drizzle_auto_reconnect".toList (by decide)).2.1⟩

/-! ## Attributes of the statement handle -/

theorem st_FETCH_m_none (attrib_sv : Int → DRIZZLE_FIELD → Option Fetched) (w : World)
    (key : List Char) (kl : Nat) (hm : key.headD NUL = 'm') :
    st_FETCH_m attrib_sv w key kl = (none, w) := by
  cases key with
  | nil => exact absurd hm (by decide)
  | cons c rest =>
    simp only [List.headD_cons] at hm
    subst hm
    unfold st_FETCH_m
    simp [strEQ]

theorem dbd_st_FETCH_attrib_other (attrib_sv : Int → DRIZZLE_FIELD → Option Fetched)
    (w : World) (key : List Char)
    (h1 : strEQ key "NAME".toList = false) (h2 : strEQ key "NULLABLE".toList = false)
    (h3 : strEQ key "PRECISION".toList = false) (h4 : strEQ key "ParamValues".toList = false)
    (h5 : strEQ key "SCALE".toList = false) (h6 : strEQ key "TYPE".toList = false) :
    dbd_st_FETCH_attrib attrib_sv w key = (none, w) := by
  unfold dbd_st_FETCH_attrib
  simp only [h1, h2, h3, h4, h5, h6, Bool.false_eq_true, if_false]
  split_ifs
  all_goals first | rfl | exact st_FETCH_m_none attrib_sv w key _ (by assumption)

theorem strEQ_head (c : Char) (lit : List Char) (key : List Char) (hc : c ≠ NUL)
    (h : key.headD NUL ≠ c) : strEQ key (c :: lit) = false := by
  cases key with
  | nil => simp [strEQ, hc]
  | cons d rest =>
    simp only [List.headD_cons] at h
    simp [strEQ, h]

theorem dbd_st_FETCH_attrib_d (attrib_sv : Int → DRIZZLE_FIELD → Option Fetched)
    (w : World) (key : List Char) (hd : key.headD NUL = 'd') :
    dbd_st_FETCH_attrib attrib_sv w key = (none, w) := by
  have hN : key.headD NUL ≠ 'N' := by rw [hd]; decide
  have hP : key.headD NUL ≠ 'P' := by rw [hd]; decide
  have hS : key.headD NUL ≠ 'S' := by rw [hd]; decide
  have hT : key.headD NUL ≠ 'T' := by rw [hd]; decide
  exact dbd_st_FETCH_attrib_other attrib_sv w key
    (strEQ_head 'N' _ key (by decide) hN) (strEQ_head 'N' _ key (by decide) hN)
    (strEQ_head 'P' _ key (by decide) hP) (strEQ_head 'P' _ key (by decide) hP)
    (strEQ_head 'S' _ key (by decide) hS) (strEQ_head 'T' _ key (by decide) hT)

/-- C22: `dbd_st_FETCH_attrib` returns a value for NAME, TYPE, NULLABLE,
PRECISION, SCALE and ParamValues and NULL for every name that is none of
these six; so it returns NULL for drizzle_is_key, drizzle_is_blob,
drizzle_is_auto_increment, drizzle_warning_count and drizzle_insertid, as for
every name that starts with the letter d: the arm for the driver's own names
is `case 'm'`. -/
theorem dbd_st_FETCH_attrib_names (attrib_sv : Int → DRIZZLE_FIELD → Option Fetched)
    (w : World) (key : List Char)
    (hkey : key ∈ ["drizzle_is_key".toList, "drizzle_is_blob".toList,
      "drizzle_is_auto_increment".toList, "drizzle_warning_count".toList,
      "drizzle_insertid".toList]) :
    dbd_st_FETCH_attrib attrib_sv w key = (none, w) ∧
    key ∈ st_attrib_names ∧
    (∀ k : List Char, k.headD NUL = 'd' → dbd_st_FETCH_attrib attrib_sv w k = (none, w)) ∧
    (∀ k : List Char, k ∈ ["NAME".toList, "TYPE".toList, "NULLABLE".toList,
        "PRECISION".toList, "SCALE".toList, "ParamValues".toList] →
      (dbd_st_FETCH_attrib attrib_sv w k).1 ≠ none) ∧
    (∀ k : List Char, (dbd_st_FETCH_attrib attrib_sv w k).1 ≠ none →
      strEQ k "NAME".toList = true ∨ strEQ k "TYPE".toList = true ∨
      strEQ k "NULLABLE".toList = true ∨ strEQ k "PRECISION".toList = true ∨
      strEQ k "SCALE".toList = true ∨ strEQ k "ParamValues".toList = true) := by
  have hd : key.headD NUL = 'd' := by
    simp only [List.mem_cons, List.mem_singleton, List.not_mem_nil, or_false] at hkey
    rcases hkey with h | h | h | h | h <;> subst h <;> decide
  have hmem : key ∈ st_attrib_names := by
    simp only [List.mem_cons, List.mem_singleton, List.not_mem_nil, or_false] at hkey
    rcases hkey with h | h | h | h | h <;> subst h <;> decide
  refine ⟨dbd_st_FETCH_attrib_d attrib_sv w key hd, hmem,
    fun k hk => dbd_st_FETCH_attrib_d attrib_sv w k hk, ?_, ?_⟩
  · intro k hk
    simp only [List.mem_cons, List.mem_singleton, List.not_mem_nil, or_false] at hk
    rcases hk with h | h | h | h | h | h <;> subst h <;>
      simp [dbd_st_FETCH_attrib, ST_FETCH_AV, strEQ, NUL]
  · intro k hk
    by_contra hno
    simp only [not_or, Bool.not_eq_true] at hno
    obtain ⟨n1, n2, n3, n4, n5, n6⟩ := hno
    exact hk (by rw [dbd_st_FETCH_attrib_other attrib_sv w k n1 n3 n4 n6 n5 n2])

theorem dbd_st_FETCH_attrib_names_witness :
    "drizzle_insertid".toList ∈ ["drizzle_is_key".toList, "drizzle_is_blob".toList,
      "drizzle_is_auto_increment".toList, "drizzle_warning_count".toList,
      "drizzle_insertid".toList] ∧
    dbd_st_FETCH_attrib attrib_sv_nullable
      (World_multi (DRIZZLE_RES_one [[some ['x']]]) []) "drizzle_insertid".toList =
      (none, World_multi (DRIZZLE_RES_one [[some ['x']]]) []) ∧
    (dbd_st_FETCH_attrib attrib_sv_nullable
      (World_multi (DRIZZLE_RES_one [[some ['x']]]) []) "NULLABLE".toList).1 =
      some (AttribSV.av [some ⟨['1'], false⟩]) :=
  ⟨by decide,
    (dbd_st_FETCH_attrib_names attrib_sv_nullable
      (World_multi (DRIZZLE_RES_one [[some ['x']]]) []) "drizzle_insertid".toList
      (by decide)).1,
    by decide⟩

/-! ## The closing parenthesis and the LIMIT state -/

set_option maxRecDepth 8000

theorem items_cons_no_limit (q : Spec.QState) (c : Char) (rest : List Char)
    (h : (decide (q = Spec.QState.top) && Spec.limit_here c rest) = false) :
    Spec.items q false (c :: rest) =
      (if q = Spec.QState.top ∧ c = '?' then Spec.Item.slot false else Spec.Item.text c) ::
        Spec.items (Spec.next_state q c) false rest := by
  cases q with
  | escaped e => simp [Spec.items, Spec.next_state]
  | quoted e =>
    have hq : ¬ (Spec.QState.quoted e = Spec.QState.top ∧ c = '?') := by simp
    rw [if_neg hq]
    simp only [Spec.items, Spec.next_state]
    split_ifs <;> rfl
  | top =>
    simp only [decide_True, Bool.true_and] at h
    simp only [Spec.items, Spec.next_state]
    by_cases h1 : is_quote c = true
    · have hc : c ≠ '?' := fun h => by rw [h, is_quote_ne_qmark] at h1; cases h1
      simp [h1, hc]
    · by_cases h2 : c = '?'
      · simp [h1, h2, is_quote_ne_qmark]
      · by_cases h3 : c = ')'
        · simp [h1, h2, h3, is_quote_ne_close]
        · simp [h1, h2, h3, h]

theorem items_no_limit (b tail : List Char) :
    ∀ q : Spec.QState, Spec.limit_in q b tail = false →
      ∃ X : List Spec.Item,
        Spec.items q false (b ++ tail) = X ++ Spec.items (Spec.state_after q b) false tail ∧
        Spec.flags X = List.replicate (Spec.slots q b) false := by
  induction b with
  | nil => intro q _; exact ⟨[], by simp [Spec.state_after], by simp [Spec.flags, Spec.slots]⟩
  | cons c rest ih =>
    intro q hm
    simp only [Spec.limit_in, Bool.or_eq_false_iff] at hm
    obtain ⟨X, hX, hn⟩ := ih (Spec.next_state q c) hm.2
    refine ⟨(if q = Spec.QState.top ∧ c = '?' then Spec.Item.slot false
      else Spec.Item.text c) :: X, ?_, ?_⟩
    · rw [List.cons_append, items_cons_no_limit q c (rest ++ tail) hm.1, hX, Spec.state_after,
        List.cons_append]
    · rw [Spec.slots]
      split_ifs with hq
      · rw [Nat.add_comm, List.replicate_succ]
        simp [Spec.flags, hn]
      · simp [Spec.flags, hn]

theorem items_top_close (l : Bool) (rest : List Char) :
    Spec.items Spec.QState.top l (')' :: rest) =
      Spec.Item.text ')' :: Spec.items Spec.QState.top false rest := by
  simp [Spec.items, is_quote_ne_close]

theorem items_top_qmark (l : Bool) (rest : List Char) :
    Spec.items Spec.QState.top l ('?' :: rest) =
      Spec.Item.slot l :: Spec.items Spec.QState.top l rest := by
  simp [Spec.items, is_quote_ne_qmark]

theorem flags_after_close (a b post : List Char)
    (ha : Spec.state_after Spec.QState.top a = Spec.QState.top)
    (hb : Spec.state_after Spec.QState.top b = Spec.QState.top)
    (hlim : Spec.limit_in Spec.QState.top b ('?' :: post) = false) :
    (Spec.flags (Spec.scan (a ++ ')' :: (b ++ '?' :: post))))[
      Spec.slots Spec.QState.top a + Spec.slots Spec.QState.top b]? = some false := by
  obtain ⟨X1, l2, hX1, hn1⟩ := items_append a (')' :: (b ++ '?' :: post)) Spec.QState.top false
  obtain ⟨X3, hX3, hn3⟩ := items_no_limit b ('?' :: post) Spec.QState.top hlim
  rw [Spec.scan, hX1, ha, items_top_close, hX3, hb, items_top_qmark]
  simp only [flags_append, Spec.flags, hn3]
  rw [List.getElem?_append_right (by omega), hn1, Nat.add_sub_cancel_left,
    List.getElem?_append_right (by simp)]
  simp

/-- C23: the statement
`(SELECT a FROM t LIMIT ?) UNION SELECT b FROM u WHERE c = ?` with the values
5 and x, both typed SQL_VARCHAR, is rewritten to
`(SELECT a FROM t LIMIT 5) UNION SELECT b FROM u WHERE c = 'x'`.  In general,
when the statement (leading whitespace skipped) is `a ++ ")" ++ b ++ "?" ++
post`, where `a` and `b` stop outside quoted regions (so the `)` and the `?`
stand outside them) and no LIMIT keyword is recognised in `b` outside quoted
regions, the placeholder after `b` is replaced, for a defined value whose
slot has a declared non-numeric type, by the escaped value between single
quotes, whatever `a` holds.  A `)` inside a quoted region does not reset:
when `mid` follows a recognised LIMIT keyword, holds a `)` and has none
outside quoted regions, every placeholder of `mid` is still replaced by the
value's numeric prefix with no quotes. -/
theorem parse_params_close_resets_limit :
    parse_params drizzle_escape_string
        "(SELECT a FROM t LIMIT ?) UNION SELECT b FROM u WHERE c = ?".toList
        [⟨some ⟨true, false, "5".toList⟩, SQL_VARCHAR⟩,
          ⟨some ⟨true, false, "x".toList⟩, SQL_VARCHAR⟩] 2 0 =
      some ("(SELECT a FROM t LIMIT 5) UNION SELECT b FROM u WHERE c = ".toList ++
        [SQUOTE, 'x', SQUOTE], 61) ∧
    (∀ (escape : List Char → List Char) (statement : List Char)
      (params : List imp_sth_ph_t) (num_params g : Nat) (a b post : List Char)
      (ph : imp_sth_ph_t) (sv : SV),
      1 ≤ num_params → params.length = num_params →
      statement.dropWhile isspace = a ++ ')' :: (b ++ '?' :: post) →
      Spec.state_after Spec.QState.top a = Spec.QState.top →
      Spec.state_after Spec.QState.top b = Spec.QState.top →
      Spec.limit_in Spec.QState.top b ('?' :: post) = false →
      params[Spec.slots Spec.QState.top a + Spec.slots Spec.QState.top b]? = some ph →
      ph.value = some sv → sv.ok = true → ph.type ≠ 0 → is_num_type ph.type = false →
      parse_params escape statement params num_params g =
        some (Spec.weave (Spec.segments (Spec.scan (statement.dropWhile isspace)))
            (Spec.replacements escape statement params num_params g),
          (Spec.rewritten escape statement params num_params g).length) ∧
      (Spec.replacements escape statement params num_params g)[
          Spec.slots Spec.QState.top a + Spec.slots Spec.QState.top b]? =
        some (SQUOTE :: (escape sv.pv ++ [SQUOTE]))) ∧
    (∀ (escape : List Char → List Char) (statement : List Char)
      (params : List imp_sth_ph_t) (num_params g : Nat) (pre kw mid post : List Char)
      (c : Char) (j : Nat) (ph : imp_sth_ph_t) (sv : SV),
      1 ≤ num_params → params.length = num_params →
      statement.dropWhile isspace = pre ++ c :: (kw ++ ' ' :: '?' :: (mid ++ post)) →
      Spec.state_after Spec.QState.top pre = Spec.QState.top →
      (c = 'l' ∨ c = 'L') → (kw = "imit".toList ∨ kw = "IMIT".toList) →
      ')' ∈ mid → Spec.top_close Spec.QState.top mid = false →
      Spec.slots Spec.QState.top pre ≤ j →
      j ≤ Spec.slots Spec.QState.top pre + Spec.slots Spec.QState.top mid →
      params[j]? = some ph → ph.value = some sv → sv.ok = true →
      (Spec.replacements escape statement params num_params g)[j]? =
        some (sv.pv.take (parse_number sv.pv sv.pv.length).2)) := by
  refine ⟨rfl, ?_, ?_⟩
  · intro escape statement params num_params g a b post ph sv hn hlen hs ha hb hlim hph hv
      hok ht hnum
    have hl : (Spec.flags (Spec.scan (statement.dropWhile isspace)))[
        Spec.slots Spec.QState.top a + Spec.slots Spec.QState.top b]? = some false := by
      rw [hs]
      exact flags_after_close a b post ha hb hlim
    refine ⟨parse_params_eq escape statement params num_params g hn, ?_⟩
    rw [replacements_consumed escape statement params num_params g _ ph false hlen hph hl,
      parse_params_guess_declared g ph ht,
      parse_params_value_string escape ph sv hv hok hnum]
  · intro escape statement params num_params g pre kw mid post c j ph sv _ hlen hs hpre hc
      hkw _ hmid h1 h2 hph hv hok
    have hl : (Spec.flags (Spec.scan (statement.dropWhile isspace)))[j]? = some true := by
      rw [hs]
      exact flags_after_limit pre mid post kw c j hpre hc hkw hmid h1 h2
    rw [replacements_consumed escape statement params num_params g j ph true hlen hph hl,
      parse_params_value_numeric escape _ sv true
        (by rw [parse_params_guess_value]; exact hv) hok (by simp)]

theorem parse_params_close_resets_limit_witness :
    ("(SELECT a FROM t LIMIT ?) UNION SELECT b FROM u WHERE c = ?".toList.dropWhile isspace =
        "(SELECT a FROM t LIMIT ?".toList ++
          ')' :: (" UNION SELECT b FROM u WHERE c = ".toList ++ '?' :: []) ∧
      Spec.state_after Spec.QState.top "(SELECT a FROM t LIMIT ?".toList = Spec.QState.top ∧
      Spec.state_after Spec.QState.top " UNION SELECT b FROM u WHERE c = ".toList =
        Spec.QState.top ∧
      Spec.limit_in Spec.QState.top " UNION SELECT b FROM u WHERE c = ".toList ['?'] =
        false ∧
      Spec.slots Spec.QState.top "(SELECT a FROM t LIMIT ?".toList +
        Spec.slots Spec.QState.top " UNION SELECT b FROM u WHERE c = ".toList = 1) ∧
    (Spec.replacements drizzle_escape_string
      "(SELECT a FROM t LIMIT ?) UNION SELECT b FROM u WHERE c = ?".toList
      [⟨some ⟨true, false, "5".toList⟩, SQL_VARCHAR⟩,
        ⟨some ⟨true, false, "x".toList⟩, SQL_VARCHAR⟩] 2 0)[
        Spec.slots Spec.QState.top "(SELECT a FROM t LIMIT ?".toList +
          Spec.slots Spec.QState.top " UNION SELECT b FROM u WHERE c = ".toList]? =
      some (SQUOTE :: (drizzle_escape_string "x".toList ++ [SQUOTE])) ∧
    ("LIMIT ? /* \x27)\x27 */ , ?".toList.dropWhile isspace =
        [] ++ 'L' :: ("IMIT".toList ++ ' ' :: '?' :: (" /* \x27)\x27 */ , ?".toList ++ [])) ∧
      ')' ∈ " /* \x27)\x27 */ , ?".toList ∧
      Spec.top_close Spec.QState.top " /* \x27)\x27 */ , ?".toList = false ∧
      Spec.slots Spec.QState.top [] + Spec.slots Spec.QState.top " /* \x27)\x27 */ , ?".toList =
        1) ∧
    (Spec.replacements drizzle_escape_string "LIMIT ? /* \x27)\x27 */ , ?".toList
      [⟨some ⟨true, false, "5".toList⟩, SQL_VARCHAR⟩,
        ⟨some ⟨true, false, "7x".toList⟩, SQL_VARCHAR⟩] 2 0)[1]? =
      some ("7x".toList.take (parse_number "7x".toList "7x".toList.length).2) ∧
    "7x".toList.take (parse_number "7x".toList "7x".toList.length).2 = ['7'] :=
  ⟨⟨by decide, by decide, by decide, by decide, by decide⟩,
    (parse_params_close_resets_limit.2.1 drizzle_escape_string
      "(SELECT a FROM t LIMIT ?) UNION SELECT b FROM u WHERE c = ?".toList
      [⟨some ⟨true, false, "5".toList⟩, SQL_VARCHAR⟩,
        ⟨some ⟨true, false, "x".toList⟩, SQL_VARCHAR⟩] 2 0
      "(SELECT a FROM t LIMIT ?".toList " UNION SELECT b FROM u WHERE c = ".toList []
      ⟨some ⟨true, false, "x".toList⟩, SQL_VARCHAR⟩ ⟨true, false, "x".toList⟩
      (by decide) rfl (by decide) (by decide) (by decide) (by decide) (by decide) rfl rfl
      (by decide) (by decide)).2,
    ⟨by decide, by decide, by decide, by decide⟩,
    parse_params_close_resets_limit.2.2 drizzle_escape_string
      "LIMIT ? /* \x27)\x27 */ , ?".toList
      [⟨some ⟨true, false, "5".toList⟩, SQL_VARCHAR⟩,
        ⟨some ⟨true, false, "7x".toList⟩, SQL_VARCHAR⟩] 2 0
      [] "IMIT".toList " /* \x27)\x27 */ , ?".toList [] 'L' 1
      ⟨some ⟨true, false, "7x".toList⟩, SQL_VARCHAR⟩ ⟨true, false, "7x".toList⟩
      (by decide) rfl (by decide) (by decide) (Or.inr rfl) (Or.inr rfl) (by decide)
      (by decide) (by decide) (by decide) (by decide) rfl rfl,
    by decide⟩

/-! ## The allocation of parse_params -/

theorem parse_params_alen_loop_add (params : List imp_sth_ph_t) :
    ∀ (rounds i alen : Nat),
      parse_params_alen_loop params rounds i alen =
        alen + parse_params_alen_loop params rounds i 0 := by
  intro rounds
  induction rounds with
  | zero => intro i alen; simp [parse_params_alen_loop]
  | succ m ih =>
    intro i alen
    simp only [parse_params_alen_loop]
    rw [ih (i + 1) (alen + _), ih (i + 1) (0 + _)]
    omega

theorem parse_params_alen_slot_ge (ph : imp_sth_ph_t) : 3 ≤ parse_params_alen_slot ph := by
  unfold parse_params_alen_slot
  split
  · exact Nat.le_refl 3
  · split_ifs <;> omega

theorem parse_params_alen_loop_ge (params : List imp_sth_ph_t) (rounds i : Nat)
    (h : 1 ≤ rounds) : 3 ≤ parse_params_alen_loop params rounds i 0 := by
  cases rounds with
  | zero => omega
  | succ m =>
    simp only [parse_params_alen_loop]
    rw [parse_params_alen_loop_add]
    have := parse_params_alen_slot_ge (params.getD i ⟨none, 0⟩)
    omega

theorem parse_params_alen_slot_guess (g : Nat) (ph : imp_sth_ph_t) :
    parse_params_alen_slot (parse_params_guess g ph) = parse_params_alen_slot ph := by
  simp only [parse_params_alen_slot, parse_params_guess_value]

theorem parse_params_value_length (escape : List Char → List Char)
    (hesc : ∀ v, (escape v).length ≤ 2 * v.length) (ph : imp_sth_ph_t) (l : Bool) :
    (parse_params_value escape ph l).length + 2 ≤ 2 * parse_params_alen_slot ph := by
  unfold parse_params_value parse_params_alen_slot
  cases ph.value with
  | none => simp
  | some sv =>
    simp only
    split_ifs
    · simp
    · have := hesc sv.pv
      simp only [List.length_cons, List.length_append, List.length_nil]
      omega
    · rw [List.length_take]
      omega

theorem items_length (s : List Char) :
    ∀ (q : Spec.QState) (l : Bool), (Spec.items q l s).length = s.length := by
  induction s with
  | nil => intro q l; cases q <;> simp [Spec.items]
  | cons c rest ih =>
    intro q l
    obtain ⟨l2, h, _⟩ := items_cons q l c rest
    rw [h, List.length_cons, ih, List.length_cons]

theorem weave_length_le (its : List Spec.Item) :
    ∀ rs : List (List Char),
      (Spec.weave (Spec.segments its) rs).length ≤
        its.length + (rs.map List.length).sum := by
  induction its with
  | nil => intro rs; cases rs <;> simp [Spec.segments, Spec.weave]
  | cons it rest ih =>
    intro rs
    cases it with
    | text c =>
      rw [weave_text, List.length_cons, List.length_cons]
      have := ih rs
      omega
    | slot l =>
      cases rs with
      | nil =>
        have := ih []
        simp only [Spec.segments, Spec.weave, List.nil_append, List.length_cons]
        omega
      | cons r rs =>
        have := ih rs
        simp only [Spec.segments, Spec.weave, List.nil_append, List.length_append,
          List.length_cons, List.map_cons, List.sum_cons]
        omega

theorem renderings_sum_le (escape : List Char → List Char)
    (hesc : ∀ v, (escape v).length ≤ 2 * v.length) (params : List imp_sth_ph_t) (n : Nat)
    (fl : List Bool) :
    ∀ i, ((Spec.renderings escape params n i fl).map List.length).sum +
        2 * min fl.length (n - i) ≤ 2 * parse_params_alen_loop params (n - i) i 0 := by
  induction fl with
  | nil => intro i; simp [Spec.renderings]
  | cons l ls ih =>
    intro i
    have h1 := ih (i + 1)
    simp only [Spec.renderings, List.map_cons, List.sum_cons, List.length_cons]
    by_cases hi : i < n
    · rw [if_pos hi]
      have e : n - i = (n - (i + 1)) + 1 := by omega
      rw [e, parse_params_alen_loop, parse_params_alen_loop_add]
      have h2 := parse_params_value_length escape hesc (params.getD i ⟨none, 0⟩) l
      have h3 : min (ls.length + 1) (n - (i + 1) + 1) = min ls.length (n - (i + 1)) + 1 := by
        omega
      rw [h3]
      omega
    · rw [if_neg hi]
      have e : n - i = 0 := by omega
      have e2 : n - (i + 1) = 0 := by omega
      rw [e2] at h1
      rw [e]
      simpa using h1

theorem parse_params_alen_loop_types (params : List imp_sth_ph_t) (n g : Nat)
    (hlen : params.length = n) :
    ∀ (rounds i alen : Nat),
      parse_params_alen_loop (parse_params_types params n g) rounds i alen =
        parse_params_alen_loop params rounds i alen := by
  intro rounds
  induction rounds with
  | zero => intro i alen; rfl
  | succ m ih =>
    intro i alen
    simp only [parse_params_alen_loop]
    rw [ih, parse_params_types_getD params n g i hlen, parse_params_alen_slot_guess]

theorem parse_params_alen_loop_sum (params : List imp_sth_ph_t) :
    ∀ (rounds i : Nat), i + rounds ≤ params.length →
      parse_params_alen_loop params rounds i 0 =
        (((params.drop i).take rounds).map parse_params_alen_slot).sum := by
  intro rounds
  induction rounds with
  | zero => intro i _; simp [parse_params_alen_loop]
  | succ m ih =>
    intro i h
    have hi : i < params.length := by omega
    simp only [parse_params_alen_loop]
    rw [parse_params_alen_loop_add, ih (i + 1) (by omega), List.drop_eq_getElem_cons hi,
      List.take_succ_cons, List.map_cons, List.sum_cons, List.getD_eq_getElem params _ hi]
    omega

/-- C24: for every statement, every `num_params >= 1` and every parameter
store of `num_params` slots, `parse_params` returns a text and stores its
length; `alen` is the length of the statement after the leading-whitespace
skip plus, summed over the slots, 3 for an absent or undefined value and the
value length plus 3 for a defined one; and when escaping a value of length L
writes at most 2*L bytes, the bytes written (the text and the terminating NUL)
are at most the `2*alen` bytes allocated. -/
theorem parse_params_alen_bound (escape : List Char → List Char) (statement : List Char)
    (params : List imp_sth_ph_t) (num_params g : Nat) (hn : 1 ≤ num_params)
    (hlen : params.length = num_params)
    (hesc : ∀ v, (escape v).length ≤ 2 * v.length) :
    ∃ out : List Char,
      parse_params escape statement params num_params g = some (out, out.length) ∧
      out.length + 1 ≤ 2 * parse_params_alen statement params num_params ∧
      parse_params_alen statement params num_params =
        (statement.dropWhile isspace).length + (params.map parse_params_alen_slot).sum := by
  refine ⟨Spec.rewritten escape statement params num_params g,
    parse_params_eq escape statement params num_params g hn, ?_, ?_⟩
  · have h1 := weave_length_le (Spec.scan (statement.dropWhile isspace))
      (Spec.replacements escape statement params num_params g)
    have h2 := renderings_sum_le escape hesc (parse_params_types params num_params g)
      num_params (Spec.flags (Spec.scan (statement.dropWhile isspace))) 0
    have h3 := parse_params_alen_loop_ge params num_params 0 hn
    have h5 : (Spec.scan (statement.dropWhile isspace)).length =
        (statement.dropWhile isspace).length := items_length _ _ _
    rw [h5] at h1
    rw [parse_params_alen_loop_types params num_params g hlen, Nat.sub_zero] at h2
    unfold Spec.rewritten Spec.replacements
    unfold Spec.replacements at h1
    unfold parse_params_alen
    rw [parse_params_alen_loop_add]
    generalize Spec.flags (Spec.scan (statement.dropWhile isspace)) = fl at h1 h2 ⊢
    cases fl with
    | nil =>
      simp only [Spec.renderings, List.map_nil, List.sum_nil] at h1 ⊢
      omega
    | cons l ls =>
      have h4 : 1 ≤ min (l :: ls).length num_params := by
        simp only [List.length_cons]
        omega
      omega
  · unfold parse_params_alen
    rw [parse_params_alen_loop_add, parse_params_alen_loop_sum params num_params 0 (by omega),
      List.drop_zero, ← hlen, List.take_length]

theorem drizzle_escape_string_length_le (v : List Char) :
    (drizzle_escape_string v).length ≤ 2 * v.length := by
  induction v with
  | nil => simp [drizzle_escape_string]
  | cons c rest ih =>
    simp only [drizzle_escape_string]
    split_ifs <;> simp only [List.length_cons] <;> omega

theorem parse_params_alen_bound_witness :
    (1 ≤ 2 ∧
      [(⟨some ⟨true, false, "a\x27b".toList⟩, SQL_VARCHAR⟩ : imp_sth_ph_t),
        ⟨none, 0⟩].length = 2 ∧
      parse_params_alen " SELECT ?, ?".toList
        [⟨some ⟨true, false, "a\x27b".toList⟩, SQL_VARCHAR⟩, ⟨none, 0⟩] 2 = 20 ∧
      parse_params drizzle_escape_string " SELECT ?, ?".toList
        [⟨some ⟨true, false, "a\x27b".toList⟩, SQL_VARCHAR⟩, ⟨none, 0⟩] 2 0 =
        some ("SELECT ".toList ++ [SQUOTE, 'a', BACKSLASH, SQUOTE, 'b', SQUOTE] ++
          ", NULL".toList, 19)) ∧
    ∃ out : List Char,
      parse_params drizzle_escape_string " SELECT ?, ?".toList
        [⟨some ⟨true, false, "a\x27b".toList⟩, SQL_VARCHAR⟩, ⟨none, 0⟩] 2 0 =
        some (out, out.length) ∧
      out.length + 1 ≤ 2 * parse_params_alen " SELECT ?, ?".toList
        [⟨some ⟨true, false, "a\x27b".toList⟩, SQL_VARCHAR⟩, ⟨none, 0⟩] 2 ∧
      parse_params_alen " SELECT ?, ?".toList
          [⟨some ⟨true, false, "a\x27b".toList⟩, SQL_VARCHAR⟩, ⟨none, 0⟩] 2 =
        (" SELECT ?, ?".toList.dropWhile isspace).length +
          ([(⟨some ⟨true, false, "a\x27b".toList⟩, SQL_VARCHAR⟩ : imp_sth_ph_t),
            ⟨none, 0⟩].map parse_params_alen_slot).sum :=
  ⟨⟨by decide, rfl, by decide, by decide⟩,
    parse_params_alen_bound drizzle_escape_string " SELECT ?, ?".toList
      [⟨some ⟨true, false, "a\x27b".toList⟩, SQL_VARCHAR⟩, ⟨none, 0⟩] 2 0 (by decide) rfl
      drizzle_escape_string_length_le⟩

/-! ## Fetching after an execute -/

theorem dbd_st_fetch_last_state (w : World) (res : DRIZZLE_RES) (hres : w.sth.result = some res)
    (hrows : res.rows = []) (hp : w.dbh.pdrizzle.pending = []) :
    (dbd_st_fetch w).2.sth.errors = w.sth.errors ∧
    (dbd_st_fetch w).2.sth.currow = w.sth.currow + 1 := by
  unfold dbd_st_fetch
  simp only [hres, drizzle_fetch_row, hrows, drizzle_more_results, hp, ne_eq, not_true_eq_false,
    if_false, List.isEmpty_nil, Bool.not_true, Bool.not_false, if_true, true_and]
  unfold dbd_st_finish drizzle_st_free_result_sets
  simp [hp, free_result_sets_loop, free_result_sets_use, free_result_sets_release,
    drizzle_next_result]

theorem install_reply_connected (con : DRIZZLE) (r : Reply) :
    (install_reply con r).connected = con.connected := by
  cases r <;> rfl

theorem free_result_sets_loop_frame : ∀ (fuel : Nat) (rc : Int) (w : World),
    (free_result_sets_loop fuel rc w).2.srv = w.srv ∧
    (free_result_sets_loop fuel rc w).2.dbh.pdrizzle.connected = w.dbh.pdrizzle.connected ∧
    (free_result_sets_loop fuel rc w).2.dbh.bind_type_guessing = w.dbh.bind_type_guessing ∧
    (free_result_sets_loop fuel rc w).2.sth.params = w.sth.params ∧
    (free_result_sets_loop fuel rc w).2.sth.NUM_PARAMS = w.sth.NUM_PARAMS ∧
    (free_result_sets_loop fuel rc w).2.sth.use_drizzle_use_result =
      w.sth.use_drizzle_use_result := by
  intro fuel
  induction fuel with
  | zero => intro rc w; exact ⟨rfl, rfl, rfl, rfl, rfl, rfl⟩
  | succ fuel ih =>
    intro rc w
    have hu : (free_result_sets_use rc w).2.srv = w.srv ∧
        (free_result_sets_use rc w).2.dbh.pdrizzle.connected = w.dbh.pdrizzle.connected ∧
        (free_result_sets_use rc w).2.dbh.bind_type_guessing = w.dbh.bind_type_guessing ∧
        (free_result_sets_use rc w).2.sth.params = w.sth.params ∧
        (free_result_sets_use rc w).2.sth.NUM_PARAMS = w.sth.NUM_PARAMS ∧
        (free_result_sets_use rc w).2.sth.use_drizzle_use_result =
          w.sth.use_drizzle_use_result := by
      unfold free_result_sets_use
      have hc : (drizzle_use_result w.dbh.pdrizzle).2.connected = w.dbh.pdrizzle.connected := by
        unfold drizzle_use_result drizzle_take_result
        split <;> rfl
      by_cases hrc : rc = 0
      · simp only [if_pos hrc]
        split_ifs
        · exact ⟨rfl, hc, rfl, rfl, rfl, rfl⟩
        · exact ⟨rfl, hc, rfl, rfl, rfl, rfl⟩
      · rw [if_neg hrc]
        exact ⟨rfl, rfl, rfl, rfl, rfl, rfl⟩
    have hr : ∀ x : World, (free_result_sets_release x).srv = x.srv ∧
        (free_result_sets_release x).dbh = x.dbh ∧
        (free_result_sets_release x).sth.params = x.sth.params ∧
        (free_result_sets_release x).sth.NUM_PARAMS = x.sth.NUM_PARAMS ∧
        (free_result_sets_release x).sth.use_drizzle_use_result =
          x.sth.use_drizzle_use_result := by
      intro x
      unfold free_result_sets_release
      split_ifs <;> exact ⟨rfl, rfl, rfl, rfl, rfl⟩
    have hn : ∀ c : DRIZZLE, (drizzle_next_result c).2.connected = c.connected := by
      intro c
      unfold drizzle_next_result
      split
      · rfl
      · exact install_reply_connected _ _
      · exact install_reply_connected _ _
    obtain ⟨u1, u2, u3, u4, u5, u6⟩ := hu
    obtain ⟨r1, r2, r3, r4, r5⟩ := hr (free_result_sets_use rc w).2
    rw [free_result_sets_loop]
    by_cases hb : (free_result_sets_use rc w).1 = true
    · simp only [hb, if_true]
      exact ⟨u1, u2, u3, u4, u5, u6⟩
    · simp only [hb, Bool.false_eq_true, if_false]
      have base : ∀ x : World,
          x = { free_result_sets_release (free_result_sets_use rc w).2 with
            dbh := { (free_result_sets_release (free_result_sets_use rc w).2).dbh with
              pdrizzle := (drizzle_next_result
                (free_result_sets_release (free_result_sets_use rc w).2).dbh.pdrizzle).2 } } →
          x.srv = w.srv ∧ x.dbh.pdrizzle.connected = w.dbh.pdrizzle.connected ∧
          x.dbh.bind_type_guessing = w.dbh.bind_type_guessing ∧
          x.sth.params = w.sth.params ∧ x.sth.NUM_PARAMS = w.sth.NUM_PARAMS ∧
          x.sth.use_drizzle_use_result = w.sth.use_drizzle_use_result := by
        intro x hx
        subst hx
        refine ⟨r1.trans u1, ?_, ?_, r3.trans u4, r4.trans u5, r5.trans u6⟩
        · show (drizzle_next_result _).2.connected = _
          rw [hn, r2, u2]
        · show (free_result_sets_release (free_result_sets_use rc w).2).dbh.bind_type_guessing = _
          rw [r2, u3]
      obtain ⟨b1, b2, b3, b4, b5, b6⟩ := base _ rfl
      split_ifs
      · obtain ⟨i1, i2, i3, i4, i5, i6⟩ := ih 0
          { free_result_sets_release (free_result_sets_use rc w).2 with
            dbh := { (free_result_sets_release (free_result_sets_use rc w).2).dbh with
              pdrizzle := (drizzle_next_result
                (free_result_sets_release (free_result_sets_use rc w).2).dbh.pdrizzle).2 } }
        exact ⟨i1.trans b1, i2.trans b2, i3.trans b3, i4.trans b4, i5.trans b5, i6.trans b6⟩
      · exact ⟨b1, b2, b3, b4, b5, b6⟩
      · exact ⟨b1, b2, b3, b4, b5, b6⟩

theorem real_query_ok (w : World) (sbuf : List Char) (n : Nat) (rs : List Reply)
    (rest : List (List Reply)) (hc : w.dbh.pdrizzle.connected = true)
    (ha : w.srv.answers = (Reply.ok n :: rs) :: rest) :
    (real_query w sbuf).1 = 0 ∧ (real_query w sbuf).2.dbh.pdrizzle.unread = none ∧
    (real_query w sbuf).2.dbh.pdrizzle.affected_rows = n := by
  unfold real_query drizzle_real_query
  simp [hc, ha, install_reply]

theorem dbd_st_execute_no_result (to_bool : Nat → Nat) (escape : List Char → List Char)
    (w : World) (n : Nat) (rs : List Reply) (rest : List (List Reply))
    (hc : w.dbh.pdrizzle.connected = true)
    (ha : w.srv.answers = (Reply.ok n :: rs) :: rest)
    (hl : is_listfields (execute_text escape w.sth.Statement w.sth.NUM_PARAMS w.sth.params
      (to_bool w.dbh.bind_type_guessing)) = false) :
    (dbd_st_execute to_bool escape w).2.sth.result = none ∧
    (dbd_st_execute to_bool escape w).1 = to_int n := by
  obtain ⟨f1, f2, f3, f4, f5, f6⟩ := free_result_sets_loop_frame
    ({ w with sth := { w.sth with av_attr := List.replicate AV_ATTRIB_LAST none } }
      : World).dbh.pdrizzle.pending.length.succ (-1)
    { w with sth := { w.sth with av_attr := List.replicate AV_ATTRIB_LAST none } }
  unfold dbd_st_execute
  simp only []
  generalize hw1 : (drizzle_st_free_result_sets
    { w with sth := { w.sth with av_attr := List.replicate AV_ATTRIB_LAST none } }).2 = w1
  have g1 : w1.srv = w.srv := by rw [← hw1]; exact f1
  have g2 : w1.dbh.pdrizzle.connected = w.dbh.pdrizzle.connected := by rw [← hw1]; exact f2
  have g3 : w1.dbh.bind_type_guessing = w.dbh.bind_type_guessing := by rw [← hw1]; exact f3
  have g4 : w1.sth.params = w.sth.params := by rw [← hw1]; exact f4
  have g5 : w1.sth.NUM_PARAMS = w.sth.NUM_PARAMS := by rw [← hw1]; exact f5
  rw [g4, g5]
  have hl1 : is_listfields (execute_text escape w.sth.Statement w.sth.NUM_PARAMS w.sth.params
      (to_bool w1.dbh.bind_type_guessing)) = false := by rw [g3]; exact hl
  obtain ⟨q1, q2, q3⟩ := real_query_ok w1 (execute_text escape w.sth.Statement w.sth.NUM_PARAMS
    w.sth.params (to_bool w1.dbh.bind_type_guessing)) n rs rest (g2.trans hc) (g1 ▸ ha)
  have hq := execute_query_sent w1 (execute_text escape w.sth.Statement w.sth.NUM_PARAMS
    w.sth.params (to_bool w1.dbh.bind_type_guessing)) q1
  have hq2 : (execute_query w1 (execute_text escape w.sth.Statement w.sth.NUM_PARAMS
      w.sth.params (to_bool w1.dbh.bind_type_guessing))).2 =
      (real_query w1 (execute_text escape w.sth.Statement w.sth.NUM_PARAMS
        w.sth.params (to_bool w1.dbh.bind_type_guessing))).2 := by rw [hq]
  obtain ⟨e1, e2, e3⟩ := internal_execute_sent to_bool escape HandleType.DBIt_ST w1
    w.sth.Statement w.sth.NUM_PARAMS w.sth.params w1.sth.result w1.sth.use_drizzle_use_result
    hl1 (by rw [hq])
  obtain ⟨x1, x2, x3, x4⟩ := execute_result_spec HandleType.DBIt_ST
    (real_query w1 (execute_text escape w.sth.Statement w.sth.NUM_PARAMS
      w.sth.params (to_bool w1.dbh.bind_type_guessing))).2 w1.sth.use_drizzle_use_result
  have ht : drizzle_take_result w1.sth.use_drizzle_use_result
      (real_query w1 (execute_text escape w.sth.Statement w.sth.NUM_PARAMS
        w.sth.params (to_bool w1.dbh.bind_type_guessing))).2.dbh.pdrizzle =
      (none, (real_query w1 (execute_text escape w.sth.Statement w.sth.NUM_PARAMS
        w.sth.params (to_bool w1.dbh.bind_type_guessing))).2.dbh.pdrizzle) := by
    unfold drizzle_take_result
    rw [q2]
  simp only [ht] at x2 x4
  rw [hq2, x2] at e2
  rw [hq2, x4, q3] at e1
  rw [e1, e2]
  constructor
  · split_ifs <;> rfl
  · split_ifs <;> rfl

/-- C17, amended: in every state of a statement handle that holds no result
set, `dbd_st_fetch` returns no row and changes nothing but the error record
of the handle, to which it adds JW_ERR_SEQUENCE; the current-row counter stays
as it was.  The handle holds no result set after `dbd_st_prepare`, after
`dbd_st_finish`, after the fetch that finds no row left while nothing is
pending, and after a `dbd_st_execute` whose statement the connection answers
with an OK reply (no result set).  A handle that holds a result set without
rows, as after the execute of a query that yields no rows, is not such a
state: its first fetch returns no row, records no error and advances the
current-row counter. -/
theorem dbd_st_fetch_without_result (w : World) (h : w.sth.result = none) :
    (dbd_st_fetch w).1 = none ∧
    (dbd_st_fetch w).2 = { w with sth := { w.sth with errors :=
      w.sth.errors ++ [⟨JW_ERR_SEQUENCE, "fetch() without execute()", none⟩] } } ∧
    (dbd_st_fetch w).2.sth.currow = w.sth.currow ∧
    (∀ (w0 : World) (statement : List Char) (attr : Option Bool),
      (dbd_st_prepare w0 statement attr).2.sth.result = none) ∧
    (∀ w0 : World, (dbd_st_finish w0).2.sth.result = none) ∧
    (∀ (w0 : World) (res : DRIZZLE_RES), w0.sth.result = some res → res.rows = [] →
      w0.dbh.pdrizzle.pending = [] →
      (dbd_st_fetch w0).1 = none ∧ (dbd_st_fetch w0).2.sth.result = none) ∧
    (∀ (to_bool : Nat → Nat) (escape : List Char → List Char) (w0 : World) (n : Nat)
      (rs : List Reply) (rest : List (List Reply)),
      w0.dbh.pdrizzle.connected = true → w0.srv.answers = (Reply.ok n :: rs) :: rest →
      is_listfields (execute_text escape w0.sth.Statement w0.sth.NUM_PARAMS w0.sth.params
        (to_bool w0.dbh.bind_type_guessing)) = false →
      (dbd_st_execute to_bool escape w0).2.sth.result = none ∧
      (dbd_st_execute to_bool escape w0).1 = to_int n) ∧
    (∀ (w0 : World) (res : DRIZZLE_RES), w0.sth.result = some res → res.rows = [] →
      w0.dbh.pdrizzle.pending = [] →
      (dbd_st_fetch w0).1 = none ∧ (dbd_st_fetch w0).2.sth.errors = w0.sth.errors ∧
      (dbd_st_fetch w0).2.sth.currow = w0.sth.currow + 1) := by
  have e : dbd_st_fetch w = (none, do_error HandleType.DBIt_ST JW_ERR_SEQUENCE
      "fetch() without execute()" none w) := by
    unfold dbd_st_fetch
    simp only [h]
  rw [e]
  exact ⟨rfl, rfl, rfl, dbd_st_prepare_result, dbd_st_finish_result, dbd_st_fetch_last,
    dbd_st_execute_no_result,
    fun w0 res h1 h2 h3 => ⟨(dbd_st_fetch_last w0 res h1 h2 h3).1,
      dbd_st_fetch_last_state w0 res h1 h2 h3⟩⟩

theorem dbd_st_fetch_without_result_witness :
    (World_prepared "SELECT ?".toList).sth.result = none ∧
    (dbd_st_fetch (World_prepared "SELECT ?".toList)).1 = none ∧
    (dbd_st_fetch (World_prepared "SELECT ?".toList)).2.sth.errors =
      [⟨19, "fetch() without execute()", none⟩] ∧
    ((World_connected "DELETE FROM t".toList [] 0 [[Reply.ok 0]]).dbh.pdrizzle.connected = true ∧
      (World_connected "DELETE FROM t".toList [] 0 [[Reply.ok 0]]).srv.answers =
        (Reply.ok 0 :: []) :: [] ∧
      (dbd_st_fetch (dbd_st_execute id drizzle_escape_string
        (World_connected "DELETE FROM t".toList [] 0 [[Reply.ok 0]])).2).2.sth.errors =
        [⟨19, "fetch() without execute()", none⟩]) ∧
    ((dbd_st_execute id drizzle_escape_string
        (World_connected "DELETE FROM t".toList [] 0 [[Reply.ok 0]])).2.sth.result = none ∧
      (dbd_st_execute id drizzle_escape_string
        (World_connected "DELETE FROM t".toList [] 0 [[Reply.ok 0]])).1 = to_int 0) :=
  ⟨by decide,
    (dbd_st_fetch_without_result (World_prepared "SELECT ?".toList) (by decide)).1,
    (congrArg (fun x : World => x.sth.errors)
      (dbd_st_fetch_without_result (World_prepared "SELECT ?".toList)
        (by decide)).2.1).trans (by decide),
    ⟨by decide, by decide, by decide⟩,
    (dbd_st_fetch_without_result (World_prepared "SELECT ?".toList) (by decide)).2.2.2.2.2.2.1
      id drizzle_escape_string (World_connected "DELETE FROM t".toList [] 0 [[Reply.ok 0]])
      0 [] [] (by decide) (by decide) (by decide)⟩

/-- C17, counterexample: the execute of a query that yields no rows leaves
the handle with a result set (of no rows); the first `dbd_st_fetch` returns
no row, records no error, JW_ERR_SEQUENCE in particular, and advances the
current-row counter. -/
theorem dbd_st_fetch_empty_result_set :
    (dbd_st_execute id drizzle_escape_string
      (World_connected "SELECT 1".toList [] 0 [[Reply.rows (DRIZZLE_RES_one [])]])).1 = 0 ∧
    (dbd_st_execute id drizzle_escape_string
      (World_connected "SELECT 1".toList [] 0 [[Reply.rows (DRIZZLE_RES_one [])]])).2.sth.result =
      some (DRIZZLE_RES_one []) ∧
    (dbd_st_fetch (dbd_st_execute id drizzle_escape_string
      (World_connected "SELECT 1".toList [] 0 [[Reply.rows (DRIZZLE_RES_one [])]])).2).1 = none ∧
    (dbd_st_fetch (dbd_st_execute id drizzle_escape_string
      (World_connected "SELECT 1".toList [] 0
        [[Reply.rows (DRIZZLE_RES_one [])]])).2).2.sth.errors = [] ∧
    (dbd_st_fetch (dbd_st_execute id drizzle_escape_string
      (World_connected "SELECT 1".toList [] 0
        [[Reply.rows (DRIZZLE_RES_one [])]])).2).2.sth.currow =
      (dbd_st_execute id drizzle_escape_string
        (World_connected "SELECT 1".toList [] 0
          [[Reply.rows (DRIZZLE_RES_one [])]])).2.sth.currow + 1 := by
  refine ⟨by decide, by decide, by decide, by decide, by decide⟩

end DBDDrizzle
